import Mathlib

/-!
Ticket store of the helpdesk backend.

A shallow embedding of the ticket and user routes of `backend/server.js`, of
the attachment reader `getImages` and of the status select of the React client
and of the notification poller of `NotificationSystem.js`.

Modelling conventions.

* The JSON document `UserTicket.json` is the list of its records, in file
  order.  Every handler reads the whole document, works on the list and, on
  success, writes the whole list back.  The handlers are given twice.  First
  as functions from the list read to
  `Except ApiError (list written × response payload)`, in exact integer
  arithmetic.  Then, in the namespace `Route`, statement by statement as
  computations on the data file (`Handler`), with `readJSON` and `writeJSON`
  as steps, the new id rounded to a double and the number of arguments of the
  spread call bounded by the engine; `createTicket_on_file`,
  `updateTicket_on_file`, `updateFeedbackOnly_on_file`, `appendImages_on_file`
  and `deleteTicket_on_file` relate the two.
* JavaScript numbers that occur here are integer valued; they are modelled by
  `Int`, and `toDouble` rounds where a sum is formed.  `NaN` is serialised by
  `JSON.stringify` as `null`, both in the document and in the response, so a
  field holding the result of `parseInt` is an `Option Int` with `none` for
  `NaN`/`null`.
* The upload middleware runs before a handler: `file` and `files` stand for
  `req.file` and `req.files`, what the middleware accepted.
* The text fields of a `multipart/form-data` body are strings; an absent field
  is `undefined`, modelled by `none`.
* `new Date().toISOString()` is an input of the handler.
* A run of the poller is taken from the answer of its request on: after the
  `await` the function runs to its end without another suspension.
-/

namespace TicketStore

/-! ## JavaScript primitives used by the handlers -/

/-- White space removed by `parseInt` from the start of its argument
(`StrWhiteSpaceChar`: TAB, LF, VT, FF, CR, SP, NBSP, the Unicode space
separators, LS, PS and the byte order mark). -/
def isStrWhiteSpace (c : Char) : Bool :=
  let n := c.toNat
  n == 9 || n == 10 || n == 11 || n == 12 || n == 13 || n == 32 || n == 160 || n == 5760 ||
  (decide (8192 ≤ n) && decide (n ≤ 8202)) || n == 8232 || n == 8233 || n == 8239 ||
  n == 8287 || n == 12288 || n == 65279

/-- Value of an alphanumeric character read as a digit (`0-9`, `a-z`, `A-Z`). -/
def digitValue (c : Char) : Option Nat :=
  let n := c.toNat
  if 48 ≤ n ∧ n ≤ 57 then some (n - 48)
  else if 97 ≤ n ∧ n ≤ 122 then some (n - 87)
  else if 65 ≤ n ∧ n ≤ 90 then some (n - 55)
  else none

/-- The digits of the longest run of radix-`radix` digits at the start of the input. -/
def radixDigits (radix : Nat) : List Char → List Nat
  | [] => []
  | c :: cs =>
    match digitValue c with
    | some d => if d < radix then d :: radixDigits radix cs else []
    | none => []

/-- Integer denoted by a digit sequence, most significant digit first. -/
def digitsValue (radix : Nat) (ds : List Nat) : Nat :=
  ds.foldl (fun acc d => acc * radix + d) 0

/-- `parseInt(string)` without a radix argument, on the characters of the string:
leading white space is skipped, an optional sign is read, a `0x`/`0X` mark
selects radix 16, and the longest run of digits is converted; `none` is `NaN`. -/
def parseIntChars (cs : List Char) : Option Int :=
  let s := cs.dropWhile isStrWhiteSpace
  let neg := s.head? == some '-'
  let s := if s.head? == some '-' || s.head? == some '+' then s.tail else s
  let hex := s.take 2 == ['0', 'x'] || s.take 2 == ['0', 'X']
  let radix := if hex then 16 else 10
  let s := if hex then s.drop 2 else s
  let ds := radixDigits radix s
  if ds.isEmpty then none
  else if neg then some (- (digitsValue radix ds : Int))
  else some (digitsValue radix ds : Int)

/-- `parseInt(s)` for a string `s`. -/
def parseInt (s : String) : Option Int := parseIntChars s.toList

/-- `parseInt(v)` for a form field `v` that may be `undefined`
(`parseInt(undefined)` is `NaN`). -/
def parseIntField : Option String → Option Int
  | some s => parseInt s
  | none => none

/-- `parseInt(n)` for an integer-valued number `n`: the number is first
converted to its decimal string. -/
def parseIntNumber (n : Int) : Option Int := parseInt (toString n)

/-- Truthiness of a form field: `undefined` and the empty string are falsy. -/
def truthy : Option String → Bool
  | some s => s != ""
  | none => false

/-- The test `v !== undefined && v !== ''` on a form field. -/
def isSupplied : Option String → Bool
  | some s => s != ""
  | none => false

/-- `v || d` for a form field `v` and a string `d`. -/
def jsOr : Option String → String → String
  | some s, d => if s != "" then s else d
  | none, d => d

/-- Falsiness of a parsed number: `NaN` and `0` are falsy. -/
def numFalsy : Option Int → Bool
  | none => true
  | some n => n == 0

/-- `Math.max(...xs)` on a non-empty argument list (the handlers call it only
behind the guard `length > 0`; on no arguments JavaScript returns `-Infinity`,
which is outside this model and never reached).  The value only: that the
engine refuses a call with too many arguments is part of `Route.nextId`. -/
def mathMax : List Int → Int
  | [] => 0
  | x :: xs => xs.foldl max x

/-! ## Data model -/

/-- Outcome of a request that is not a success. -/
inductive ApiError
  /-- status 400 -/
  | validation
  /-- status 404 -/
  | notFound
  /-- status 500, an exception caught by the handler -/
  | server
deriving DecidableEq, Repr

/-- A record of `UserTicket.json`.  `images` is `none` when the record has no
`images` key (`Array.isArray` is false); `image` is `none` when it is `null`. -/
structure Ticket where
  id : Int
  userId : Option Int
  title : String
  description : String
  category : String
  priority : String
  userTo : Option Int
  status : String
  feedback : Option Int
  image : Option String
  images : Option (List String)
  createdAt : String
  updatedAt : String
deriving DecidableEq, Repr

/-- Text fields of the body of `POST /api/tickets`. -/
structure CreateBody where
  userId : Option String
  title : Option String
  description : Option String
  category : Option String
  priority : Option String
  userTo : Option String
  feedback : Option String
deriving DecidableEq, Repr

/-- Text fields of the body of `PUT /api/tickets/:id`. -/
structure UpdateBody where
  title : Option String
  description : Option String
  category : Option String
  priority : Option String
  status : Option String
  userTo : Option String
  feedback : Option String
deriving DecidableEq, Repr

/-- The path stored for an uploaded file with the given stored file name. -/
def uploadPath (filename : String) : String := "/uploads/" ++ filename

/-- `tickets.findIndex(p)`; `none` is `-1`. -/
def findIndex (p : Ticket → Bool) : List Ticket → Option Nat
  | [] => none
  | t :: ts => if p t then some 0 else (findIndex p ts).map (· + 1)

/-- The predicate `t => t.id === ticketId`, where `ticketId` is the result of
`parseInt` (`NaN` is equal to nothing). -/
def idMatches (ticketId : Option Int) (t : Ticket) : Bool := ticketId == some t.id

/-- Truthiness of the `image` field of a record: `null` and `""` are falsy. -/
def imageSet : Option String → Bool
  | some p => p != ""
  | none => false

/-! ## Handlers -/

/-- The id given to a new record,
`tickets.length > 0 ? Math.max(...tickets.map(t => t.id)) + 1 : 1`, in exact
arithmetic (`Route.nextId` is the engine's evaluation; the two agree on a
document within the engine's argument limit whose ids are safe integers). -/
def nextId (tickets : List Ticket) : Int :=
  if tickets.length > 0 then mathMax (tickets.map (fun t => t.id)) + 1 else 1

/-- Handler of `POST /api/tickets` (upload middleware: at most one file, under
the field `image`; `file` is its stored name).  Returns the document written
and the ticket of the response. -/
def createTicket (createdAt updatedAt : String) (tickets : List Ticket) (body : CreateBody)
    (file : Option String) : Except ApiError (List Ticket × Ticket) :=
  if !truthy body.userId || !truthy body.title || !truthy body.description
      || !truthy body.userTo then
    .error .validation
  else
    let newTicket : Ticket :=
      { id := nextId tickets
        userId := parseIntField body.userId
        title := body.title.getD ""
        description := body.description.getD ""
        category := jsOr body.category "General"
        priority := jsOr body.priority "Medium"
        userTo := parseIntField body.userTo
        status := "Open"
        feedback := parseIntField body.feedback
        image := file.map uploadPath
        images := none
        createdAt := createdAt
        updatedAt := updatedAt }
    .ok (tickets ++ [newTicket], newTicket)

/-- Handler of `PUT /api/tickets/:id/feedback` for a JSON body whose `feedback`
is an integer-valued number.  The guard is
`!feedback || feedback < 1 || feedback > 5`. -/
def updateFeedbackOnly (now : String) (tickets : List Ticket) (idParam : String)
    (feedback : Int) : Except ApiError (List Ticket × Ticket) :=
  let ticketId := parseInt idParam
  if feedback == 0 || decide (feedback < 1) || decide (feedback > 5) then
    .error .validation
  else
    match findIndex (idMatches ticketId) tickets with
    | none => .error .notFound
    | some ticketIndex =>
      match tickets[ticketIndex]? with
      | none => .error .server
      | some ticket =>
        let updated : Ticket :=
          { ticket with
            feedback := parseIntNumber feedback
            updatedAt := now }
        .ok (tickets.set ticketIndex updated, updated)

/-- The attachment list computed by `PUT /api/tickets/:id` before the new file
is appended (`currentImages`): `ticket.images` when it is an array, else
`[ticket.image]` when `ticket.image` is truthy, else `[]`. -/
def currentImages (ticket : Ticket) : List String :=
  match ticket.images with
  | some imgs => imgs
  | none => if imageSet ticket.image then [ticket.image.getD ""] else []

/-- Handler of `PUT /api/tickets/:id` (upload middleware: at most one file,
under the field `image`). -/
def updateTicket (now : String) (tickets : List Ticket) (idParam : String) (body : UpdateBody)
    (file : Option String) : Except ApiError (List Ticket × Ticket) :=
  let ticketId := parseInt idParam
  if numFalsy ticketId || !truthy body.title || !truthy body.description then
    .error .validation
  else
    match findIndex (idMatches ticketId) tickets with
    | none => .error .notFound
    | some ticketIndex =>
      match tickets[ticketIndex]? with
      | none => .error .server
      | some ticket =>
        let imgs := currentImages ticket
        let imgs :=
          match file with
          | some f => imgs ++ [uploadPath f]
          | none => imgs
        let parsedUserTo :=
          if isSupplied body.userTo then parseIntField body.userTo else ticket.userTo
        let parsedFeedback :=
          if isSupplied body.feedback then parseIntField body.feedback else ticket.feedback
        let updated : Ticket :=
          { ticket with
            title := jsOr body.title ticket.title
            description := jsOr body.description ticket.description
            category := jsOr body.category ticket.category
            priority := jsOr body.priority ticket.priority
            status := jsOr body.status ticket.status
            userTo := parsedUserTo
            feedback := parsedFeedback
            images := some imgs
            image := none
            updatedAt := now }
        .ok (tickets.set ticketIndex updated, updated)

/-- The attachment list computed by `POST /api/tickets/:id/images` before the
new paths are appended (`existingImages`). -/
def existingImages (ticket : Ticket) : List String :=
  match ticket.images with
  | some imgs => imgs
  | none => if imageSet ticket.image then [ticket.image.getD ""] else []

/-- Handler of `POST /api/tickets/:id/images`; `files` are the stored names of
`req.files`, the uploads the middleware `upload.array('images', 5)` accepted
and stored, in request order (`!req.files || req.files.length === 0` is the
empty list).  A request the middleware refuses does not reach the handler. -/
def appendImages (now : String) (tickets : List Ticket) (idParam : String)
    (files : List String) : Except ApiError (List Ticket × Ticket) :=
  let ticketId := parseInt idParam
  if files.length == 0 then .error .validation
  else
    match findIndex (idMatches ticketId) tickets with
    | none => .error .notFound
    | some ticketIndex =>
      match tickets[ticketIndex]? with
      | none => .error .server
      | some ticket =>
        let newImagePaths := files.map uploadPath
        let updatedImages := existingImages ticket ++ newImagePaths
        let updated : Ticket :=
          { ticket with
            images := some updatedImages
            image := none
            updatedAt := now }
        .ok (tickets.set ticketIndex updated, updated)

/-- Handler of `DELETE /api/tickets/:id`.  Returns the document written and the
path of the file the handler removes from the upload directory, if any (the
truthy legacy `image` of the removed record). -/
def deleteTicket (tickets : List Ticket) (idParam : String) :
    Except ApiError (List Ticket × Option String) :=
  let ticketId := parseInt idParam
  match findIndex (idMatches ticketId) tickets with
  | none => .error .notFound
  | some ticketIndex =>
    match tickets[ticketIndex]? with
    | none => .error .server
    | some ticket =>
      let removedFile := if imageSet ticket.image then ticket.image else none
      .ok (tickets.eraseIdx ticketIndex, removedFile)

/-- The reader-side normaliser `getImages` of `ShowDetails.js`; the argument is
`none` for a `null` ticket. -/
def getImages : Option Ticket → List String
  | none => []
  | some ticket =>
    match ticket.images with
    | some (i :: imgs) => i :: imgs
    | _ => if imageSet ticket.image then [ticket.image.getD ""] else []

/-! ## Sequences of requests -/

/-- A request to one of the mutating ticket routes, with the clock readings the
handler takes. -/
inductive Op
  | create (createdAt updatedAt : String) (body : CreateBody) (file : Option String)
  | update (now : String) (idParam : String) (body : UpdateBody) (file : Option String)
  | feedback (now : String) (idParam : String) (rating : Int)
  | addImages (now : String) (idParam : String) (files : List String)
  | delete (idParam : String)
deriving DecidableEq, Repr

/-- The document after a request: the one written by the handler on success,
the one read otherwise (a failing handler writes nothing). -/
def step (tickets : List Ticket) : Op → List Ticket
  | .create c u body file =>
    match createTicket c u tickets body file with
    | .ok (s, _) => s
    | .error _ => tickets
  | .update now p body file =>
    match updateTicket now tickets p body file with
    | .ok (s, _) => s
    | .error _ => tickets
  | .feedback now p r =>
    match updateFeedbackOnly now tickets p r with
    | .ok (s, _) => s
    | .error _ => tickets
  | .addImages now p files =>
    match appendImages now tickets p files with
    | .ok (s, _) => s
    | .error _ => tickets
  | .delete p =>
    match deleteTicket tickets p with
    | .ok (s, _) => s
    | .error _ => tickets

/-- The document after a sequence of requests. -/
def run (tickets : List Ticket) (ops : List Op) : List Ticket := ops.foldl step tickets

/-- The id given by a request, when it is a successful create. -/
def createdId (tickets : List Ticket) : Op → Option Int
  | .create c u body file =>
    match createTicket c u tickets body file with
    | .ok (_, t) => some t.id
    | .error _ => none
  | _ => none

/-- The ids given by the successful creates of a sequence of requests, in order. -/
def assignedIds : List Ticket → List Op → List Int
  | _, [] => []
  | s, op :: ops =>
    match createdId s op with
    | some i => i :: assignedIds (step s op) ops
    | none => assignedIds (step s op) ops

/-- No record has both an `images` array and a non-null `image`: the property
kept by every request. -/
def AttachmentsSeparate (s : List Ticket) : Prop :=
  ∀ t ∈ s, t.images = none ∨ t.image = none

/-! ## Sample requests -/

/-- The create request of the scenario of the specification:
`Create(userId=1, title="Printer down", description="No toner", userTo=2)`. -/
def printerDown : CreateBody :=
  { userId := some "1", title := some "Printer down", description := some "No toner",
    category := none, priority := none, userTo := some "2", feedback := none }

/-- The record that request creates in the empty document. -/
def printerTicket : Ticket :=
  { id := 1, userId := some 1, title := "Printer down", description := "No toner",
    category := "General", priority := "Medium", userTo := some 2, status := "Open",
    feedback := none, image := none, images := none, createdAt := "t0", updatedAt := "t0" }

/-- Ticket 1 once its status has been set to Resolved. -/
def resolvedTicket : Ticket := { printerTicket with status := "Resolved" }

/-- Ticket 1, Resolved, after the rating 4 was stored at time `t1`. -/
def ratedTicket : Ticket := { resolvedTicket with feedback := some 4, updatedAt := "t1" }

/-- An update request that supplies only a new status. -/
def statusOnly : UpdateBody :=
  { title := none, description := none, category := none, priority := none,
    status := some "Closed", userTo := none, feedback := none }

/-- An update request that repeats title and description and names an assignee
that is not a number. -/
def reassignToText : UpdateBody :=
  { title := some "Printer down", description := some "No toner", category := none,
    priority := none, status := none, userTo := some "abc", feedback := none }

/-- An update request that changes title, description, status and assignee. -/
def closeAndReassign : UpdateBody :=
  { title := some "Printer fixed", description := some "New toner", category := none,
    priority := some "", status := some "Closed", userTo := some "3", feedback := none }

/-- A legacy record: ticket 1 with the single image `/uploads/old.png`. -/
def legacyTicket : Ticket := { printerTicket with image := some "/uploads/old.png" }

/-- A record outside the shape the handlers write: an empty `images` array
next to a legacy `image`. -/
def strayTicket : Ticket :=
  { printerTicket with images := some [], image := some "/uploads/old.png" }

/-- An update request that repeats the title and the description of ticket 1. -/
def repeatTitle : UpdateBody :=
  { title := some "Printer down", description := some "No toner", category := none,
    priority := none, status := none, userTo := none, feedback := none }

/-- The create request the form `TicketRaised.js` sends for a ticket assigned
to user 7: the form appends the assignee under `feedback` as well
(`data.append('feedback', formData.userTo)`). -/
def assignedToSeven : CreateBody :=
  { userId := some "1", title := some "Printer down", description := some "No toner",
    category := some "General", priority := some "Medium", userTo := some "7",
    feedback := some "7" }

/-! ## Readers of the attachment fields -/

namespace Dashboard

/-- The normaliser `getImages` of `Dashboard.js` (no test for a `null` ticket). -/
def getImages (ticket : Ticket) : List String :=
  match ticket.images with
  | some (i :: imgs) => i :: imgs
  | _ => if imageSet ticket.image then [ticket.image.getD ""] else []

end Dashboard

/-- The reader rule in the words of the specification: if `images` is a
non-empty sequence, use it; else if `image` is set (a non-empty path), treat it
as a single-element sequence; else empty. -/
def readerRuleSpec (t : Ticket) : List String :=
  if (∃ l, t.images = some l ∧ l ≠ []) then t.images.getD []
  else if (∃ q, t.image = some q ∧ q ≠ "") then [t.image.getD ""]
  else []

/-- The ticket obtained by replacing the attachments of `t` with a sequence:
`images := imgs`, `image := null`. -/
def withAttachments (t : Ticket) (imgs : List String) : Ticket :=
  { t with images := some imgs, image := none }

/-! ## Read-only ticket routes

A read-only handler is given with the document it leaves behind (the one it
read: it never calls `writeJSON`) and its response. -/

/-- `a === b` for a stored value `a` (a number or `null`) and the result `b` of
`parseInt` (a number or `NaN`): only two equal numbers are equal. -/
def strictEqParsed (a b : Option Int) : Bool :=
  match a, b with
  | some x, some y => x == y
  | _, _ => false

/-- Handler of `GET /api/tickets/user/:userId`. -/
def getUserTickets (tickets : List Ticket) (userIdParam : String) :
    List Ticket × List Ticket :=
  let userId := parseInt userIdParam
  let userTickets :=
    tickets.filter (fun t => strictEqParsed t.userId userId || strictEqParsed t.userTo userId)
  (tickets, userTickets)

/-- Handler of `GET /api/tickets`. -/
def getAllTickets (tickets : List Ticket) : List Ticket × List Ticket :=
  (tickets, tickets)

/-- Handler of `GET /api/tickets/:id`. -/
def getTicket (tickets : List Ticket) (idParam : String) :
    List Ticket × Except ApiError Ticket :=
  let ticketId := parseInt idParam
  match tickets.find? (idMatches ticketId) with
  | none => (tickets, .error .notFound)
  | some ticket => (tickets, .ok ticket)

/-! ## Notification poller (`NotificationSystem.js`) -/

/-- `String(v)` for a value that is an integer-valued number or `null`. -/
def jsString : Option Int → String
  | some n => toString n
  | none => "null"

/-- The logged-in user as the poller reads it: only `id` is used. -/
structure CurrentUser where
  id : Int
deriving DecidableEq, Repr

/-- A notification record built by the poller. -/
structure Notif where
  id : String
  ticketId : Int
  title : String
  priority : String
  category : String
  timeAgo : String
deriving DecidableEq, Repr

/-- State of a mounted `NotificationSystem`: the two React state lists and the
two refs.  `seenTicketIds` lists the elements of the JavaScript `Set` in
insertion order. -/
structure PollerState where
  toasts : List Notif
  allNotifs : List Notif
  seenTicketIds : List Int
  isFirstPoll : Bool
deriving DecidableEq, Repr

/-- State of a freshly mounted `NotificationSystem`. -/
def initialPoller : PollerState :=
  { toasts := [], allNotifs := [], seenTicketIds := [], isFirstPoll := true }

/-- `set.add(x)` on the element list of a `Set`. -/
def setAdd (s : List Int) (x : Int) : List Int := if x ∈ s then s else s ++ [x]

/-- `xs.forEach(x => set.add(x))`. -/
def setAddAll (s : List Int) (xs : List Int) : List Int := xs.foldl setAdd s

/-- `newTickets.map(t => (notification record))`; `clock k` is the value of the
`k`-th call of `Date.now()` made by the map, the first argument is the number of
calls already made. -/
def newNotifs (clock : Nat → Int) : Nat → List Ticket → List Notif
  | _, [] => []
  | k, t :: ts =>
    { id := "notif-" ++ toString t.id ++ "-" ++ toString (clock k)
      ticketId := t.id
      title := t.title
      priority := t.priority
      category := t.category
      timeAgo := "just now" } :: newNotifs clock (k + 1) ts

/-- One run of `pollTickets`, from the answer of `ticketAPI.getAllTickets()`
on: `res` is `none` when the request throws, else the ticket list received.
Returns the state after the run and the notification records handed to the
toast and panel lists (the voice and system notifications are issued, best
effort, for the same tickets). -/
def pollTickets (currentUser : Option CurrentUser) (clock : Nat → Int) (st : PollerState)
    (res : Option (List Ticket)) : PollerState × List Notif :=
  match currentUser with
  | none => (st, [])
  | some user =>
    match res with
    | none => (st, [])
    | some tickets =>
      let myTickets := tickets.filter (fun t => jsString t.userTo == jsString (some user.id))
      if st.isFirstPoll then
        ({ st with
            seenTicketIds := setAddAll st.seenTicketIds (myTickets.map (fun t => t.id))
            isFirstPoll := false }, [])
      else
        let newTickets := myTickets.filter (fun t => !(st.seenTicketIds.contains t.id))
        if newTickets.length > 0 then
          let notifs := newNotifs clock 0 newTickets
          ({ st with
              seenTicketIds := setAddAll st.seenTicketIds (newTickets.map (fun t => t.id))
              toasts := st.toasts ++ notifs
              allNotifs := notifs ++ st.allNotifs }, notifs)
        else (st, [])

/-- A ticket with the given id, title and assignee, as the poller receives it. -/
def assignedTicket (id : Int) (title : String) (userTo : Int) : Ticket :=
  { printerTicket with id := id, title := title, userTo := some userTo }

/-! ## Operations on the notification lists (`NotificationSystem.js`) -/

/-- `dismissToast(id)`: `setToasts(prev => prev.filter(t => t.id !== id))`.  The
timer set for a new toast runs the same update after seven seconds. -/
def dismissToast (st : PollerState) (id : String) : PollerState :=
  { st with toasts := st.toasts.filter (fun t => t.id != id) }

/-- `dismissNotif(id)`: `setAllNotifs(prev => prev.filter(n => n.id !== id))`. -/
def dismissNotif (st : PollerState) (id : String) : PollerState :=
  { st with allNotifs := st.allNotifs.filter (fun n => n.id != id) }

/-- `clearAll()`: `setAllNotifs([])`. -/
def clearAll (st : PollerState) : PollerState :=
  { st with allNotifs := [] }

/-- `handleNavigate(ticketId, notifId)`: the state after the two updates and the
path handed to `navigate`. -/
def handleNavigate (st : PollerState) (ticketId : Int) (notifId : String) :
    PollerState × String :=
  ({ st with
      toasts := st.toasts.filter (fun t => t.id != notifId)
      allNotifs := st.allNotifs.filter (fun n => n.id != notifId) },
    "/tickets/" ++ toString ticketId)

/-- What can happen to a mounted `NotificationSystem`: the answer of a poll
arrives (`res = none`: the request failed), or one of the list operations
runs. -/
inductive SessionEvent
  | poll (clock : Nat → Int) (res : Option (List Ticket))
  | dismissToast (id : String)
  | dismissNotif (id : String)
  | clearAll
  | navigate (ticketId : Int) (notifId : String)

/-- The state after an event and the notifications it hands out. -/
def sessionStep (user : CurrentUser) (st : PollerState) : SessionEvent → PollerState × List Notif
  | .poll clock res => pollTickets (some user) clock st res
  | .dismissToast id => (dismissToast st id, [])
  | .dismissNotif id => (dismissNotif st id, [])
  | .clearAll => (clearAll st, [])
  | .navigate ticketId notifId => ((handleNavigate st ticketId notifId).1, [])

/-- The state after a sequence of events and all notifications handed out, in
order. -/
def sessionRun (user : CurrentUser) : PollerState → List SessionEvent → PollerState × List Notif
  | st, [] => (st, [])
  | st, ev :: evs =>
    ((sessionRun user (sessionStep user st ev).1 evs).1,
      (sessionStep user st ev).2 ++ (sessionRun user (sessionStep user st ev).1 evs).2)

/-- A notification for the given ticket id, as the poller builds it at clock
reading 1000. -/
def sampleNotif (ticketId : Int) (title : String) : Notif :=
  { id := "notif-" ++ toString ticketId ++ "-1000", ticketId := ticketId, title := title,
    priority := "Medium", category := "General", timeAgo := "just now" }

/-! ## Status select of the update form (`TicketUpdate.js`, `ShowDetails.js`) -/

/-- The values of the options of the status select of the update form. -/
def statusOptions : List String := ["Open", "In Progress", "Resolved", "Closed"]

/-- The statuses a submit of `TicketUpdate` can send for a ticket whose status
is `status`.  For a ticket that is not Resolved the update form is rendered:
`formData.status` starts as the ticket's status and the select can set it to any
option.  For a Resolved ticket the rating form is rendered and the submit goes
to the feedback route, which sends no status. -/
def submittableStatuses (status : String) : List String :=
  if status != "Resolved" then status :: statusOptions else []

/-- `canUpdate` of `ShowDetails.js`: whether the Update button is shown. -/
def canUpdate (ticketUserId : Option Int) (currentUserId : Int) (status : String) : Bool :=
  (ticketUserId == some currentUserId && status == "Open") ||
    (ticketUserId != some currentUserId && status != "Resolved")

/-- `canDelete` of `ShowDetails.js`. -/
def canDelete (ticketUserId : Option Int) (currentUserId : Int) (status : String) : Bool :=
  ticketUserId == some currentUserId && status == "Open"

/-- `canAttach` of `ShowDetails.js`. -/
def canAttach (ticketUserId : Option Int) (currentUserId : Int) (status : String) : Bool :=
  ticketUserId == some currentUserId && status == "Open"

/-- Whether `ShowDetails.js` shows a button that opens the update form
`/tickets/edit/:id`: the Update button under `canUpdate`, and the `Feed Back`
button, which is rendered without a condition. -/
def editFormOffered (ticketUserId : Option Int) (currentUserId : Int) (status : String) : Bool :=
  canUpdate ticketUserId currentUserId status || true

/-- The status state machine in the words of the specification:
`Open → {In Progress, Resolved, Closed}`, `In Progress → {Resolved, Closed, Open}`,
`Resolved → {Closed}`, `Closed` terminal. -/
def allowedTransitionSpec (s t : String) : Bool :=
  (s == "Open" && (t == "In Progress" || t == "Resolved" || t == "Closed")) ||
  (s == "In Progress" && (t == "Resolved" || t == "Closed" || t == "Open")) ||
  (s == "Resolved" && t == "Closed")

/-! ## JSON values and the user routes -/

/-- A scalar of a JSON body or of a response object; `undefined` is an absent
key.  Numbers are integer valued. -/
inductive JsonVal
  | undefined
  | null
  | bool (b : Bool)
  | num (n : Int)
  | str (s : String)
deriving DecidableEq, Repr

/-- Outcome of a user request that is not a success. -/
inductive UserError
  /-- status 400 -/
  | validation
  /-- status 409 -/
  | conflict
  /-- status 401 -/
  | unauthorized
  /-- status 404 -/
  | notFound
deriving DecidableEq, Repr

/-- A record of `UserData.json`; `updatedAt` is absent until the password is
changed. -/
structure User where
  id : Int
  username : String
  email : String
  password : String
  fullName : String
  createdAt : String
  updatedAt : Option String
deriving DecidableEq, Repr

/-- The keys and values of a user record, in the order the record is written. -/
def userObject (u : User) : List (String × JsonVal) :=
  [("id", .num u.id), ("username", .str u.username), ("email", .str u.email),
    ("password", .str u.password), ("fullName", .str u.fullName),
    ("createdAt", .str u.createdAt)] ++
  (match u.updatedAt with
   | some t => [("updatedAt", .str t)]
   | none => [])

/-- The rest object of `const { password: _, ...userWithoutPassword } = user`:
every key of the object but `password`. -/
def withoutPassword (obj : List (String × JsonVal)) : List (String × JsonVal) :=
  obj.filter (fun kv => kv.1 != "password")

/-- String fields of the body of `POST /api/users/register`. -/
structure RegisterBody where
  username : Option String
  email : Option String
  password : Option String
  fullName : Option String
deriving DecidableEq, Repr

/-- String fields of the body of `POST /api/users/login`. -/
structure LoginBody where
  email : Option String
  password : Option String
deriving DecidableEq, Repr

/-- Handler of `POST /api/users/register`; `hashedPassword` is the value of
`bcrypt.hash(password, 10)`.  Returns the document written and the `user` of
the response. -/
def registerUser (hashedPassword createdAt : String) (users : List User) (body : RegisterBody) :
    Except UserError (List User × List (String × JsonVal)) :=
  if !truthy body.username || !truthy body.email || !truthy body.password
      || !truthy body.fullName then
    .error .validation
  else if (users.find?
      (fun u => some u.email == body.email || some u.username == body.username)).isSome then
    .error .conflict
  else
    let newUser : User :=
      { id := if users.length > 0 then mathMax (users.map (fun u => u.id)) + 1 else 1
        username := body.username.getD ""
        email := body.email.getD ""
        password := hashedPassword
        fullName := body.fullName.getD ""
        createdAt := createdAt
        updatedAt := none }
    .ok (users ++ [newUser], withoutPassword (userObject newUser))

/-- Handler of `POST /api/users/login`; `compare` is `bcrypt.compare`.  Returns
the `user` of the response. -/
def loginUser (compare : String → String → Bool) (users : List User) (body : LoginBody) :
    Except UserError (List (String × JsonVal)) :=
  if !truthy body.email || !truthy body.password then .error .validation
  else
    match users.find? (fun u => some u.email == body.email) with
    | none => .error .unauthorized
    | some user =>
      if !compare (body.password.getD "") user.password then .error .unauthorized
      else .ok (withoutPassword (userObject user))

/-- Handler of `GET /api/users`. -/
def getUsers (users : List User) : List (List (String × JsonVal)) :=
  users.map (fun u => [("id", .num u.id), ("username", .str u.username)])

/-- Handler of `GET /api/users/:id`. -/
def getUser (users : List User) (idParam : String) : Except UserError (List (String × JsonVal)) :=
  let userId := parseInt idParam
  match users.find? (fun u => userId == some u.id) with
  | none => .error .notFound
  | some user => .ok (withoutPassword (userObject user))

/-- A user record with its password hash blanked: what two documents that
differ only in the stored hashes have in common. -/
def publicPart (u : User) : User := { u with password := "" }

/-- A stored user, with one hash and with another. -/
def sampleUser (hash : String) : User :=
  { id := 1, username := "ann", email := "ann@example.org", password := hash,
    fullName := "Ann Lee", createdAt := "t0", updatedAt := none }

/-! ## The feedback route on an arbitrary JSON scalar

`ToNumber` is kept exact: a finite value is a sign, a digit count `m` and a
decimal exponent `e` standing for `± m × 10^e`; the comparisons with `1` and `5`
round it to the nearest double (ties to even) the way the engine does.  -/

/-- The value of `ToNumber(v)` before rounding. -/
inductive JsNumber
  | nan
  | inf (neg : Bool)
  | dec (neg : Bool) (m : Nat) (e : Int)
deriving DecidableEq, Repr

/-- A decimal digit character. -/
def isDecDigit (c : Char) : Bool := decide (48 ≤ c.toNat) && decide (c.toNat ≤ 57)

/-- The number written by a run of decimal digit characters. -/
def decDigitsValue (cs : List Char) : Nat :=
  cs.foldl (fun acc c => acc * 10 + (c.toNat - 48)) 0

/-- `TrimString(s, start+end)` on the characters of the string. -/
def trimWhiteSpace (cs : List Char) : List Char :=
  ((cs.dropWhile isStrWhiteSpace).reverse.dropWhile isStrWhiteSpace).reverse

/-- A `0x`, `0o` or `0b` literal after its mark: one or more digits of the
radix and nothing else. -/
def radixLiteral (radix : Nat) (cs : List Char) : JsNumber :=
  if cs.isEmpty then .nan
  else if (radixDigits radix cs).length == cs.length then
    .dec false (digitsValue radix (radixDigits radix cs)) 0
  else .nan

/-- The exponent part of a decimal literal, from the character after the digits
on: nothing (exponent `0`), or `e`/`E`, an optional sign and one or more
digits; `none` when the text is anything else. -/
def exponentPart : List Char → Option Int
  | [] => some 0
  | c :: r =>
    if c == 'e' || c == 'E' then
      let neg := r.head? == some '-'
      let digits := if r.head? == some '-' || r.head? == some '+' then r.tail else r
      if digits.isEmpty || !digits.all isDecDigit then none
      else if neg then some (- (decDigitsValue digits : Int))
      else some (decDigitsValue digits : Int)
    else none

/-- `StrUnsignedDecimalLiteral` with the sign already read: `Infinity`, or
digits with an optional fraction and an optional exponent, at least one digit
before or after the point. -/
def decimalLiteral (neg : Bool) (cs : List Char) : JsNumber :=
  if cs == "Infinity".toList then .inf neg
  else
    let intPart := cs.takeWhile isDecDigit
    let rest := cs.dropWhile isDecDigit
    let hasPoint := rest.head? == some '.'
    let fracPart := if hasPoint then rest.tail.takeWhile isDecDigit else []
    let rest := if hasPoint then rest.tail.dropWhile isDecDigit else rest
    if intPart.isEmpty && fracPart.isEmpty then .nan
    else
      match exponentPart rest with
      | none => .nan
      | some e => .dec neg (decDigitsValue (intPart ++ fracPart)) (e - (fracPart.length : Int))

/-- `StringToNumber(s)`: white space is trimmed at both ends; the empty text is
`0`; `0x`, `0o`, `0b` literals carry no sign; anything that is not a numeric
literal is `NaN`. -/
def stringToNumber (s : String) : JsNumber :=
  let cs := trimWhiteSpace s.toList
  if cs.isEmpty then .dec false 0 0
  else if cs.take 2 == ['0', 'x'] || cs.take 2 == ['0', 'X'] then radixLiteral 16 (cs.drop 2)
  else if cs.take 2 == ['0', 'o'] || cs.take 2 == ['0', 'O'] then radixLiteral 8 (cs.drop 2)
  else if cs.take 2 == ['0', 'b'] || cs.take 2 == ['0', 'B'] then radixLiteral 2 (cs.drop 2)
  else if cs.head? == some '-' then decimalLiteral true cs.tail
  else if cs.head? == some '+' then decimalLiteral false cs.tail
  else decimalLiteral false cs

/-- `ToNumber(v)`. -/
def toNumber : JsonVal → JsNumber
  | .undefined => .nan
  | .null => .dec false 0 0
  | .bool b => .dec false (if b then 1 else 0) 0
  | .num n => .dec (decide (n < 0)) n.natAbs 0
  | .str s => stringToNumber s

/-- `x < 1` for `x` the double nearest to the value: the value is below
`1 - 2^-54`, the midpoint of `1` and the double before it (the tie rounds to
`1`). -/
def ltOne : JsNumber → Bool
  | .nan => false
  | .inf neg => neg
  | .dec neg m e =>
    if neg || m == 0 then true
    else if 0 ≤ e then decide (m * 10 ^ e.toNat * 2 ^ 54 < 2 ^ 54 - 1)
    else decide (m * 2 ^ 54 < (2 ^ 54 - 1) * 10 ^ (-e).toNat)

/-- `x > 5` for `x` the double nearest to the value: the value is above
`5 + 2^-51`, the midpoint of `5` and the double after it (the tie rounds to
`5`). -/
def gtFive : JsNumber → Bool
  | .nan => false
  | .inf neg => !neg
  | .dec neg m e =>
    if neg then false
    else if 0 ≤ e then decide (m * 10 ^ e.toNat * 2 ^ 51 > 5 * 2 ^ 51 + 1)
    else decide (m * 2 ^ 51 > (5 * 2 ^ 51 + 1) * 10 ^ (-e).toNat)

/-- `!v`. -/
def jsNot : JsonVal → Bool
  | .undefined => true
  | .null => true
  | .bool b => !b
  | .num n => n == 0
  | .str s => s == ""

/-- `parseInt(v)`: the value is first converted with `ToString`. -/
def parseIntJson : JsonVal → Option Int
  | .undefined => parseInt "undefined"
  | .null => parseInt "null"
  | .bool b => parseInt (if b then "true" else "false")
  | .num n => parseIntNumber n
  | .str s => parseInt s

/-- Handler of `PUT /api/tickets/:id/feedback` for a JSON body whose `feedback`
is any scalar (`undefined`: the key is absent). -/
def submitFeedback (now : String) (tickets : List Ticket) (idParam : String)
    (feedback : JsonVal) : Except ApiError (List Ticket × Ticket) :=
  let ticketId := parseInt idParam
  if jsNot feedback || ltOne (toNumber feedback) || gtFive (toNumber feedback) then
    .error .validation
  else
    match findIndex (idMatches ticketId) tickets with
    | none => .error .notFound
    | some ticketIndex =>
      match tickets[ticketIndex]? with
      | none => .error .server
      | some ticket =>
        let updated : Ticket :=
          { ticket with
            feedback := parseIntJson feedback
            updatedAt := now }
        .ok (tickets.set ticketIndex updated, updated)

/-! ## The mutating handlers on the data file

The handlers above are functions of the document read.  Here the same five
handlers are written statement by statement, with the data file and the
engine's arithmetic explicit: `readJSON` and `writeJSON` are steps of the
computation, an error response or a caught exception ends it and leaves in the
file whatever was written up to that point, the arguments of a spread call are
counted and the new id is a double.  The state is the ticket document alone:
the upload directory is not part of it, and a `writeFileSync` that itself
fails is not modelled. -/

/-- `Number.isSafeInteger(n)`: the magnitude is at most `2^53 - 1`. -/
def isSafeInteger (n : Int) : Bool := decide (n.natAbs ≤ 9007199254740991)

/-- The number of low bits that do not fit the 53-bit significand of a double
of magnitude `a`: the least `e` with `a / 2^e < 2^53` (the first argument
bounds the search; 1024 covers every finite double). -/
def droppedBits : Nat → Nat → Nat
  | 0, _ => 0
  | fuel + 1, a => if a < 9007199254740992 then 0 else droppedBits fuel (a / 2) + 1

/-- The double nearest to the integer `n`, ties to the even significand: the
value of an arithmetic result that is `n` in exact arithmetic.  Magnitudes up
to `2^53 = 9007199254740992` are exact; above, the 53 leading bits are kept
and the rest is rounded.  (Magnitudes from `2^1024` on, which overflow to
`Infinity`, do not arise from adding 1 to a double.) -/
def toDouble (n : Int) : Int :=
  if n.natAbs ≤ 9007199254740992 then n
  else
    let e := droppedBits 1024 n.natAbs
    let q := n.natAbs / 2 ^ e
    let r := n.natAbs % 2 ^ e
    let q := if 2 ^ e < 2 * r ∨ (2 * r = 2 ^ e ∧ q % 2 = 1) then q + 1 else q
    n.sign * ((q * 2 ^ e : Nat) : Int)

/-- A run of a handler: from the document in `UserTicket.json` when it starts
to its outcome and the document in the file when it ends. -/
def Handler (α : Type) : Type := List Ticket → Except ApiError α × List Ticket

namespace Handler

/-- The value `a`; the file is not touched. -/
protected def pure {α : Type} (a : α) : Handler α := fun doc => (.ok a, doc)

/-- Statement sequencing: `f` runs on the file `m` left, unless `m` ended the
handler with an error. -/
protected def bind {α β : Type} (m : Handler α) (f : α → Handler β) : Handler β :=
  fun doc =>
    match m doc with
    | (.ok a, doc') => f a doc'
    | (.error e, doc') => (.error e, doc')

/-- `return res.status(...)` with an error status, or an exception caught by
the `catch` of the handler (status 500): the handler ends, the file stays as it
is at this point. -/
def fail {α : Type} (e : ApiError) : Handler α := fun doc => (.error e, doc)

end Handler

instance : Monad Handler where
  pure := Handler.pure
  bind := Handler.bind

/-- `readJSON('UserTicket.json')`. -/
def readJSON : Handler (List Ticket) := fun doc => (.ok doc, doc)

/-- `writeJSON('UserTicket.json', data)`: the file holds `data` afterwards. -/
def writeJSON (data : List Ticket) : Handler Unit := fun _ => (.ok (), data)

/-- What a function of the document read amounts to on the file: on success
the document it returns is in the file, on an error the document read. -/
def onFile {α : Type} (doc : List Ticket) :
    Except ApiError (List Ticket × α) → Except ApiError α × List Ticket
  | .ok (written, a) => (.ok a, written)
  | .error e => (.error e, doc)

namespace Route

/-- The id given to a new record,
`tickets.length > 0 ? Math.max(...tickets.map(t => t.id)) + 1 : 1`, as the
engine evaluates it.  The spread passes every id as one argument of the call;
a call with more arguments than the engine accepts (`argLimit`; Node.js gives
up at about 1.2e5) throws a `RangeError`, which the `catch` of the handler
answers with status 500.  The sum is a double. -/
def nextId (argLimit : Nat) (tickets : List Ticket) : Handler Int :=
  if tickets.length > 0 then
    if tickets.length > argLimit then Handler.fail .server
    else pure (toDouble (mathMax (tickets.map (fun t => t.id)) + 1))
  else pure 1

/-- Handler of `POST /api/tickets`; `file` is the stored name of the upload the
middleware accepted, if any. -/
def createTicket (argLimit : Nat) (createdAt updatedAt : String) (body : CreateBody)
    (file : Option String) : Handler Ticket :=
  if !truthy body.userId || !truthy body.title || !truthy body.description
      || !truthy body.userTo then
    Handler.fail .validation
  else do
    let tickets ← readJSON
    let id ← nextId argLimit tickets
    let newTicket : Ticket :=
      { id := id
        userId := parseIntField body.userId
        title := body.title.getD ""
        description := body.description.getD ""
        category := jsOr body.category "General"
        priority := jsOr body.priority "Medium"
        userTo := parseIntField body.userTo
        status := "Open"
        feedback := parseIntField body.feedback
        image := file.map uploadPath
        images := none
        createdAt := createdAt
        updatedAt := updatedAt }
    writeJSON (tickets ++ [newTicket])
    pure newTicket

/-- Handler of `PUT /api/tickets/:id/feedback` for a JSON body whose `feedback`
is any scalar. -/
def updateFeedbackOnly (now idParam : String) (feedback : JsonVal) : Handler Ticket :=
  let ticketId := parseInt idParam
  if jsNot feedback || ltOne (toNumber feedback) || gtFive (toNumber feedback) then
    Handler.fail .validation
  else do
    let tickets ← readJSON
    match findIndex (idMatches ticketId) tickets with
    | none => Handler.fail .notFound
    | some ticketIndex =>
      match tickets[ticketIndex]? with
      | none => Handler.fail .server
      | some ticket =>
        let updated : Ticket :=
          { ticket with
            feedback := parseIntJson feedback
            updatedAt := now }
        do
          writeJSON (tickets.set ticketIndex updated)
          pure updated

/-- Handler of `PUT /api/tickets/:id`. -/
def updateTicket (now idParam : String) (body : UpdateBody) (file : Option String) :
    Handler Ticket :=
  let ticketId := parseInt idParam
  if numFalsy ticketId || !truthy body.title || !truthy body.description then
    Handler.fail .validation
  else do
    let tickets ← readJSON
    match findIndex (idMatches ticketId) tickets with
    | none => Handler.fail .notFound
    | some ticketIndex =>
      match tickets[ticketIndex]? with
      | none => Handler.fail .server
      | some ticket =>
        let imgs := currentImages ticket
        let imgs :=
          match file with
          | some f => imgs ++ [uploadPath f]
          | none => imgs
        let parsedUserTo :=
          if isSupplied body.userTo then parseIntField body.userTo else ticket.userTo
        let parsedFeedback :=
          if isSupplied body.feedback then parseIntField body.feedback else ticket.feedback
        let updated : Ticket :=
          { ticket with
            title := jsOr body.title ticket.title
            description := jsOr body.description ticket.description
            category := jsOr body.category ticket.category
            priority := jsOr body.priority ticket.priority
            status := jsOr body.status ticket.status
            userTo := parsedUserTo
            feedback := parsedFeedback
            images := some imgs
            image := none
            updatedAt := now }
        do
          writeJSON (tickets.set ticketIndex updated)
          pure updated

/-- Handler of `POST /api/tickets/:id/images`; `files` are the stored names of
`req.files`. -/
def appendImages (now idParam : String) (files : List String) : Handler Ticket :=
  let ticketId := parseInt idParam
  if files.length == 0 then Handler.fail .validation
  else do
    let tickets ← readJSON
    match findIndex (idMatches ticketId) tickets with
    | none => Handler.fail .notFound
    | some ticketIndex =>
      match tickets[ticketIndex]? with
      | none => Handler.fail .server
      | some ticket =>
        let newImagePaths := files.map uploadPath
        let updatedImages := existingImages ticket ++ newImagePaths
        let updated : Ticket :=
          { ticket with
            images := some updatedImages
            image := none
            updatedAt := now }
        do
          writeJSON (tickets.set ticketIndex updated)
          pure updated

/-- Handler of `DELETE /api/tickets/:id`; the value is the path of the file the
handler removes from the upload directory before it writes the document. -/
def deleteTicket (idParam : String) : Handler (Option String) :=
  let ticketId := parseInt idParam
  do
    let tickets ← readJSON
    match findIndex (idMatches ticketId) tickets with
    | none => Handler.fail .notFound
    | some ticketIndex =>
      match tickets[ticketIndex]? with
      | none => Handler.fail .server
      | some ticket =>
        let removedFile := if imageSet ticket.image then ticket.image else none
        do
          writeJSON (tickets.eraseIdx ticketIndex)
          pure removedFile

end Route

/-- A record whose id is `2^53`, the first integer whose successor is not a
double. -/
def largestIdTicket : Ticket := { printerTicket with id := 9007199254740992 }

/-- A second record with the id of ticket 1: a document holding both is
outside what the handlers write. -/
def twinTicket : Ticket := { printerTicket with title := "Scanner down" }

namespace Route

/-- The document in the file after `n` create requests of the scenario in a
row, starting from the empty document. -/
def afterCreates (argLimit : Nat) : Nat → List Ticket
  | 0 => []
  | n + 1 => (createTicket argLimit "t0" "t0" printerDown none (afterCreates argLimit n)).2

end Route

/-! ## Lemmas on the primitives -/

theorem findIndex_some {p : Ticket → Bool} :
    ∀ {l : List Ticket} {i : Nat}, findIndex p l = some i →
      ∃ t, l[i]? = some t ∧ p t = true ∧ ∀ j u, j < i → l[j]? = some u → p u = false := by
  intro l
  induction l with
  | nil => intro i h; simp [findIndex] at h
  | cons a l ih =>
    intro i h
    by_cases hp : p a = true
    · simp [findIndex, hp] at h
      subst h
      exact ⟨a, by simp, hp, by intro j u hj; omega⟩
    · simp [findIndex, hp] at h
      obtain ⟨k, hk, rfl⟩ := h
      obtain ⟨t, ht, hpt, hlt⟩ := ih hk
      refine ⟨t, by simpa using ht, hpt, ?_⟩
      intro j u hj hu
      cases j with
      | zero =>
        simp at hu
        subst hu
        simpa using hp
      | succ j =>
        simp at hu
        exact hlt j u (by omega) hu

theorem findIndex_none {p : Ticket → Bool} :
    ∀ {l : List Ticket}, findIndex p l = none ↔ ∀ t ∈ l, p t = false := by
  intro l
  induction l with
  | nil => simp [findIndex]
  | cons a l ih =>
    by_cases hp : p a = true
    · simp [findIndex, hp]
    · simp [findIndex, hp, ih]

theorem foldl_max_ge (xs : List Int) :
    ∀ a : Int, a ≤ xs.foldl max a ∧ ∀ x ∈ xs, x ≤ xs.foldl max a := by
  induction xs with
  | nil => intro a; simp
  | cons y ys ih =>
    intro a
    obtain ⟨h1, h2⟩ := ih (max a y)
    refine ⟨le_trans (le_max_left a y) h1, ?_⟩
    intro x hx
    rcases List.mem_cons.mp hx with rfl | hx
    · exact le_trans (le_max_right a x) h1
    · exact h2 x hx

theorem foldl_max_mem (xs : List Int) :
    ∀ a : Int, xs.foldl max a = a ∨ xs.foldl max a ∈ xs := by
  induction xs with
  | nil => intro a; simp
  | cons y ys ih =>
    intro a
    show List.foldl max (max a y) ys = a ∨ List.foldl max (max a y) ys ∈ y :: ys
    rcases ih (max a y) with h | h
    · rw [h]
      rcases max_choice a y with h2 | h2
      · left; exact h2
      · right; rw [h2]; exact List.mem_cons_self y ys
    · right; exact List.mem_cons_of_mem y h

theorem le_mathMax {xs : List Int} {x : Int} (hx : x ∈ xs) : x ≤ mathMax xs := by
  cases xs with
  | nil => simp at hx
  | cons y ys =>
    rcases List.mem_cons.mp hx with rfl | hx
    · exact (foldl_max_ge ys x).1
    · exact (foldl_max_ge ys y).2 x hx

theorem mathMax_mem {xs : List Int} (h : xs ≠ []) : mathMax xs ∈ xs := by
  cases xs with
  | nil => exact absurd rfl h
  | cons y ys =>
    rcases foldl_max_mem ys y with h1 | h1
    · simp [mathMax, h1]
    · simp [mathMax, h1]

theorem lt_nextId {tickets : List Ticket} {t : Ticket} (ht : t ∈ tickets) :
    t.id < nextId tickets := by
  have hlen : tickets.length > 0 := List.length_pos_of_mem ht
  have hle : t.id ≤ mathMax (tickets.map (fun t => t.id)) :=
    le_mathMax (List.mem_map.mpr ⟨t, ht, rfl⟩)
  simp only [nextId, hlen, if_true]
  omega

/-! ## What a successful handler did -/

theorem createTicket_ok {c u : String} {s : List Ticket} {body : CreateBody}
    {file : Option String} {s' : List Ticket} {t : Ticket}
    (h : createTicket c u s body file = .ok (s', t)) :
    s' = s ++ [t] ∧ t.id = nextId s ∧ t.images = none ∧ t.image = file.map uploadPath := by
  unfold createTicket at h
  split at h
  · cases h
  · simp only [Except.ok.injEq, Prod.mk.injEq] at h
    obtain ⟨h1, h2⟩ := h
    subst h2
    exact ⟨h1.symm, rfl, rfl, rfl⟩

theorem updateFeedbackOnly_ok {now : String} {s : List Ticket} {p : String} {r : Int}
    {s' : List Ticket} {t' : Ticket}
    (h : updateFeedbackOnly now s p r = .ok (s', t')) :
    ∃ i t, findIndex (idMatches (parseInt p)) s = some i ∧ s[i]? = some t ∧
      t' = { t with feedback := parseIntNumber r, updatedAt := now } ∧
      s' = s.set i t' ∧ 1 ≤ r ∧ r ≤ 5 := by
  unfold updateFeedbackOnly at h
  simp only at h
  split at h
  · cases h
  · rename_i hg
    split at h
    · cases h
    · rename_i i hi
      split at h
      · cases h
      · rename_i t ht
        simp only [Except.ok.injEq, Prod.mk.injEq] at h
        obtain ⟨h1, h2⟩ := h
        subst h2
        simp only [Bool.or_eq_true, beq_iff_eq, decide_eq_true_eq, not_or, not_lt] at hg
        exact ⟨i, t, hi, ht, rfl, h1.symm, by omega, by omega⟩

theorem updateTicket_ok {now : String} {s : List Ticket} {p : String} {body : UpdateBody}
    {file : Option String} {s' : List Ticket} {t' : Ticket} :
    updateTicket now s p body file = .ok (s', t') →
    ∃ i t, findIndex (idMatches (parseInt p)) s = some i ∧ s[i]? = some t ∧
      t' = { t with
              title := jsOr body.title t.title
              description := jsOr body.description t.description
              category := jsOr body.category t.category
              priority := jsOr body.priority t.priority
              status := jsOr body.status t.status
              userTo := if isSupplied body.userTo then parseIntField body.userTo else t.userTo
              feedback :=
                if isSupplied body.feedback then parseIntField body.feedback else t.feedback
              images := some (match file with
                | some f => currentImages t ++ [uploadPath f]
                | none => currentImages t)
              image := none
              updatedAt := now } ∧
      s' = s.set i t' := by
  intro h
  unfold updateTicket at h
  simp only at h
  split at h
  · cases h
  · split at h
    · cases h
    · rename_i i hi
      split at h
      · cases h
      · rename_i t ht
        simp only [Except.ok.injEq, Prod.mk.injEq] at h
        obtain ⟨h1, h2⟩ := h
        subst h2
        exact ⟨i, t, hi, ht, rfl, h1.symm⟩

theorem appendImages_ok {now : String} {s : List Ticket} {p : String} {files : List String}
    {s' : List Ticket} {t' : Ticket}
    (h : appendImages now s p files = .ok (s', t')) :
    ∃ i t, findIndex (idMatches (parseInt p)) s = some i ∧ s[i]? = some t ∧
      t' = { t with
              images := some (existingImages t ++ files.map uploadPath)
              image := none
              updatedAt := now } ∧
      s' = s.set i t' ∧ files ≠ [] := by
  unfold appendImages at h
  simp only at h
  split at h
  · cases h
  · rename_i hne
    split at h
    · cases h
    · rename_i i hi
      split at h
      · cases h
      · rename_i t ht
        simp only [Except.ok.injEq, Prod.mk.injEq] at h
        obtain ⟨h1, h2⟩ := h
        subst h2
        refine ⟨i, t, hi, ht, rfl, h1.symm, ?_⟩
        intro hf
        apply hne
        simp [hf]

theorem deleteTicket_ok {s : List Ticket} {p : String} {s' : List Ticket} {f : Option String}
    (h : deleteTicket s p = .ok (s', f)) :
    ∃ i t, findIndex (idMatches (parseInt p)) s = some i ∧ s[i]? = some t ∧
      s' = s.eraseIdx i := by
  unfold deleteTicket at h
  simp only at h
  split at h
  · cases h
  · rename_i i hi
    split at h
    · cases h
    · rename_i t ht
      simp only [Except.ok.injEq, Prod.mk.injEq] at h
      exact ⟨i, t, hi, ht, h.1.symm⟩

/-- Replacing a record by one with the same id leaves the list of ids as it was. -/
theorem map_id_set {s : List Ticket} {i : Nat} {t t' : Ticket} (hi : s[i]? = some t)
    (hid : t'.id = t.id) : (s.set i t').map (fun t => t.id) = s.map (fun t => t.id) := by
  induction s generalizing i with
  | nil => simp
  | cons a s ih =>
    cases i with
    | zero =>
      simp at hi
      subst hi
      simp [hid]
    | succ i =>
      simp at hi
      simp [ih hi]

theorem parseIntNumber_rating {r : Int} (h1 : 1 ≤ r) (h5 : r ≤ 5) :
    parseIntNumber r = some r := by
  interval_cases r <;> decide

theorem findIndex_some_of_mem {p : Ticket → Bool} {l : List Ticket} {t : Ticket}
    (ht : t ∈ l) (hp : p t = true) : ∃ i u, findIndex p l = some i ∧ l[i]? = some u := by
  cases h : findIndex p l with
  | none =>
    have := findIndex_none.mp h t ht
    rw [hp] at this
    cases this
  | some i =>
    obtain ⟨u, hu, _, _⟩ := findIndex_some h
    exact ⟨i, u, rfl, hu⟩

/-- The feedback handler on a rating outside 1..5. -/
theorem updateFeedbackOnly_out_of_range {now : String} {s : List Ticket} {p : String} {r : Int}
    (h : ¬ (1 ≤ r ∧ r ≤ 5)) : updateFeedbackOnly now s p r = .error .validation := by
  have hg : (r == 0 || decide (r < 1) || decide (r > 5)) = true := by
    simp only [Bool.or_eq_true, beq_iff_eq, decide_eq_true_eq]
    omega
  simp only [updateFeedbackOnly, hg, if_true]

/-- The feedback handler on a rating in 1..5. -/
theorem updateFeedbackOnly_in_range {now : String} {s : List Ticket} {p : String} {r : Int}
    (h1 : 1 ≤ r) (h5 : r ≤ 5) :
    updateFeedbackOnly now s p r =
      match findIndex (idMatches (parseInt p)) s with
      | none => .error .notFound
      | some ticketIndex =>
        match s[ticketIndex]? with
        | none => .error .server
        | some ticket =>
          .ok (s.set ticketIndex { ticket with feedback := some r, updatedAt := now },
            { ticket with feedback := some r, updatedAt := now }) := by
  have hg : (r == 0 || decide (r < 1) || decide (r > 5)) = false := by
    simp only [Bool.or_eq_false_iff, beq_eq_false_iff_ne, decide_eq_false_iff_not]
    omega
  simp only [updateFeedbackOnly, hg, parseIntNumber_rating h1 h5]
  rfl

theorem truthy_some {v : String} (h : v ≠ "") : truthy (some v) = true := by
  simp [truthy, h]

theorem isSupplied_some {v : String} (h : v ≠ "") : isSupplied (some v) = true := by
  simp [isSupplied, h]

theorem jsOr_some {v d : String} (h : v ≠ "") : jsOr (some v) d = v := by
  simp [jsOr, h]

theorem jsOr_unsupplied {o : Option String} {d : String} (h : o = none ∨ o = some "") :
    jsOr o d = d := by
  rcases h with rfl | rfl <;> simp [jsOr]

theorem isSupplied_unsupplied {o : Option String} (h : o = none ∨ o = some "") :
    isSupplied o = false := by
  rcases h with rfl | rfl <;> simp [isSupplied]

theorem truthy_iff {o : Option String} : truthy o = true ↔ ∃ v, o = some v ∧ v ≠ "" := by
  cases o with
  | none => simp [truthy]
  | some v => simp [truthy]

theorem numFalsy_iff {o : Option Int} : numFalsy o = false ↔ ∃ n, o = some n ∧ n ≠ 0 := by
  cases o with
  | none => simp [numFalsy]
  | some n => simp [numFalsy]

/-- The update handler behind its guard. -/
theorem updateTicket_guard_passed {now : String} {s : List Ticket} {p : String}
    {body : UpdateBody} {file : Option String}
    (hid : numFalsy (parseInt p) = false) (ht : truthy body.title = true)
    (hd : truthy body.description = true) :
    updateTicket now s p body file =
      match findIndex (idMatches (parseInt p)) s with
      | none => .error .notFound
      | some ticketIndex =>
        match s[ticketIndex]? with
        | none => .error .server
        | some ticket =>
          .ok (s.set ticketIndex
            { ticket with
              title := jsOr body.title ticket.title
              description := jsOr body.description ticket.description
              category := jsOr body.category ticket.category
              priority := jsOr body.priority ticket.priority
              status := jsOr body.status ticket.status
              userTo :=
                if isSupplied body.userTo then parseIntField body.userTo else ticket.userTo
              feedback :=
                if isSupplied body.feedback then parseIntField body.feedback
                else ticket.feedback
              images := some (match file with
                | some f => currentImages ticket ++ [uploadPath f]
                | none => currentImages ticket)
              image := none
              updatedAt := now },
            { ticket with
              title := jsOr body.title ticket.title
              description := jsOr body.description ticket.description
              category := jsOr body.category ticket.category
              priority := jsOr body.priority ticket.priority
              status := jsOr body.status ticket.status
              userTo :=
                if isSupplied body.userTo then parseIntField body.userTo else ticket.userTo
              feedback :=
                if isSupplied body.feedback then parseIntField body.feedback
                else ticket.feedback
              images := some (match file with
                | some f => currentImages ticket ++ [uploadPath f]
                | none => currentImages ticket)
              image := none
              updatedAt := now }) := by
  simp only [updateTicket, hid, ht, hd, Bool.not_true, Bool.or_self, Bool.false_eq_true, if_false]

/-- The update handler stopped by its guard. -/
theorem updateTicket_guard_failed {now : String} {s : List Ticket} {p : String}
    {body : UpdateBody} {file : Option String}
    (h : numFalsy (parseInt p) = true ∨ truthy body.title = false ∨
      truthy body.description = false) :
    updateTicket now s p body file = .error .validation := by
  have hg : (numFalsy (parseInt p) || !truthy body.title || !truthy body.description) = true := by
    rcases h with h | h | h <;> simp [h]
  simp only [updateTicket, hg, if_true]

/-! ## One request, seen from the document -/

/-- A request leaves the document as it was, or appends one record with the
next id and no `images` key, or replaces one record by a record with the same
id (whose attachment fields are as before or whose `image` is `null`), or
removes the record found for the id of a delete request. -/
theorem step_cases (s : List Ticket) (op : Op) :
    step s op = s ∨
    (∃ t, step s op = s ++ [t] ∧ t.id = nextId s ∧ t.images = none) ∨
    (∃ i t t', s[i]? = some t ∧ step s op = s.set i t' ∧ t'.id = t.id ∧
      ((t'.images = t.images ∧ t'.image = t.image) ∨ t'.image = none)) ∨
    (∃ i t p, op = Op.delete p ∧ s[i]? = some t ∧ parseInt p = some t.id ∧
      step s op = s.eraseIdx i) := by
  cases op with
  | create c u body file =>
    cases h : createTicket c u s body file with
    | error e => left; simp [step, h]
    | ok r =>
      obtain ⟨s', t⟩ := r
      obtain ⟨h1, h2, h3, _⟩ := createTicket_ok h
      right; left
      exact ⟨t, by simp [step, h, h1], h2, h3⟩
  | update now p body file =>
    cases h : updateTicket now s p body file with
    | error e => left; simp [step, h]
    | ok r =>
      obtain ⟨s', t'⟩ := r
      obtain ⟨i, t, _, ht, ht', hs'⟩ := updateTicket_ok h
      right; right; left
      refine ⟨i, t, t', ht, by simp [step, h, hs'], ?_, Or.inr ?_⟩
      · rw [ht']
      · rw [ht']
  | feedback now p r =>
    cases h : updateFeedbackOnly now s p r with
    | error e => left; simp [step, h]
    | ok r =>
      obtain ⟨s', t'⟩ := r
      obtain ⟨i, t, _, ht, ht', hs', _⟩ := updateFeedbackOnly_ok h
      right; right; left
      refine ⟨i, t, t', ht, by simp [step, h, hs'], ?_, Or.inl ⟨?_, ?_⟩⟩
      · rw [ht']
      · rw [ht']
      · rw [ht']
  | addImages now p files =>
    cases h : appendImages now s p files with
    | error e => left; simp [step, h]
    | ok r =>
      obtain ⟨s', t'⟩ := r
      obtain ⟨i, t, _, ht, ht', hs', _⟩ := appendImages_ok h
      right; right; left
      refine ⟨i, t, t', ht, by simp [step, h, hs'], ?_, Or.inr ?_⟩
      · rw [ht']
      · rw [ht']
  | delete p =>
    cases h : deleteTicket s p with
    | error e => left; simp [step, h]
    | ok r =>
      obtain ⟨s', f⟩ := r
      obtain ⟨i, t, hi, ht, hs'⟩ := deleteTicket_ok h
      right; right; right
      obtain ⟨t2, ht2, hp, _⟩ := findIndex_some hi
      rw [ht] at ht2
      cases ht2
      refine ⟨i, t, p, rfl, ht, ?_, by simp [step, h, hs']⟩
      simpa [idMatches] using hp

theorem run_append (s : List Ticket) (xs ys : List Op) :
    run s (xs ++ ys) = run (run s xs) ys := by
  simp [run, List.foldl_append]

theorem run_cons (s : List Ticket) (op : Op) (ops : List Op) :
    run s (op :: ops) = run (step s op) ops := rfl

/-- An id carried by a stored record is still carried after any request other
than a delete of that id. -/
theorem id_survives_step {s : List Ticket} {op : Op} {a : Int}
    (ha : a ∈ s.map (fun t => t.id))
    (hop : ∀ p, op = Op.delete p → parseInt p ≠ some a) :
    a ∈ (step s op).map (fun t => t.id) := by
  rcases step_cases s op with h | ⟨t, h, _, _⟩ | ⟨i, t, t', ht, h, hid, _⟩ | ⟨i, t, p, hp, ht, hpa, h⟩
  · rw [h]; exact ha
  · rw [h, List.map_append]
    exact List.mem_append_left _ ha
  · rw [h, map_id_set ht hid]; exact ha
  · rw [h]
    obtain ⟨u, hu, hua⟩ := List.mem_map.mp ha
    obtain ⟨j, hj⟩ := List.mem_iff_getElem?.mp hu
    have hne : j ≠ i := by
      intro hji
      subst hji
      rw [ht] at hj
      cases hj
      exact hop p hp (by rw [hpa, hua])
    exact List.mem_map.mpr ⟨u, List.mem_eraseIdx_iff_getElem?.mpr ⟨j, hne, hj⟩, hua⟩

theorem id_survives_run {ops : List Op} {a : Int} :
    ∀ {s : List Ticket}, a ∈ s.map (fun t => t.id) →
      (∀ p, Op.delete p ∈ ops → parseInt p ≠ some a) →
      a ∈ (run s ops).map (fun t => t.id) := by
  induction ops with
  | nil => intro s ha _; exact ha
  | cons op ops ih =>
    intro s ha hops
    rw [run_cons]
    apply ih
    · exact id_survives_step ha (fun p hp => hops p (by simp [hp]))
    · intro p hp
      exact hops p (List.mem_cons_of_mem _ hp)

theorem createdId_some {s : List Ticket} {op : Op} {a : Int} (h : createdId s op = some a) :
    a = nextId s ∧ a ∈ (step s op).map (fun t => t.id) := by
  cases op with
  | create c u body file =>
    cases hc : createTicket c u s body file with
    | error e => simp [createdId, hc] at h
    | ok r =>
      obtain ⟨s', t⟩ := r
      obtain ⟨h1, h2, _, _⟩ := createTicket_ok hc
      simp only [createdId, hc, Option.some.injEq] at h
      subst h
      refine ⟨h2, ?_⟩
      simp [step, hc, h1]
  | update now p body file => simp [createdId] at h
  | feedback now p r => simp [createdId] at h
  | addImages now p files => simp [createdId] at h
  | delete p => simp [createdId] at h

/-- The ids of the stored records stay pairwise distinct under a request. -/
theorem nodup_ids_step {s : List Ticket} (op : Op)
    (hs : (s.map (fun t => t.id)).Nodup) : ((step s op).map (fun t => t.id)).Nodup := by
  rcases step_cases s op with h | ⟨t, h, hid, _⟩ | ⟨i, t, t', ht, h, hid, _⟩ | ⟨i, t, p, _, _, _, h⟩
  · rw [h]; exact hs
  · rw [h, List.map_append, List.nodup_append]
    refine ⟨hs, by simp, ?_⟩
    intro a ha hb
    simp only [List.map_cons, List.map_nil, List.mem_singleton] at hb
    obtain ⟨u, hu, hua⟩ := List.mem_map.mp ha
    have hlt := lt_nextId hu
    have hua' : u.id = a := hua
    omega
  · rw [h, map_id_set ht hid]; exact hs
  · rw [h]
    exact List.Nodup.sublist ((List.eraseIdx_sublist s i).map _) hs

theorem nodup_ids_run (ops : List Op) :
    ∀ {s : List Ticket}, (s.map (fun t => t.id)).Nodup →
      ((run s ops).map (fun t => t.id)).Nodup := by
  induction ops with
  | nil => intro s hs; exact hs
  | cons op ops ih =>
    intro s hs
    rw [run_cons]
    exact ih (nodup_ids_step op hs)

theorem uploadPath_ne_empty (f : String) : uploadPath f ≠ "" := by
  intro h
  have hlen : (uploadPath f).length = 0 := by rw [h]; rfl
  simp only [uploadPath, String.length_append] at hlen
  have h9 : "/uploads/".length = 9 := by decide
  omega

theorem imageSet_uploadPath (f : String) : imageSet (some (uploadPath f)) = true := by
  simp [imageSet, uploadPath_ne_empty]

theorem attachmentsSeparate_step {s : List Ticket} (op : Op) (hs : AttachmentsSeparate s) :
    AttachmentsSeparate (step s op) := by
  rcases step_cases s op with h | ⟨t, h, _, himg⟩ | ⟨i, t, t', ht, h, _, hatt⟩ | ⟨i, t, p, _, _, _, h⟩
  · rw [h]; exact hs
  · rw [h]
    intro u hu
    rcases List.mem_append.mp hu with hu | hu
    · exact hs u hu
    · have hut : u = t := by simpa using hu
      rw [hut]
      exact Or.inl himg
  · rw [h]
    intro u hu
    rcases List.mem_or_eq_of_mem_set hu with hu | hu
    · exact hs u hu
    · rw [hu]
      rcases hatt with ⟨h1, h2⟩ | h2
      · rw [h1, h2]
        exact hs t (List.mem_iff_getElem?.mpr ⟨i, ht⟩)
      · exact Or.inr h2
  · rw [h]
    intro u hu
    exact hs u ((List.eraseIdx_sublist s i).subset hu)

theorem attachmentsSeparate_run (ops : List Op) :
    ∀ {s : List Ticket}, AttachmentsSeparate s → AttachmentsSeparate (run s ops) := by
  induction ops with
  | nil => intro s hs; exact hs
  | cons op ops ih =>
    intro s hs
    rw [run_cons]
    exact ih (attachmentsSeparate_step op hs)

theorem getElem?_lt {s : List Ticket} {i : Nat} {t : Ticket} (h : s[i]? = some t) :
    i < s.length := by
  rcases Nat.lt_or_ge i s.length with hlt | hge
  · exact hlt
  · rw [List.getElem?_eq_none hge] at h
    cases h

/-! ## Claims -/

/-- C1 (as stated, refuted): the ids given by successive creates are not
strictly increasing once a delete intervenes.  Two creates give ids 1 and 2;
after the ticket with id 2 is deleted the next create gives id 2 again. -/
theorem id_reused_after_delete :
    assignedIds []
      [Op.create "t0" "t0" printerDown none, Op.create "t1" "t1" printerDown none,
       Op.delete "2", Op.create "t2" "t2" printerDown none] = [1, 2, 2] ∧
    ¬ (assignedIds []
      [Op.create "t0" "t0" printerDown none, Op.create "t1" "t1" printerDown none,
       Op.delete "2", Op.create "t2" "t2" printerDown none]).Pairwise (fun a b => a < b) := by
  decide

/-- C1 (amended): in a sequence of requests starting from the empty document,
the id given by a successful create is strictly greater than the id given by
every earlier successful create whose ticket was not deleted in between. -/
theorem create_id_gt_earlier_surviving (pre mid : List Op) (c1 c2 : Op) (a b : Int)
    (h1 : createdId (run [] pre) c1 = some a)
    (hmid : ∀ p, Op.delete p ∈ mid → parseInt p ≠ some a)
    (h2 : createdId (run [] (pre ++ c1 :: mid)) c2 = some b) : a < b := by
  obtain ⟨_, ha⟩ := createdId_some h1
  obtain ⟨hb, _⟩ := createdId_some h2
  rw [run_append, run_cons] at hb
  have hmem := id_survives_run ha hmid
  obtain ⟨u, hu, hua⟩ := List.mem_map.mp hmem
  have hlt := lt_nextId hu
  have hua' : u.id = a := hua
  omega

/-- Witness for C1 (amended): create (id 1), create (id 2), delete of ticket 1,
create (id 3). -/
theorem create_id_gt_earlier_surviving_witness :
    createdId (run [] [Op.create "t0" "t0" printerDown none])
      (Op.create "t1" "t1" printerDown none) = some 2 ∧
    createdId (run [] ([Op.create "t0" "t0" printerDown none] ++
      Op.create "t1" "t1" printerDown none :: [Op.delete "1"]))
      (Op.create "t2" "t2" printerDown none) = some 3 ∧
    (2 : Int) < 3 :=
  ⟨by decide, by decide,
    create_id_gt_earlier_surviving [Op.create "t0" "t0" printerDown none]
      [Op.delete "1"] (Op.create "t1" "t1" printerDown none)
      (Op.create "t2" "t2" printerDown none) 2 3 (by decide)
      (fun p hp => by
        have hp1 : p = "1" := by simpa using hp
        subst hp1
        decide)
      (by decide)⟩

/-- In exact arithmetic a successful create stores the new record at the end
of the document with id 1 when the document read is empty, and otherwise with
the id of a stored record of greatest id plus one; the new id is strictly
greater than the id of every record read. -/
theorem createTicket_assigns (c u : String) (tickets : List Ticket) (body : CreateBody)
    (file : Option String) (s' : List Ticket) (t : Ticket)
    (h : createTicket c u tickets body file = .ok (s', t)) :
    s' = tickets ++ [t] ∧
    (tickets = [] → t.id = 1) ∧
    (tickets ≠ [] → ∃ m ∈ tickets, (∀ v ∈ tickets, v.id ≤ m.id) ∧ t.id = m.id + 1) ∧
    (∀ v ∈ tickets, v.id < t.id) := by
  obtain ⟨h1, h2, _, _⟩ := createTicket_ok h
  refine ⟨h1, ?_, ?_, ?_⟩
  · intro he
    rw [h2, he]
    rfl
  · intro hne
    have hmap : tickets.map (fun t => t.id) ≠ [] := by simpa using hne
    obtain ⟨m, hm, hmid⟩ := List.mem_map.mp (mathMax_mem hmap)
    refine ⟨m, hm, ?_, ?_⟩
    · intro v hv
      have hle : v.id ≤ mathMax (tickets.map (fun t => t.id)) :=
        le_mathMax (List.mem_map.mpr ⟨v, hv, rfl⟩)
      have hmid' : m.id = mathMax (tickets.map (fun t => t.id)) := hmid
      omega
    · have hlen : tickets.length > 0 := List.length_pos_of_mem hm
      have hmid' : m.id = mathMax (tickets.map (fun t => t.id)) := hmid
      rw [h2]
      simp only [nextId, hlen, if_true]
      omega
  · intro v hv
    rw [h2]
    exact lt_nextId hv

/-- C3: in every document reached from the empty one by create, update,
feedback, add-images and delete requests, the ids of the stored records are
pairwise distinct. -/
theorem reachable_ids_distinct (ops : List Op) :
    ((run [] ops).map (fun t => t.id)).Nodup :=
  nodup_ids_run ops (by simp)

/-- C4: a successful feedback request replaces the first record carrying the
requested id by a record that differs from it at most in `feedback` and
`updatedAt` (id, userId, userTo, title, description, category, priority,
status, image, images and createdAt are as before); the document keeps its
length and every other position holds the record it held. -/
theorem feedback_changes_only_feedback (now : String) (s : List Ticket) (p : String) (r : Int)
    (s' : List Ticket) (t' : Ticket)
    (h : updateFeedbackOnly now s p r = .ok (s', t')) :
    ∃ (i : Nat) (t : Ticket), s[i]? = some t ∧ parseInt p = some t.id ∧ s'[i]? = some t' ∧
      t'.id = t.id ∧ t'.userId = t.userId ∧ t'.userTo = t.userTo ∧ t'.title = t.title ∧
      t'.description = t.description ∧ t'.category = t.category ∧
      t'.priority = t.priority ∧ t'.status = t.status ∧ t'.image = t.image ∧
      t'.images = t.images ∧ t'.createdAt = t.createdAt ∧
      s'.length = s.length ∧ ∀ j, j ≠ i → s'[j]? = s[j]? := by
  obtain ⟨i, t, hi, ht, ht', hs', _, _⟩ := updateFeedbackOnly_ok h
  obtain ⟨t2, ht2, hp, _⟩ := findIndex_some hi
  rw [ht] at ht2
  cases ht2
  have hlt : i < s.length := by
    rcases Nat.lt_or_ge i s.length with hlt | hge
    · exact hlt
    · rw [List.getElem?_eq_none hge] at ht
      cases ht
  refine ⟨i, t, ht, by simpa [idMatches] using hp, ?_, ?_, ?_, ?_, ?_, ?_, ?_, ?_, ?_, ?_, ?_,
    ?_, ?_, ?_⟩
  · rw [hs']
    exact List.getElem?_set_self hlt
  all_goals first
    | (rw [ht'])
    | (rw [hs']; exact List.length_set ..)
    | (intro j hj
       rw [hs']
       exact List.getElem?_set_ne (Ne.symm hj))

/-- Witness for C4: rating 4 on the Resolved ticket 1. -/
theorem feedback_changes_only_feedback_witness :
    updateFeedbackOnly "t1" [resolvedTicket] "1" 4 = .ok ([ratedTicket], ratedTicket) ∧
    ∃ (i : Nat) (t : Ticket), [resolvedTicket][i]? = some t ∧ parseInt "1" = some t.id ∧
      [ratedTicket][i]? = some ratedTicket ∧
      ratedTicket.id = t.id ∧ ratedTicket.userId = t.userId ∧ ratedTicket.userTo = t.userTo ∧
      ratedTicket.title = t.title ∧ ratedTicket.description = t.description ∧
      ratedTicket.category = t.category ∧ ratedTicket.priority = t.priority ∧
      ratedTicket.status = t.status ∧ ratedTicket.image = t.image ∧
      ratedTicket.images = t.images ∧ ratedTicket.createdAt = t.createdAt ∧
      [ratedTicket].length = [resolvedTicket].length ∧
      ∀ j, j ≠ i → [ratedTicket][j]? = [resolvedTicket][j]? :=
  ⟨rfl,
    feedback_changes_only_feedback "t1" [resolvedTicket] "1" 4 [ratedTicket] ratedTicket rfl⟩

/-- C5: for an integer rating `r`, the feedback request fails with a validation
error exactly when `r` is outside 1..5; for `r` in 1..5 it fails with not-found
exactly when no stored record carries the requested id, and otherwise it
succeeds and the record written and returned has `feedback = r`. -/
theorem feedback_error_cases (now : String) (s : List Ticket) (p : String) (r : Int) :
    (updateFeedbackOnly now s p r = .error .validation ↔ ¬ (1 ≤ r ∧ r ≤ 5)) ∧
    ((1 ≤ r ∧ r ≤ 5) →
      (updateFeedbackOnly now s p r = .error .notFound ↔ ∀ t ∈ s, parseInt p ≠ some t.id)) ∧
    ((1 ≤ r ∧ r ≤ 5) → (∃ t ∈ s, parseInt p = some t.id) →
      ∃ s' t', updateFeedbackOnly now s p r = .ok (s', t') ∧ t'.feedback = some r ∧ t' ∈ s') := by
  have hcases : ∀ (h1 : 1 ≤ r) (h5 : r ≤ 5),
      ((∀ t ∈ s, parseInt p ≠ some t.id) ∧ updateFeedbackOnly now s p r = .error .notFound) ∨
      ((∃ t ∈ s, parseInt p = some t.id) ∧
        ∃ s' t', updateFeedbackOnly now s p r = .ok (s', t') ∧ t'.feedback = some r ∧
          t' ∈ s') := by
    intro h1 h5
    rw [updateFeedbackOnly_in_range h1 h5]
    cases hf : findIndex (idMatches (parseInt p)) s with
    | none =>
      left
      refine ⟨?_, rfl⟩
      intro t ht
      have := findIndex_none.mp hf t ht
      simpa [idMatches] using this
    | some i =>
      right
      obtain ⟨t, ht, hpt, _⟩ := findIndex_some hf
      have hlt : i < s.length := by
        rcases Nat.lt_or_ge i s.length with hlt | hge
        · exact hlt
        · rw [List.getElem?_eq_none hge] at ht
          cases ht
      refine ⟨⟨t, List.mem_iff_getElem?.mpr ⟨i, ht⟩, by simpa [idMatches] using hpt⟩, ?_⟩
      simp only [ht]
      refine ⟨_, _, rfl, rfl, ?_⟩
      exact List.mem_iff_getElem?.mpr ⟨i, List.getElem?_set_self hlt⟩
  refine ⟨⟨?_, fun h => updateFeedbackOnly_out_of_range h⟩, ?_, ?_⟩
  · intro h hr
    rcases hcases hr.1 hr.2 with ⟨_, h2⟩ | ⟨_, s', t', h2, _⟩
    · rw [h2] at h; cases h
    · rw [h2] at h; cases h
  · intro hr
    rcases hcases hr.1 hr.2 with ⟨h1, h2⟩ | ⟨⟨t, ht, hpt⟩, s', t', h2, _⟩
    · exact ⟨fun _ => h1, fun _ => h2⟩
    · constructor
      · intro h; rw [h2] at h; cases h
      · intro h; exact absurd hpt (h t ht)
  · intro hr ⟨t, ht, hpt⟩
    rcases hcases hr.1 hr.2 with ⟨h1, _⟩ | ⟨_, h2⟩
    · exact absurd hpt (h1 t ht)
    · exact h2

/-- Witness for C5: rating 6 is rejected, rating 4 on the stored ticket 1 is
stored as 4, rating 4 for an id nobody carries is not found. -/
theorem feedback_error_cases_witness :
    updateFeedbackOnly "t1" [resolvedTicket] "1" 6 = .error .validation ∧
    updateFeedbackOnly "t1" [resolvedTicket] "7" 4 = .error .notFound ∧
    ∃ s' t', updateFeedbackOnly "t1" [resolvedTicket] "1" 4 = .ok (s', t') ∧
      t'.feedback = some 4 ∧ t' ∈ s' :=
  ⟨(feedback_error_cases "t1" [resolvedTicket] "1" 6).1.mpr (by decide),
    ((feedback_error_cases "t1" [resolvedTicket] "7" 4).2.1 (by decide)).mpr (by decide),
    (feedback_error_cases "t1" [resolvedTicket] "1" 4).2.2 (by decide)
      ⟨resolvedTicket, by simp, by decide⟩⟩

/-- C6 (as stated, refuted): ticket 1 is stored with a non-empty title and
description, so the title and description resulting from a merge are non-empty,
yet an update request that supplies only a status is refused with a validation
error; and an assignee supplied as the text `abc` is stored as `null`. -/
theorem update_without_title_rejected :
    printerTicket ∈ [printerTicket] ∧ parseInt "1" = some printerTicket.id ∧
    printerTicket.title ≠ "" ∧ printerTicket.description ≠ "" ∧
    updateTicket "t1" [printerTicket] "1" statusOnly none = .error .validation ∧
    ∃ s' t', updateTicket "t1" [printerTicket] "1" reassignToText none = .ok (s', t') ∧
      t'.userTo = none :=
  ⟨by decide, by decide, by decide, by decide, rfl, _, _, rfl, rfl⟩

/-- C6 (amended): for a stored ticket with a non-zero id and an update request
that itself supplies a non-empty title and a non-empty description, the update
succeeds and replaces the first record carrying that id: title and description
take the supplied values; category, priority and status take the supplied value
when it is supplied non-empty and keep the prior value otherwise; userTo and
feedback take the integer that `parseInt` reads from the supplied text when it
is supplied non-empty and keep the prior value otherwise; id, userId and
createdAt are kept. -/
theorem update_merges_supplied (now : String) (s : List Ticket) (p : String) (body : UpdateBody)
    (file : Option String) (t : Ticket) (title description : String)
    (ht : t ∈ s) (hp : parseInt p = some t.id) (h0 : t.id ≠ 0)
    (htitle : body.title = some title) (htne : title ≠ "")
    (hdesc : body.description = some description) (hdne : description ≠ "") :
    ∃ (i : Nat) (t0 t' : Ticket),
      s[i]? = some t0 ∧ t0.id = t.id ∧ (∀ j u, j < i → s[j]? = some u → u.id ≠ t.id) ∧
      updateTicket now s p body file = .ok (s.set i t', t') ∧
      t'.title = title ∧ t'.description = description ∧
      (∀ v, body.category = some v → v ≠ "" → t'.category = v) ∧
      (body.category = none ∨ body.category = some "" → t'.category = t0.category) ∧
      (∀ v, body.priority = some v → v ≠ "" → t'.priority = v) ∧
      (body.priority = none ∨ body.priority = some "" → t'.priority = t0.priority) ∧
      (∀ v, body.status = some v → v ≠ "" → t'.status = v) ∧
      (body.status = none ∨ body.status = some "" → t'.status = t0.status) ∧
      (∀ v, body.userTo = some v → v ≠ "" → t'.userTo = parseInt v) ∧
      (body.userTo = none ∨ body.userTo = some "" → t'.userTo = t0.userTo) ∧
      (∀ v, body.feedback = some v → v ≠ "" → t'.feedback = parseInt v) ∧
      (body.feedback = none ∨ body.feedback = some "" → t'.feedback = t0.feedback) ∧
      t'.id = t0.id ∧ t'.userId = t0.userId ∧ t'.createdAt = t0.createdAt := by
  have hmatch : idMatches (parseInt p) t = true := by simp [idMatches, hp]
  obtain ⟨i, t0, hi, ht0⟩ := findIndex_some_of_mem ht hmatch
  obtain ⟨t1, ht1, hp1, hfirst⟩ := findIndex_some hi
  rw [ht0] at ht1
  cases ht1
  have hid0 : t0.id = t.id := by
    have : parseInt p = some t0.id := by simpa [idMatches] using hp1
    rw [hp] at this
    exact (Option.some.inj this).symm
  have hnf : numFalsy (parseInt p) = false := numFalsy_iff.mpr ⟨t.id, hp, h0⟩
  have htt : truthy body.title = true := by rw [htitle]; exact truthy_some htne
  have hdt : truthy body.description = true := by rw [hdesc]; exact truthy_some hdne
  refine ⟨i, t0,
    { t0 with
      title := jsOr body.title t0.title
      description := jsOr body.description t0.description
      category := jsOr body.category t0.category
      priority := jsOr body.priority t0.priority
      status := jsOr body.status t0.status
      userTo := if isSupplied body.userTo then parseIntField body.userTo else t0.userTo
      feedback :=
        if isSupplied body.feedback then parseIntField body.feedback else t0.feedback
      images := some (match file with
        | some f => currentImages t0 ++ [uploadPath f]
        | none => currentImages t0)
      image := none
      updatedAt := now }, ht0, hid0, ?_, ?_, ?_⟩
  · intro j u hj hu huid
    have := hfirst j u hj hu
    simp [idMatches, hp, huid] at this
  · rw [updateTicket_guard_passed hnf htt hdt, hi]
    simp only [ht0]
  · refine ⟨?_, ?_, ?_, ?_, ?_, ?_, ?_, ?_, ?_, ?_, ?_, ?_, rfl, rfl, rfl⟩
    · show jsOr body.title t0.title = title
      rw [htitle]; exact jsOr_some htne
    · show jsOr body.description t0.description = description
      rw [hdesc]; exact jsOr_some hdne
    · intro v hv hne
      show jsOr body.category t0.category = v
      rw [hv]; exact jsOr_some hne
    · intro h
      exact jsOr_unsupplied h
    · intro v hv hne
      show jsOr body.priority t0.priority = v
      rw [hv]; exact jsOr_some hne
    · intro h
      exact jsOr_unsupplied h
    · intro v hv hne
      show jsOr body.status t0.status = v
      rw [hv]; exact jsOr_some hne
    · intro h
      exact jsOr_unsupplied h
    · intro v hv hne
      show (if isSupplied body.userTo then parseIntField body.userTo else t0.userTo) = parseInt v
      rw [hv, isSupplied_some hne]
      rfl
    · intro h
      show (if isSupplied body.userTo then parseIntField body.userTo else t0.userTo) = t0.userTo
      rw [isSupplied_unsupplied h]
      rfl
    · intro v hv hne
      show (if isSupplied body.feedback then parseIntField body.feedback else t0.feedback)
        = parseInt v
      rw [hv, isSupplied_some hne]
      rfl
    · intro h
      show (if isSupplied body.feedback then parseIntField body.feedback else t0.feedback)
        = t0.feedback
      rw [isSupplied_unsupplied h]
      rfl

/-- Witness for C6 (amended): ticket 1 is renamed, closed and reassigned to
user 3; the empty priority and the absent category keep their prior values. -/
theorem update_merges_supplied_witness :
    ∃ (s' : List Ticket) (t' : Ticket),
      updateTicket "t1" [printerTicket] "1" closeAndReassign none = .ok (s', t') ∧
      t'.title = "Printer fixed" ∧ t'.description = "New toner" ∧ t'.status = "Closed" ∧
      t'.userTo = some 3 ∧ t'.priority = "Medium" ∧ t'.category = "General" ∧
      t'.feedback = none ∧ t'.id = 1 := by
  obtain ⟨i, t0, t', h0, _, _, hok, htitle, hdesc, _, hcat, _, hprio, hstatus, _, huser, _, _,
      hfb, hid, _, _⟩ :=
    update_merges_supplied "t1" [printerTicket] "1" closeAndReassign none printerTicket
      "Printer fixed" "New toner" (by decide) (by decide) (by decide) rfl (by decide) rfl
      (by decide)
  have ht0 : t0 = printerTicket := by
    have hmem : t0 ∈ [printerTicket] := List.mem_iff_getElem?.mpr ⟨i, h0⟩
    simpa using hmem
  subst ht0
  refine ⟨_, t', hok, htitle, hdesc, hstatus "Closed" rfl (by decide), ?_, ?_, ?_, ?_, hid⟩
  · rw [huser "3" rfl (by decide)]
    decide
  · exact hprio (Or.inr rfl)
  · exact hcat (Or.inl rfl)
  · exact hfb (Or.inl rfl)

/-- C7 (as stated, refuted): no stored ticket carries id 1 in the empty
document, and an update request for id 1 that supplies only a status fails with
a validation error, not with not-found. -/
theorem update_absent_id_validation_first :
    (∀ t ∈ ([] : List Ticket), parseInt "1" ≠ some t.id) ∧
    updateTicket "t1" [] "1" statusOnly none = .error .validation ∧
    updateTicket "t1" [] "1" statusOnly none ≠ .error .notFound := by
  have h : updateTicket "t1" [] "1" statusOnly none = .error .validation := rfl
  refine ⟨by simp, h, ?_⟩
  rw [h]
  intro hne
  cases hne

/-- C7 (amended): for an id that no stored ticket carries, an update request
fails and the document is left as it was: with not-found when the id is a
non-zero number and the request supplies a non-empty title and a non-empty
description, and with a validation error otherwise. -/
theorem update_absent_id_fails (now : String) (s : List Ticket) (p : String) (body : UpdateBody)
    (file : Option String) (habs : ∀ t ∈ s, parseInt p ≠ some t.id) :
    (((∃ n, parseInt p = some n ∧ n ≠ 0) ∧ (∃ v, body.title = some v ∧ v ≠ "") ∧
        (∃ v, body.description = some v ∧ v ≠ "")) →
      updateTicket now s p body file = .error .notFound) ∧
    (¬ ((∃ n, parseInt p = some n ∧ n ≠ 0) ∧ (∃ v, body.title = some v ∧ v ≠ "") ∧
        (∃ v, body.description = some v ∧ v ≠ "")) →
      updateTicket now s p body file = .error .validation) ∧
    step s (Op.update now p body file) = s := by
  have hnone : findIndex (idMatches (parseInt p)) s = none := by
    apply findIndex_none.mpr
    intro t ht
    have := habs t ht
    simpa [idMatches] using this
  have h1 : ((∃ n, parseInt p = some n ∧ n ≠ 0) ∧ (∃ v, body.title = some v ∧ v ≠ "") ∧
        (∃ v, body.description = some v ∧ v ≠ "")) →
      updateTicket now s p body file = .error .notFound := by
    rintro ⟨hn, ht, hd⟩
    rw [updateTicket_guard_passed (numFalsy_iff.mpr hn) (truthy_iff.mpr ht) (truthy_iff.mpr hd),
      hnone]
  have h2 : ¬ ((∃ n, parseInt p = some n ∧ n ≠ 0) ∧ (∃ v, body.title = some v ∧ v ≠ "") ∧
        (∃ v, body.description = some v ∧ v ≠ "")) →
      updateTicket now s p body file = .error .validation := by
    intro hnot
    apply updateTicket_guard_failed
    by_contra hcon
    simp only [not_or, Bool.not_eq_true, Bool.not_eq_false] at hcon
    exact hnot ⟨numFalsy_iff.mp hcon.1, truthy_iff.mp hcon.2.1, truthy_iff.mp hcon.2.2⟩
  refine ⟨h1, h2, ?_⟩
  by_cases hc : (∃ n, parseInt p = some n ∧ n ≠ 0) ∧ (∃ v, body.title = some v ∧ v ≠ "") ∧
      (∃ v, body.description = some v ∧ v ≠ "")
  · simp [step, h1 hc]
  · simp [step, h2 hc]

/-- Witness for C7 (amended): ticket 7 is absent from the document holding
ticket 1; a complete update request for it is not found, a status-only request
is a validation error, and the document stays as it was. -/
theorem update_absent_id_fails_witness :
    updateTicket "t1" [printerTicket] "7" closeAndReassign none = .error .notFound ∧
    updateTicket "t1" [printerTicket] "7" statusOnly none = .error .validation ∧
    step [printerTicket] (Op.update "t1" "7" closeAndReassign none) = [printerTicket] :=
  ⟨(update_absent_id_fails "t1" [printerTicket] "7" closeAndReassign none (by decide)).1
      ⟨⟨7, by decide, by decide⟩, ⟨_, rfl, by decide⟩, ⟨_, rfl, by decide⟩⟩,
    (update_absent_id_fails "t1" [printerTicket] "7" statusOnly none (by decide)).2.1
      (by rintro ⟨_, ⟨v, hv, _⟩, _⟩; cases hv),
    (update_absent_id_fails "t1" [printerTicket] "7" closeAndReassign none (by decide)).2.2⟩

/-- C8 (as stated, refuted): the create request of the scenario, sent to the
empty document, yields ticket 1 without an `images` key (so its `images` is not
the empty sequence), and a create with an uploaded file stores the path in the
legacy `image` field, again without an `images` key. -/
theorem create_has_no_images_key :
    createTicket "t0" "t0" [] printerDown none = .ok ([printerTicket], printerTicket) ∧
    printerTicket.images ≠ some [] ∧
    ∃ s' t, createTicket "t0" "t0" [] printerDown (some "a.png") = .ok (s', t) ∧
      t.images ≠ some ["/uploads/a.png"] ∧ t.images = none ∧ t.image = some "/uploads/a.png" :=
  ⟨rfl, by decide, _, _, rfl, by decide, rfl, by decide⟩

/-- C8 (amended): the record returned and stored by a successful create carries
its attachment in the legacy `image` field and has no `images` key: `image` is
the path of the uploaded file when one was uploaded and `null` otherwise; read
through `getImages`, the record shows the one-element sequence holding that
path, or the empty sequence. -/
theorem create_stores_legacy_image (c u : String) (tickets : List Ticket) (body : CreateBody)
    (file : Option String) (s' : List Ticket) (t : Ticket)
    (h : createTicket c u tickets body file = .ok (s', t)) :
    s' = tickets ++ [t] ∧ t.images = none ∧ t.image = file.map uploadPath ∧
    getImages (some t) = (file.map uploadPath).toList := by
  obtain ⟨h1, _, h3, h4⟩ := createTicket_ok h
  refine ⟨h1, h3, h4, ?_⟩
  cases file with
  | none => simp [getImages, h3, h4, imageSet]
  | some f =>
    have hset := imageSet_uploadPath f
    simp [getImages, h3, h4, hset]

/-- Witness for C8 (amended): the scenario's create without a file, and the
same create with the file `a.png`. -/
theorem create_stores_legacy_image_witness :
    (printerTicket.images = none ∧ printerTicket.image = none ∧
      getImages (some printerTicket) = []) ∧
    ∃ s' t, createTicket "t0" "t0" [] printerDown (some "a.png") = .ok (s', t) ∧
      t.images = none ∧ t.image = some "/uploads/a.png" ∧
      getImages (some t) = ["/uploads/a.png"] :=
  ⟨(create_stores_legacy_image "t0" "t0" [] printerDown none [printerTicket] printerTicket
      rfl).2,
    _, _, rfl,
    (create_stores_legacy_image "t0" "t0" [] printerDown (some "a.png") _ _ rfl).2⟩

/-- C9: in every document reached from the empty one by create, update,
feedback, add-images and delete requests, no record has both a non-empty
`images` sequence and a non-null `image`; and the record written by a
successful update or add-images request, on any document, has an `images`
array and `image = null`. -/
theorem attachments_never_both (ops : List Op) :
    (∀ t ∈ run [] ops, ¬ ((∃ l, t.images = some l ∧ l ≠ []) ∧ t.image ≠ none)) ∧
    (∀ (now : String) (s : List Ticket) (p : String) (body : UpdateBody) (file : Option String)
      (s' : List Ticket) (t' : Ticket), updateTicket now s p body file = .ok (s', t') →
        t' ∈ s' ∧ (∃ l, t'.images = some l) ∧ t'.image = none) ∧
    (∀ (now : String) (s : List Ticket) (p : String) (files : List String)
      (s' : List Ticket) (t' : Ticket), appendImages now s p files = .ok (s', t') →
        t' ∈ s' ∧ (∃ l, t'.images = some l) ∧ t'.image = none) := by
  refine ⟨?_, ?_, ?_⟩
  · intro t ht
    have hinv : AttachmentsSeparate (run [] ops) :=
      attachmentsSeparate_run ops (by intro t ht; simp at ht)
    rintro ⟨⟨l, hl, _⟩, himg⟩
    rcases hinv t ht with h | h
    · rw [h] at hl; cases hl
    · exact himg h
  · intro now s p body file s' t' h
    obtain ⟨i, t, _, ht, ht', hs'⟩ := updateTicket_ok h
    refine ⟨?_, ?_, ?_⟩
    · rw [hs']
      exact List.mem_iff_getElem?.mpr ⟨i, List.getElem?_set_self (getElem?_lt ht)⟩
    · rw [ht']; exact ⟨_, rfl⟩
    · rw [ht']
  · intro now s p files s' t' h
    obtain ⟨i, t, _, ht, ht', hs', _⟩ := appendImages_ok h
    refine ⟨?_, ?_, ?_⟩
    · rw [hs']
      exact List.mem_iff_getElem?.mpr ⟨i, List.getElem?_set_self (getElem?_lt ht)⟩
    · rw [ht']; exact ⟨_, rfl⟩
    · rw [ht']

/-- C10: a successful add-images request replaces the first record carrying
the requested id by a record whose `images` is the prior attachment sequence
followed by the paths of the uploaded files in request order, and whose `image`
is `null`.  The prior attachment sequence is the record's `images` array when it
has one; otherwise the one-element sequence holding its legacy `image` when
that is set, and the empty sequence when it is not. -/
theorem append_images_appends (now : String) (s : List Ticket) (p : String)
    (files : List String) (s' : List Ticket) (t' : Ticket)
    (h : appendImages now s p files = .ok (s', t')) :
    ∃ (i : Nat) (t : Ticket),
      s[i]? = some t ∧ parseInt p = some t.id ∧
      (∀ j u, j < i → s[j]? = some u → parseInt p ≠ some u.id) ∧
      s' = s.set i t' ∧ s'[i]? = some t' ∧ t'.id = t.id ∧ t'.image = none ∧
      (∀ l, t.images = some l → t'.images = some (l ++ files.map (fun f => "/uploads/" ++ f))) ∧
      (∀ q, t.images = none → t.image = some q → q ≠ "" →
        t'.images = some ([q] ++ files.map (fun f => "/uploads/" ++ f))) ∧
      (t.images = none → (t.image = none ∨ t.image = some "") →
        t'.images = some (files.map (fun f => "/uploads/" ++ f))) := by
  obtain ⟨i, t, hi, ht, ht', hs', _⟩ := appendImages_ok h
  obtain ⟨t2, ht2, hp, hfirst⟩ := findIndex_some hi
  rw [ht] at ht2
  cases ht2
  refine ⟨i, t, ht, by simpa [idMatches] using hp, ?_, hs', ?_, ?_, ?_, ?_, ?_, ?_⟩
  · intro j u hj hu
    have := hfirst j u hj hu
    simpa [idMatches] using this
  · rw [hs']
    exact List.getElem?_set_self (getElem?_lt ht)
  · rw [ht']
  · rw [ht']
  · intro l hl
    rw [ht']
    simp [existingImages, hl, uploadPath]
  · intro q hnone hq hne
    rw [ht']
    simp [existingImages, hnone, hq, imageSet, hne, uploadPath]
  · intro hnone himg
    rw [ht']
    rcases himg with himg | himg <;> simp [existingImages, hnone, himg, imageSet, uploadPath]

/-- Witness for C10: the scenario of the specification, one file added to a
ticket with the legacy image `/uploads/old.png`. -/
theorem append_images_appends_witness :
    ∃ (s' : List Ticket) (t' : Ticket),
      appendImages "t1" [legacyTicket] "1" ["fileA.png"] = .ok (s', t') ∧
      t'.images = some ["/uploads/old.png", "/uploads/fileA.png"] ∧ t'.image = none ∧
      s'[0]? = some t' := by
  refine ⟨_, _, rfl, ?_⟩
  obtain ⟨i, t, h0, _, _, _, hi, _, himg, _, hlegacy, _⟩ :=
    append_images_appends "t1" [legacyTicket] "1" ["fileA.png"] _ _ rfl
  have ht : t = legacyTicket := by
    have hmem : t ∈ [legacyTicket] := List.mem_iff_getElem?.mpr ⟨i, h0⟩
    simpa using hmem
  subst ht
  have hi0 : i = 0 := by
    have := getElem?_lt h0
    simpa using this
  subst hi0
  exact ⟨hlegacy "/uploads/old.png" rfl rfl (by decide), himg, hi⟩

/-! ## Lemmas on the attachment readers -/

theorem imageSet_iff {o : Option String} : imageSet o = true ↔ ∃ q, o = some q ∧ q ≠ "" := by
  cases o with
  | none => simp [imageSet]
  | some q => simp [imageSet]

theorem getImages_eq_readerRuleSpec (t : Ticket) : getImages (some t) = readerRuleSpec t := by
  obtain ⟨id, userId, title, description, category, priority, userTo, status, feedback, image,
    images, createdAt, updatedAt⟩ := t
  cases images with
  | none =>
    cases image with
    | none => simp [getImages, readerRuleSpec, imageSet]
    | some q =>
      by_cases hq : q = ""
      · simp [getImages, readerRuleSpec, imageSet, hq]
      · simp [getImages, readerRuleSpec, imageSet, hq]
  | some l =>
    cases l with
    | nil =>
      cases image with
      | none => simp [getImages, readerRuleSpec, imageSet]
      | some q =>
        by_cases hq : q = ""
        · simp [getImages, readerRuleSpec, imageSet, hq]
        · simp [getImages, readerRuleSpec, imageSet, hq]
    | cons a l => simp [getImages, readerRuleSpec]

/-- The list computed by the update handler is the reader rule's sequence,
except on a record with an empty `images` array and a set `image`. -/
theorem currentImages_eq_readerRuleSpec {t : Ticket}
    (h : ¬ (t.images = some [] ∧ ∃ q, t.image = some q ∧ q ≠ "")) :
    currentImages t = readerRuleSpec t := by
  obtain ⟨id, userId, title, description, category, priority, userTo, status, feedback, image,
    images, createdAt, updatedAt⟩ := t
  cases images with
  | none =>
    cases image with
    | none => simp [currentImages, readerRuleSpec, imageSet]
    | some q =>
      by_cases hq : q = ""
      · simp [currentImages, readerRuleSpec, imageSet, hq]
      · simp [currentImages, readerRuleSpec, imageSet, hq]
  | some l =>
    cases l with
    | nil =>
      cases image with
      | none => simp [currentImages, readerRuleSpec]
      | some q =>
        by_cases hq : q = ""
        · simp [currentImages, readerRuleSpec, hq]
        · exact absurd ⟨rfl, q, rfl, hq⟩ h
    | cons a l => simp [currentImages, readerRuleSpec]

/-- C11 (as stated, refuted): on a record with an empty `images` array and the
legacy image `/uploads/old.png`, whose normalised attachment sequence is that
one path, a successful update stores the empty sequence and `image = null`: the
path is lost. -/
theorem update_drops_legacy_beside_empty_array :
    readerRuleSpec strayTicket = ["/uploads/old.png"] ∧
    ∃ s' t', updateTicket "t1" [strayTicket] "1" repeatTitle none = .ok (s', t') ∧
      t'.images = some [] ∧ t'.image = none ∧
      t'.images ≠ some (readerRuleSpec strayTicket ++ []) :=
  ⟨by decide, _, _, rfl, rfl, rfl, by decide⟩

/-- C11 (amended): a successful update replaces the first record carrying the
requested id by a record with `image = null` whose `images` is the prior
`images` array, when the record has one, followed by the path of the new file
when one is supplied; unless the prior record has an empty `images` array
together with a set legacy `image`, this is the normalised prior attachment
sequence of the reader rule followed by the path of the new file. -/
theorem update_stores_normalised (now : String) (s : List Ticket) (p : String)
    (body : UpdateBody) (file : Option String) (s' : List Ticket) (t' : Ticket)
    (h : updateTicket now s p body file = .ok (s', t')) :
    ∃ (i : Nat) (t : Ticket),
      s[i]? = some t ∧ parseInt p = some t.id ∧ s'[i]? = some t' ∧ t'.image = none ∧
      (∀ l, t.images = some l → t'.images = some (l ++ (file.map uploadPath).toList)) ∧
      (¬ (t.images = some [] ∧ ∃ q, t.image = some q ∧ q ≠ "") →
        t'.images = some (readerRuleSpec t ++ (file.map uploadPath).toList)) := by
  obtain ⟨i, t, hi, ht, ht', hs'⟩ := updateTicket_ok h
  obtain ⟨t2, ht2, hp, _⟩ := findIndex_some hi
  rw [ht] at ht2
  cases ht2
  have himgs : t'.images = some (currentImages t ++ (file.map uploadPath).toList) := by
    rw [ht']
    cases file <;> simp
  refine ⟨i, t, ht, by simpa [idMatches] using hp, ?_, ?_, ?_, ?_⟩
  · rw [hs']
    exact List.getElem?_set_self (getElem?_lt ht)
  · rw [ht']
  · intro l hl
    rw [himgs]
    simp [currentImages, hl]
  · intro hstray
    rw [himgs, currentImages_eq_readerRuleSpec hstray]

/-- Witness for C11 (amended): an update with the new file `b.png` on the
legacy ticket 1, whose single image is `/uploads/old.png`. -/
theorem update_stores_normalised_witness :
    ∃ (s' : List Ticket) (t' : Ticket),
      updateTicket "t1" [legacyTicket] "1" repeatTitle (some "b.png") = .ok (s', t') ∧
      t'.images = some ["/uploads/old.png", "/uploads/b.png"] ∧ t'.image = none := by
  refine ⟨_, _, rfl, ?_⟩
  obtain ⟨i, t, h0, _, _, himg, _, hrule⟩ :=
    update_stores_normalised "t1" [legacyTicket] "1" repeatTitle (some "b.png") _ _ rfl
  have ht : t = legacyTicket := by
    have hmem : t ∈ [legacyTicket] := List.mem_iff_getElem?.mpr ⟨i, h0⟩
    simpa using hmem
  subst ht
  refine ⟨?_, himg⟩
  rw [hrule (by decide)]
  decide

/-- C12: `getImages` is idempotent (normalising the ticket whose attachments
were replaced by `getImages(t)`, with `image := null`, gives `getImages(t)`
again), it is the reader rule of the specification, and the two copies of
`getImages` in the client agree. -/
theorem getImages_idempotent (t : Ticket) :
    getImages (some (withAttachments t (getImages (some t)))) = getImages (some t) ∧
    getImages (some t) = readerRuleSpec t ∧
    Dashboard.getImages t = getImages (some t) ∧
    Dashboard.getImages (withAttachments t (Dashboard.getImages t)) = Dashboard.getImages t := by
  have hidem : getImages (some (withAttachments t (getImages (some t))))
      = getImages (some t) := by
    cases hg : getImages (some t) with
    | nil => simp [getImages, withAttachments, imageSet]
    | cons a l => simp [getImages, withAttachments]
  have hsame : Dashboard.getImages t = getImages (some t) := rfl
  refine ⟨hidem, getImages_eq_readerRuleSpec t, hsame, ?_⟩
  rw [hsame]
  exact hidem

/-- C13 (the code at the failing input): the create request sent by the form
for a ticket assigned to user 7 stores `feedback = 7`, and an update request
with `feedback = 0` stores `0`. -/
theorem create_stores_unchecked_feedback :
    (run [] [Op.create "t0" "t0" assignedToSeven none]).map (fun t => t.feedback) = [some 7] ∧
    (run [] [Op.create "t0" "t0" printerDown none,
      Op.update "t1" "1" { repeatTitle with feedback := some "0" } none]).map
        (fun t => t.feedback) = [some 0] := by
  decide

/-! ## Lemmas on the guards of create and add-images -/

theorem truthy_eq_false_iff {o : Option String} :
    truthy o = false ↔ (o = none ∨ o = some "") := by
  cases o with
  | none => simp [truthy]
  | some v => simp [truthy]

/-- The create handler stopped by its guard. -/
theorem createTicket_guard_failed {c u : String} {s : List Ticket} {body : CreateBody}
    {file : Option String}
    (h : truthy body.userId = false ∨ truthy body.title = false ∨
      truthy body.description = false ∨ truthy body.userTo = false) :
    createTicket c u s body file = .error .validation := by
  have hg : (!truthy body.userId || !truthy body.title || !truthy body.description
      || !truthy body.userTo) = true := by
    rcases h with h | h | h | h <;> simp [h]
  simp only [createTicket, hg, if_true]

/-- The create handler behind its guard. -/
theorem createTicket_guard_passed {c u : String} {s : List Ticket} {body : CreateBody}
    {file : Option String}
    (h1 : truthy body.userId = true) (h2 : truthy body.title = true)
    (h3 : truthy body.description = true) (h4 : truthy body.userTo = true) :
    createTicket c u s body file =
      .ok (s ++ [{ id := nextId s
                   userId := parseIntField body.userId
                   title := body.title.getD ""
                   description := body.description.getD ""
                   category := jsOr body.category "General"
                   priority := jsOr body.priority "Medium"
                   userTo := parseIntField body.userTo
                   status := "Open"
                   feedback := parseIntField body.feedback
                   image := file.map uploadPath
                   images := none
                   createdAt := c
                   updatedAt := u }],
           { id := nextId s
             userId := parseIntField body.userId
             title := body.title.getD ""
             description := body.description.getD ""
             category := jsOr body.category "General"
             priority := jsOr body.priority "Medium"
             userTo := parseIntField body.userTo
             status := "Open"
             feedback := parseIntField body.feedback
             image := file.map uploadPath
             images := none
             createdAt := c
             updatedAt := u }) := by
  simp only [createTicket, h1, h2, h3, h4, Bool.not_true, Bool.or_self, Bool.false_eq_true,
    if_false]

/-- The add-images handler on a request with at least one file. -/
theorem appendImages_some_files {now : String} {s : List Ticket} {p : String}
    {files : List String} (hne : files ≠ []) :
    appendImages now s p files =
      match findIndex (idMatches (parseInt p)) s with
      | none => .error .notFound
      | some ticketIndex =>
        match s[ticketIndex]? with
        | none => .error .server
        | some ticket =>
          .ok (s.set ticketIndex
            { ticket with
              images := some (existingImages ticket ++ files.map uploadPath)
              image := none
              updatedAt := now },
            { ticket with
              images := some (existingImages ticket ++ files.map uploadPath)
              image := none
              updatedAt := now }) := by
  have h0 : (files.length == 0) = false := by
    cases files with
    | nil => exact absurd rfl hne
    | cons a l => simp
  simp only [appendImages, h0, Bool.false_eq_true, if_false]

/-- C16: add-images fails with a validation error exactly when no file is
supplied, whether a stored ticket carries the requested id or not; with at
least one file it fails with not-found exactly when no stored ticket carries
the requested id, and it succeeds when one does. -/
theorem append_images_errors (now : String) (s : List Ticket) (p : String)
    (files : List String) :
    (appendImages now s p files = .error .validation ↔ files = []) ∧
    (files ≠ [] →
      (appendImages now s p files = .error .notFound ↔ ∀ t ∈ s, parseInt p ≠ some t.id)) ∧
    (files ≠ [] → (∃ t ∈ s, parseInt p = some t.id) →
      ∃ s' t', appendImages now s p files = .ok (s', t')) := by
  have hsome : files ≠ [] →
      ((∀ t ∈ s, parseInt p ≠ some t.id) ∧ appendImages now s p files = .error .notFound) ∨
      ((∃ t ∈ s, parseInt p = some t.id) ∧
        ∃ s' t', appendImages now s p files = .ok (s', t')) := by
    intro hne
    rw [appendImages_some_files hne]
    cases hf : findIndex (idMatches (parseInt p)) s with
    | none =>
      left
      refine ⟨?_, rfl⟩
      intro t ht
      have := findIndex_none.mp hf t ht
      simpa [idMatches] using this
    | some i =>
      right
      obtain ⟨t, ht, hpt, _⟩ := findIndex_some hf
      refine ⟨⟨t, List.mem_iff_getElem?.mpr ⟨i, ht⟩, by simpa [idMatches] using hpt⟩, ?_⟩
      simp only [ht]
      exact ⟨_, _, rfl⟩
  refine ⟨⟨?_, ?_⟩, ?_, ?_⟩
  · intro h
    by_contra hne
    rcases hsome hne with ⟨_, h2⟩ | ⟨_, s', t', h2⟩
    · rw [h2] at h; cases h
    · rw [h2] at h; cases h
  · intro h
    subst h
    rfl
  · intro hne
    rcases hsome hne with ⟨h1, h2⟩ | ⟨⟨t, ht, hpt⟩, s', t', h2⟩
    · exact ⟨fun _ => h1, fun _ => h2⟩
    · constructor
      · intro h; rw [h2] at h; cases h
      · intro h; exact absurd hpt (h t ht)
  · intro hne hex
    rcases hsome hne with ⟨h1, _⟩ | ⟨_, h2⟩
    · obtain ⟨t, ht, hpt⟩ := hex
      exact absurd hpt (h1 t ht)
    · exact h2

/-- Witness for C16: the scenario `AppendImages(1, [])`, no file for the
absent ticket 7, and one file for the absent ticket 7. -/
theorem append_images_errors_witness :
    appendImages "t1" [printerTicket] "1" [] = .error .validation ∧
    appendImages "t1" [printerTicket] "7" [] = .error .validation ∧
    appendImages "t1" [printerTicket] "7" ["a.png"] = .error .notFound :=
  ⟨(append_images_errors "t1" [printerTicket] "1" []).1.mpr rfl,
    (append_images_errors "t1" [printerTicket] "7" []).1.mpr rfl,
    ((append_images_errors "t1" [printerTicket] "7" ["a.png"]).2.1 (by decide)).mpr
      (by decide)⟩

/-! ## Lemmas on delete and on the read-only routes -/

/-- The record found by `findIndex` splits the document around it. -/
theorem split_at_found {s : List Ticket} {i : Nat} {t : Ticket} (ht : s[i]? = some t) :
    s = s.take i ++ t :: s.drop (i + 1) ∧ s.eraseIdx i = s.take i ++ s.drop (i + 1) := by
  obtain ⟨hlt, hget⟩ := List.getElem?_eq_some.mp ht
  refine ⟨?_, List.eraseIdx_eq_take_drop_succ s i⟩
  rw [← hget, ← List.drop_eq_getElem_cons hlt, List.take_append_drop]

theorem getElem?_take_of_mem {s : List Ticket} {i : Nat} {u : Ticket} (hu : u ∈ s.take i) :
    ∃ j, j < i ∧ s[j]? = some u := by
  obtain ⟨j, hj⟩ := List.mem_iff_getElem?.mp hu
  have hlt : j < (s.take i).length := getElem?_lt hj
  have hji : j < i := by
    have := List.length_take_le i s
    omega
  refine ⟨j, hji, ?_⟩
  rw [List.getElem?_take] at hj
  simpa [hji] using hj

/-- C17 (as stated, refuted): on a document that holds two records with id 1,
delete of ticket 1 succeeds and removes the first of them; the second is still
stored, and a following get-by-id of ticket 1 answers with it. -/
theorem delete_leaves_twin_record :
    deleteTicket [printerTicket, twinTicket] "1" = .ok ([twinTicket], none) ∧
    parseInt "1" = some twinTicket.id ∧
    getTicket [twinTicket] "1" = ([twinTicket], .ok twinTicket) ∧
    getTicket [twinTicket] "1" ≠ ([twinTicket], .error .notFound) := by
  refine ⟨rfl, by decide, rfl, ?_⟩
  intro h
  have h2 : (getTicket [twinTicket] "1").2 = .error .notFound := by rw [h]
  have h3 : (getTicket [twinTicket] "1").2 = .ok twinTicket := rfl
  rw [h3] at h2
  cases h2

/-- C17 (amended): delete fails with not-found exactly when no stored record
carries the requested id; otherwise the document written is the document read
with the first record carrying that id removed, every other record as it was
and in its place; and when the stored ids are pairwise distinct (as they are
in every document reached from the empty one), no record carries the id
afterwards and a following get-by-id fails with not-found. -/
theorem delete_removes_record (s : List Ticket) (p : String) :
    (deleteTicket s p = .error .notFound ↔ ∀ t ∈ s, parseInt p ≠ some t.id) ∧
    ((∃ t ∈ s, parseInt p = some t.id) →
      ∃ (pre : List Ticket) (t : Ticket) (post : List Ticket) (f : Option String),
        s = pre ++ t :: post ∧ parseInt p = some t.id ∧
        (∀ u ∈ pre, parseInt p ≠ some u.id) ∧
        deleteTicket s p = .ok (pre ++ post, f) ∧
        ((s.map (fun t => t.id)).Nodup →
          (∀ u ∈ pre ++ post, parseInt p ≠ some u.id) ∧
          getTicket (pre ++ post) p = (pre ++ post, .error .notFound))) := by
  have hcases :
      ((∀ t ∈ s, parseInt p ≠ some t.id) ∧ deleteTicket s p = .error .notFound) ∨
      ((∃ t ∈ s, parseInt p = some t.id) ∧
        ∃ (pre : List Ticket) (t : Ticket) (post : List Ticket) (f : Option String),
          s = pre ++ t :: post ∧ parseInt p = some t.id ∧
          (∀ u ∈ pre, parseInt p ≠ some u.id) ∧
          deleteTicket s p = .ok (pre ++ post, f) ∧
          ((s.map (fun t => t.id)).Nodup →
            (∀ u ∈ pre ++ post, parseInt p ≠ some u.id) ∧
            getTicket (pre ++ post) p = (pre ++ post, .error .notFound))) := by
    cases hf : findIndex (idMatches (parseInt p)) s with
    | none =>
      left
      refine ⟨?_, by simp only [deleteTicket, hf]⟩
      intro t ht
      have := findIndex_none.mp hf t ht
      simpa [idMatches] using this
    | some i =>
      right
      obtain ⟨t, ht, hpt, hfirst⟩ := findIndex_some hf
      have hpt' : parseInt p = some t.id := by simpa [idMatches] using hpt
      obtain ⟨hsplit, herase⟩ := split_at_found ht
      refine ⟨⟨t, List.mem_iff_getElem?.mpr ⟨i, ht⟩, hpt'⟩, s.take i, t, s.drop (i + 1),
        (if imageSet t.image then t.image else none), hsplit, hpt', ?_, ?_, ?_⟩
      · intro u hu
        obtain ⟨j, hji, hj⟩ := getElem?_take_of_mem hu
        have := hfirst j u hji hj
        simpa [idMatches] using this
      · simp only [deleteTicket, hf, ht, herase]
      · intro hnd
        have hnone : ∀ u ∈ s.take i ++ s.drop (i + 1), parseInt p ≠ some u.id := by
          intro u hu hpu
          have hid : u.id = t.id := by
            rw [hpt'] at hpu
            exact (Option.some.inj hpu).symm
          rw [hsplit, List.map_append, List.map_cons] at hnd
          have hnd2 := List.nodup_append.mp hnd
          have hnotpost : t.id ∉ (s.drop (i + 1)).map (fun t => t.id) :=
            (List.nodup_cons.mp hnd2.2.1).1
          rcases List.mem_append.mp hu with hu | hu
          · exact hnd2.2.2 (List.mem_map.mpr ⟨u, hu, hid⟩) (List.mem_cons_self _ _)
          · exact hnotpost (List.mem_map.mpr ⟨u, hu, hid⟩)
        refine ⟨hnone, ?_⟩
        have hfind : (s.take i ++ s.drop (i + 1)).find? (idMatches (parseInt p)) = none := by
          apply List.find?_eq_none.mpr
          intro u hu hm
          exact hnone u hu (by simpa [idMatches] using hm)
        simp only [getTicket, hfind]
  refine ⟨⟨?_, ?_⟩, ?_⟩
  · intro h
    rcases hcases with ⟨h1, _⟩ | ⟨_, pre, t, post, f, _, _, _, hok, _⟩
    · exact h1
    · rw [hok] at h; cases h
  · intro h
    rcases hcases with ⟨_, h2⟩ | ⟨⟨t, ht, hpt⟩, _⟩
    · exact h2
    · exact absurd hpt (h t ht)
  · intro hex
    rcases hcases with ⟨h1, _⟩ | ⟨_, h2⟩
    · obtain ⟨t, ht, hpt⟩ := hex
      exact absurd hpt (h1 t ht)
    · exact h2

/-- Witness for C17 (amended): deleting ticket 1 from the document holding
tickets 1 and 2 leaves ticket 2, and ticket 1 is then not found. -/
theorem delete_removes_record_witness :
    deleteTicket [printerTicket] "7" = .error .notFound ∧
    ∃ f, deleteTicket [printerTicket, assignedTicket 2 "Scanner" 1] "1"
        = .ok ([assignedTicket 2 "Scanner" 1], f) ∧
      getTicket [assignedTicket 2 "Scanner" 1] "1"
        = ([assignedTicket 2 "Scanner" 1], .error .notFound) := by
  refine ⟨(delete_removes_record [printerTicket] "7").1.mpr (by decide), ?_⟩
  obtain ⟨pre, t, post, f, _, _, _, hok, hdistinct⟩ :=
    (delete_removes_record [printerTicket, assignedTicket 2 "Scanner" 1] "1").2
      ⟨printerTicket, by simp, by decide⟩
  have hrun : deleteTicket [printerTicket, assignedTicket 2 "Scanner" 1] "1"
      = .ok ([assignedTicket 2 "Scanner" 1], none) := rfl
  rw [hrun] at hok
  simp only [Except.ok.injEq, Prod.mk.injEq] at hok
  have hget := (hdistinct (by decide)).2
  rw [← hok.1] at hget
  exact ⟨none, rfl, hget⟩

/-- C18: for a user id `u`, the list-by-user route leaves the document as it
was and answers with the stored tickets whose `userId` or `userTo` is `u`:
the answer is a sublist of the document (same relative order), it holds
exactly the tickets that match, and each matching ticket as often as the
document holds it. -/
theorem list_by_user (s : List Ticket) (p : String) (u : Int) (hp : parseInt p = some u) :
    (getUserTickets s p).1 = s ∧
    (getUserTickets s p).2.Sublist s ∧
    (∀ t, t ∈ (getUserTickets s p).2 ↔ (t ∈ s ∧ (t.userId = some u ∨ t.userTo = some u))) ∧
    (∀ t, (t.userId = some u ∨ t.userTo = some u) →
      (getUserTickets s p).2.count t = s.count t) := by
  have hpred : ∀ t : Ticket,
      (strictEqParsed t.userId (parseInt p) || strictEqParsed t.userTo (parseInt p)) = true ↔
        (t.userId = some u ∨ t.userTo = some u) := by
    intro t
    rw [hp]
    cases h1 : t.userId <;> cases h2 : t.userTo <;> simp [strictEqParsed]
  refine ⟨rfl, ?_, ?_, ?_⟩
  · exact List.filter_sublist s
  · intro t
    simp only [getUserTickets, List.mem_filter, hpred]
  · intro t ht
    simp only [getUserTickets]
    exact List.count_filter ((hpred t).mpr ht)

/-- Witness for C18: user 2 is the assignee of ticket 1 and neither creator
nor assignee of ticket 2. -/
theorem list_by_user_witness :
    (getUserTickets [printerTicket, assignedTicket 2 "Scanner" 1] "2").1
      = [printerTicket, assignedTicket 2 "Scanner" 1] ∧
    (getUserTickets [printerTicket, assignedTicket 2 "Scanner" 1] "2").2 = [printerTicket] ∧
    (getUserTickets [printerTicket, assignedTicket 2 "Scanner" 1] "2").2.Sublist
      [printerTicket, assignedTicket 2 "Scanner" 1] :=
  ⟨(list_by_user [printerTicket, assignedTicket 2 "Scanner" 1] "2" 2 (by decide)).1,
    by decide,
    (list_by_user [printerTicket, assignedTicket 2 "Scanner" 1] "2" 2 (by decide)).2.1⟩

/-! ## Lemmas on `String(n)` -/

theorem digitChar_small (k : Nat) (h : k < 10) :
    (Nat.digitChar k).toNat - 48 = k ∧ (Nat.digitChar k).isDigit = true := by
  interval_cases k <;> decide

/-- Reading back the decimal digits written by `Nat.toDigitsCore`. -/
theorem toDigitsCore_fold :
    ∀ (fuel n : Nat) (ds : List Char), n < fuel →
      (Nat.toDigitsCore 10 fuel n ds).foldl (fun acc c => acc * 10 + (c.toNat - 48)) 0
        = ds.foldl (fun acc c => acc * 10 + (c.toNat - 48)) n := by
  intro fuel
  induction fuel with
  | zero => intro n ds h; omega
  | succ fuel ih =>
    intro n ds h
    have hd := (digitChar_small (n % 10) (Nat.mod_lt n (by decide))).1
    by_cases h0 : n / 10 = 0
    · have hn : n % 10 = n := by omega
      simp only [Nat.toDigitsCore, h0, if_true, List.foldl_cons, hd]
      rw [hn]
      simp
    · have hlt : n / 10 < fuel := by omega
      simp only [Nat.toDigitsCore, h0, if_false]
      rw [ih (n / 10) _ hlt]
      simp only [List.foldl_cons, hd]
      have hn : n / 10 * 10 + n % 10 = n := by omega
      rw [hn]

theorem toDigitsCore_isDigit :
    ∀ (fuel n : Nat) (ds : List Char), (∀ c ∈ ds, c.isDigit = true) →
      ∀ c ∈ Nat.toDigitsCore 10 fuel n ds, c.isDigit = true := by
  intro fuel
  induction fuel with
  | zero => intro n ds hds c hc; exact hds c (by simpa [Nat.toDigitsCore] using hc)
  | succ fuel ih =>
    intro n ds hds c hc
    have hd := (digitChar_small (n % 10) (Nat.mod_lt n (by decide))).2
    have hds' : ∀ c ∈ Nat.digitChar (n % 10) :: ds, c.isDigit = true := by
      intro c hc
      rcases List.mem_cons.mp hc with rfl | hc
      · exact hd
      · exact hds c hc
    by_cases h0 : n / 10 = 0
    · simp only [Nat.toDigitsCore, h0, if_true] at hc
      exact hds' c hc
    · simp only [Nat.toDigitsCore, h0, if_false] at hc
      exact ih (n / 10) _ hds' c hc

theorem toDigits_inj {a b : Nat} (h : Nat.toDigits 10 a = Nat.toDigits 10 b) : a = b := by
  have ha := toDigitsCore_fold (a + 1) a [] (Nat.lt_succ_self a)
  have hb := toDigitsCore_fold (b + 1) b [] (Nat.lt_succ_self b)
  simp only [List.foldl_nil] at ha hb
  unfold Nat.toDigits at h
  rw [h, hb] at ha
  exact ha.symm

theorem toDigits_isDigit (a : Nat) : ∀ c ∈ Nat.toDigits 10 a, c.isDigit = true :=
  toDigitsCore_isDigit (a + 1) a [] (by simp)

theorem toString_ofNat_data (a : Nat) : (toString (Int.ofNat a)).data = Nat.toDigits 10 a := rfl

theorem toString_negSucc_data (a : Nat) :
    (toString (Int.negSucc a)).data = '-' :: Nat.toDigits 10 (a + 1) := by
  show ("-" ++ Nat.repr (a + 1)).data = _
  rw [String.data_append]
  rfl

/-- Two integers with the same decimal string are equal. -/
theorem toString_int_inj {a b : Int} (h : toString a = toString b) : a = b := by
  have hdata : (toString a).data = (toString b).data := by rw [h]
  cases a with
  | ofNat a =>
    cases b with
    | ofNat b =>
      rw [toString_ofNat_data, toString_ofNat_data] at hdata
      rw [toDigits_inj hdata]
    | negSucc b =>
      rw [toString_ofNat_data, toString_negSucc_data] at hdata
      have hmem : '-' ∈ Nat.toDigits 10 a := by rw [hdata]; exact List.mem_cons_self _ _
      have := toDigits_isDigit a '-' hmem
      exact absurd this (by decide)
  | negSucc a =>
    cases b with
    | ofNat b =>
      rw [toString_ofNat_data, toString_negSucc_data] at hdata
      have hmem : '-' ∈ Nat.toDigits 10 b := by rw [← hdata]; exact List.mem_cons_self _ _
      have := toDigits_isDigit b '-' hmem
      exact absurd this (by decide)
    | negSucc b =>
      rw [toString_negSucc_data, toString_negSucc_data] at hdata
      have h2 := toDigits_inj (List.cons.inj hdata).2
      have h3 : a = b := by omega
      rw [h3]

/-- The decimal string of an integer is not the string `null`. -/
theorem toString_int_ne_null (a : Int) : toString a ≠ "null" := by
  intro h
  have hdata : (toString a).data = ['n', 'u', 'l', 'l'] := by rw [h]
  cases a with
  | ofNat a =>
    rw [toString_ofNat_data] at hdata
    have hmem : 'n' ∈ Nat.toDigits 10 a := by rw [hdata]; exact List.mem_cons_self _ _
    have := toDigits_isDigit a 'n' hmem
    exact absurd this (by decide)
  | negSucc a =>
    rw [toString_negSucc_data] at hdata
    have := (List.cons.inj hdata).1
    exact absurd this (by decide)

/-- The test `String(t.userTo) === String(currentUser.id)` holds exactly when
`userTo` is the number `currentUser.id`. -/
theorem jsString_eq_iff (o : Option Int) (u : Int) :
    (jsString o == jsString (some u)) = true ↔ o = some u := by
  cases o with
  | none =>
    simp only [jsString, beq_iff_eq]
    constructor
    · intro h; exact absurd h.symm (toString_int_ne_null u)
    · intro h; cases h
  | some a =>
    simp only [jsString, beq_iff_eq, Option.some.injEq]
    exact ⟨toString_int_inj, fun h => by rw [h]⟩

/-! ## Lemmas on the poller -/

theorem mem_setAdd {s : List Int} {x y : Int} : y ∈ setAdd s x ↔ (y ∈ s ∨ y = x) := by
  unfold setAdd
  by_cases h : x ∈ s
  · simp only [h, if_true]
    constructor
    · intro hy; exact Or.inl hy
    · rintro (hy | hy)
      · exact hy
      · rw [hy]; exact h
  · simp only [h, if_false, List.mem_append, List.mem_singleton]

theorem mem_setAddAll {xs : List Int} : ∀ {s : List Int} {y : Int},
    y ∈ setAddAll s xs ↔ (y ∈ s ∨ y ∈ xs) := by
  induction xs with
  | nil => intro s y; simp [setAddAll]
  | cons x xs ih =>
    intro s y
    show y ∈ setAddAll (setAdd s x) xs ↔ _
    rw [ih, mem_setAdd, List.mem_cons]
    tauto

theorem newNotifs_forall₂ (clock : Nat → Int) : ∀ (k : Nat) (ts : List Ticket),
    List.Forall₂ (fun (n : Notif) (t : Ticket) =>
        n.ticketId = t.id ∧ n.title = t.title ∧ n.priority = t.priority ∧
          n.category = t.category)
      (newNotifs clock k ts) ts := by
  intro k ts
  induction ts generalizing k with
  | nil => exact List.Forall₂.nil
  | cons t ts ih => exact List.Forall₂.cons ⟨rfl, rfl, rfl, rfl⟩ (ih (k + 1))

/-- The tickets the poller takes as new: assigned to the user and not seen. -/
theorem newTickets_eq (user : CurrentUser) (seen : List Int) (tickets : List Ticket) :
    (tickets.filter (fun t => jsString t.userTo == jsString (some user.id))).filter
        (fun t => !(seen.contains t.id))
      = tickets.filter (fun t => decide (t.userTo = some user.id ∧ t.id ∉ seen)) := by
  rw [List.filter_filter]
  apply List.filter_congr
  intro t _
  by_cases h1 : t.userTo = some user.id
  · have := (jsString_eq_iff t.userTo user.id).mpr h1
    by_cases h2 : t.id ∈ seen <;> simp [this, h1, h2]
  · have : (jsString t.userTo == jsString (some user.id)) = false := by
      cases hb : (jsString t.userTo == jsString (some user.id)) with
      | false => rfl
      | true => exact absurd ((jsString_eq_iff t.userTo user.id).mp hb) h1
    simp [this, h1]

theorem myTickets_eq (user : CurrentUser) (tickets : List Ticket) :
    tickets.filter (fun t => jsString t.userTo == jsString (some user.id))
      = tickets.filter (fun t => decide (t.userTo = some user.id)) := by
  apply List.filter_congr
  intro t _
  by_cases h1 : t.userTo = some user.id
  · simp [(jsString_eq_iff t.userTo user.id).mpr h1, h1]
  · have : (jsString t.userTo == jsString (some user.id)) = false := by
      cases hb : (jsString t.userTo == jsString (some user.id)) with
      | false => rfl
      | true => exact absurd ((jsString_eq_iff t.userTo user.id).mp hb) h1
    simp [this, h1]

/-- C19: a successful poll made while the first-poll flag is still set (the
first successful poll of a session) is a baseline pass: it hands out no
notification, leaves the toast list and the panel list as they were, clears
the flag, and afterwards the seen set holds what it held before and the id of
every received ticket whose `userTo` is the current user's id. -/
theorem baseline_poll (user : CurrentUser) (clock : Nat → Int) (st : PollerState)
    (tickets : List Ticket) (hfirst : st.isFirstPoll = true) :
    (pollTickets (some user) clock st (some tickets)).2 = [] ∧
    (pollTickets (some user) clock st (some tickets)).1.toasts = st.toasts ∧
    (pollTickets (some user) clock st (some tickets)).1.allNotifs = st.allNotifs ∧
    (pollTickets (some user) clock st (some tickets)).1.isFirstPoll = false ∧
    (∀ x, x ∈ (pollTickets (some user) clock st (some tickets)).1.seenTicketIds ↔
      (x ∈ st.seenTicketIds ∨ ∃ t ∈ tickets, t.userTo = some user.id ∧ t.id = x)) := by
  simp only [pollTickets, hfirst, if_true]
  refine ⟨trivial, trivial, trivial, trivial, ?_⟩
  intro x
  rw [mem_setAddAll, myTickets_eq]
  simp only [List.mem_map, List.mem_filter, decide_eq_true_eq]
  constructor
  · rintro (h | ⟨t, ⟨ht, hu⟩, hx⟩)
    · exact Or.inl h
    · exact Or.inr ⟨t, ht, hu, hx⟩
  · rintro (h | ⟨t, ht, hu, hx⟩)
    · exact Or.inl h
    · exact Or.inr ⟨t, ⟨ht, hu⟩, hx⟩

/-- Witness for C19: the scenario of the specification, tickets 1 and 2
assigned to user 2 at the first poll of a fresh session. -/
theorem baseline_poll_witness :
    initialPoller.isFirstPoll = true ∧
    (pollTickets (some { id := 2 }) (fun _ => 1000) initialPoller
      (some [assignedTicket 1 "a" 2, assignedTicket 2 "b" 2])).2 = [] ∧
    (pollTickets (some { id := 2 }) (fun _ => 1000) initialPoller
      (some [assignedTicket 1 "a" 2, assignedTicket 2 "b" 2])).1.seenTicketIds = [1, 2] ∧
    (pollTickets (some { id := 2 }) (fun _ => 1000) initialPoller
      (some [assignedTicket 1 "a" 2, assignedTicket 2 "b" 2])).1.toasts = [] :=
  ⟨rfl,
    (baseline_poll { id := 2 } (fun _ => 1000) initialPoller
      [assignedTicket 1 "a" 2, assignedTicket 2 "b" 2] rfl).1,
    by decide,
    (baseline_poll { id := 2 } (fun _ => 1000) initialPoller
      [assignedTicket 1 "a" 2, assignedTicket 2 "b" 2] rfl).2.1⟩

/-- C20: a successful poll made after the baseline hands out one notification
for each received ticket whose `userTo` is the current user's id and whose id
is not in the seen set, in the order received, and none for any other ticket;
each notification carries its ticket's id, title, priority and category; the
notifications are appended to the toast list and put in front of the panel
list; afterwards the seen set holds what it held before and the ids of the
tickets just notified. -/
theorem later_poll (user : CurrentUser) (clock : Nat → Int) (st : PollerState)
    (tickets : List Ticket) (hlater : st.isFirstPoll = false) :
    List.Forall₂ (fun (n : Notif) (t : Ticket) =>
        n.ticketId = t.id ∧ n.title = t.title ∧ n.priority = t.priority ∧
          n.category = t.category)
      (pollTickets (some user) clock st (some tickets)).2
      (tickets.filter (fun t => decide (t.userTo = some user.id ∧ t.id ∉ st.seenTicketIds))) ∧
    (pollTickets (some user) clock st (some tickets)).1.toasts
      = st.toasts ++ (pollTickets (some user) clock st (some tickets)).2 ∧
    (pollTickets (some user) clock st (some tickets)).1.allNotifs
      = (pollTickets (some user) clock st (some tickets)).2 ++ st.allNotifs ∧
    (pollTickets (some user) clock st (some tickets)).1.isFirstPoll = false ∧
    (∀ x, x ∈ (pollTickets (some user) clock st (some tickets)).1.seenTicketIds ↔
      (x ∈ st.seenTicketIds ∨
        ∃ t ∈ tickets, t.userTo = some user.id ∧ t.id ∉ st.seenTicketIds ∧ t.id = x)) := by
  have hnew := newTickets_eq user st.seenTicketIds tickets
  simp only [pollTickets, hlater, Bool.false_eq_true, if_false, hnew]
  by_cases hlen : (tickets.filter
      (fun t => decide (t.userTo = some user.id ∧ t.id ∉ st.seenTicketIds))).length > 0
  · simp only [hlen, if_true]
    refine ⟨newNotifs_forall₂ clock 0 _, trivial, trivial, trivial, ?_⟩
    intro x
    rw [mem_setAddAll]
    simp only [List.mem_map, List.mem_filter, decide_eq_true_eq]
    constructor
    · rintro (h | ⟨t, ⟨ht, hu, hs⟩, hx⟩)
      · exact Or.inl h
      · exact Or.inr ⟨t, ht, hu, hs, hx⟩
    · rintro (h | ⟨t, ht, hu, hs, hx⟩)
      · exact Or.inl h
      · exact Or.inr ⟨t, ⟨ht, hu, hs⟩, hx⟩
  · have hnil : tickets.filter
        (fun t => decide (t.userTo = some user.id ∧ t.id ∉ st.seenTicketIds)) = [] := by
      apply List.eq_nil_of_length_eq_zero
      omega
    simp only [hlen, if_false, hnil]
    refine ⟨List.Forall₂.nil, by simp, by simp, by simp [hlater], ?_⟩
    intro x
    constructor
    · intro h; exact Or.inl h
    · rintro (h | ⟨t, ht, hu, hs, _⟩)
      · exact h
      · have hmem : t ∈ tickets.filter
            (fun t => decide (t.userTo = some user.id ∧ t.id ∉ st.seenTicketIds)) := by
          simp only [List.mem_filter, decide_eq_true_eq]
          exact ⟨ht, hu, hs⟩
        rw [hnil] at hmem
        cases hmem

/-- Witness for C20: the scenario of the specification, seen set 1, 2 and a
poll that returns tickets 1, 2, 3 assigned to user 2. -/
theorem later_poll_witness :
    (pollTickets (some { id := 2 }) (fun _ => 1000)
      { initialPoller with seenTicketIds := [1, 2], isFirstPoll := false }
      (some [assignedTicket 1 "a" 2, assignedTicket 2 "b" 2, assignedTicket 3 "c" 2])).2
      = [{ id := "notif-3-1000", ticketId := 3, title := "c", priority := "Medium",
           category := "General", timeAgo := "just now" }] ∧
    (pollTickets (some { id := 2 }) (fun _ => 1000)
      { initialPoller with seenTicketIds := [1, 2], isFirstPoll := false }
      (some [assignedTicket 1 "a" 2, assignedTicket 2 "b" 2,
        assignedTicket 3 "c" 2])).1.seenTicketIds = [1, 2, 3] ∧
    (pollTickets (some { id := 2 }) (fun _ => 1000)
      { initialPoller with seenTicketIds := [1, 2], isFirstPoll := false }
      (some [assignedTicket 1 "a" 2, assignedTicket 2 "b" 2,
        assignedTicket 3 "c" 2])).1.isFirstPoll = false :=
  ⟨by decide, by decide,
    (later_poll { id := 2 } (fun _ => 1000)
      { initialPoller with seenTicketIds := [1, 2], isFirstPoll := false }
      [assignedTicket 1 "a" 2, assignedTicket 2 "b" 2, assignedTicket 3 "c" 2] rfl).2.2.2.1⟩

/-! ## Lemmas on one run of the poller -/

theorem newNotifs_ticketIds (clock : Nat → Int) : ∀ (k : Nat) (ts : List Ticket),
    (newNotifs clock k ts).map (fun n => n.ticketId) = ts.map (fun t => t.id) := by
  intro k ts
  induction ts generalizing k with
  | nil => rfl
  | cons t ts ih =>
    show t.id :: (newNotifs clock (k + 1) ts).map (fun n => n.ticketId) = _
    rw [ih (k + 1)]
    rfl

/-- A run of the poller whose request failed, or without a user. -/
theorem pollTickets_failed (currentUser : Option CurrentUser) (clock : Nat → Int)
    (st : PollerState) : pollTickets currentUser clock st none = (st, []) := by
  cases currentUser <;> rfl

/-- The baseline run of the poller. -/
theorem pollTickets_first (user : CurrentUser) (clock : Nat → Int) (st : PollerState)
    (tickets : List Ticket) (hfirst : st.isFirstPoll = true) :
    pollTickets (some user) clock st (some tickets) =
      ({ st with
          seenTicketIds := setAddAll st.seenTicketIds
            ((tickets.filter (fun t => decide (t.userTo = some user.id))).map (fun t => t.id))
          isFirstPoll := false }, []) := by
  simp only [pollTickets, hfirst, if_true, myTickets_eq]

/-- A run of the poller after the baseline, field by field. -/
theorem pollTickets_later (user : CurrentUser) (clock : Nat → Int) (st : PollerState)
    (tickets : List Ticket) (hlater : st.isFirstPoll = false) :
    (pollTickets (some user) clock st (some tickets)).2 =
      newNotifs clock 0
        (tickets.filter (fun t => decide (t.userTo = some user.id ∧ t.id ∉ st.seenTicketIds))) ∧
    (pollTickets (some user) clock st (some tickets)).1.seenTicketIds =
      setAddAll st.seenTicketIds
        ((tickets.filter
          (fun t => decide (t.userTo = some user.id ∧ t.id ∉ st.seenTicketIds))).map
            (fun t => t.id)) ∧
    (pollTickets (some user) clock st (some tickets)).1.toasts =
      st.toasts ++ (pollTickets (some user) clock st (some tickets)).2 ∧
    (pollTickets (some user) clock st (some tickets)).1.allNotifs =
      (pollTickets (some user) clock st (some tickets)).2 ++ st.allNotifs ∧
    (pollTickets (some user) clock st (some tickets)).1.isFirstPoll = false := by
  have hnew := newTickets_eq user st.seenTicketIds tickets
  simp only [pollTickets, hlater, Bool.false_eq_true, if_false, hnew]
  cases hf : tickets.filter
      (fun t => decide (t.userTo = some user.id ∧ t.id ∉ st.seenTicketIds)) with
  | nil => simp [newNotifs, setAddAll, hlater]
  | cons a l => simp

/-! ## Claims on the notification lists -/

/-- C21 (as stated, refuted): with the same notification in the toast list and
in the panel list, the dismissal offered on the toast leaves it in the panel
list, and the dismissal offered on the panel entry leaves it in the toast
list. -/
theorem dismiss_leaves_other_list :
    sampleNotif 3 "c" ∈
      (dismissToast { initialPoller with toasts := [sampleNotif 3 "c"],
                                          allNotifs := [sampleNotif 3 "c"] }
        (sampleNotif 3 "c").id).allNotifs ∧
    sampleNotif 3 "c" ∈
      (dismissNotif { initialPoller with toasts := [sampleNotif 3 "c"],
                                          allNotifs := [sampleNotif 3 "c"] }
        (sampleNotif 3 "c").id).toasts := by
  decide

/-- C21 (amended): `dismissToast(n)` removes every notification with id `n`
from the toast list and leaves the panel list as it was; `dismissNotif(n)`
removes every notification with id `n` from the panel list and leaves the toast
list as it was; after both, in either order, neither list holds a notification
with id `n`. -/
theorem dismiss_removes_from_own_list (st : PollerState) (n : String) :
    (∀ x ∈ (dismissToast st n).toasts, x.id ≠ n) ∧
    (dismissToast st n).allNotifs = st.allNotifs ∧
    (∀ x ∈ (dismissNotif st n).allNotifs, x.id ≠ n) ∧
    (dismissNotif st n).toasts = st.toasts ∧
    (∀ x ∈ (dismissNotif (dismissToast st n) n).toasts, x.id ≠ n) ∧
    (∀ x ∈ (dismissNotif (dismissToast st n) n).allNotifs, x.id ≠ n) ∧
    dismissToast (dismissNotif st n) n = dismissNotif (dismissToast st n) n := by
  refine ⟨?_, rfl, ?_, rfl, ?_, ?_, rfl⟩
  · intro x hx
    simpa [dismissToast] using (List.mem_filter.mp hx).2
  · intro x hx
    simpa [dismissNotif] using (List.mem_filter.mp hx).2
  · intro x hx
    simpa [dismissToast, dismissNotif] using (List.mem_filter.mp hx).2
  · intro x hx
    simpa [dismissToast, dismissNotif] using (List.mem_filter.mp hx).2

/-- C22: `handleNavigate(ticketId, notifId)` navigates to `/tickets/<ticketId>`
and leaves in the toast list and in the panel list exactly the notifications
whose id is not `notifId`, in their order: each resulting list is a sublist of
the prior one, holds no notification with id `notifId`, and holds every other
notification as often as before; the seen set and the first-poll flag are
untouched. -/
theorem navigate_dismisses (st : PollerState) (ticketId : Int) (notifId : String) :
    (handleNavigate st ticketId notifId).2 = "/tickets/" ++ toString ticketId ∧
    (∀ x ∈ (handleNavigate st ticketId notifId).1.toasts, x.id ≠ notifId) ∧
    (∀ x ∈ (handleNavigate st ticketId notifId).1.allNotifs, x.id ≠ notifId) ∧
    (handleNavigate st ticketId notifId).1.toasts.Sublist st.toasts ∧
    (handleNavigate st ticketId notifId).1.allNotifs.Sublist st.allNotifs ∧
    (∀ x : Notif, x.id ≠ notifId →
      (handleNavigate st ticketId notifId).1.toasts.count x = st.toasts.count x ∧
      (handleNavigate st ticketId notifId).1.allNotifs.count x = st.allNotifs.count x) ∧
    (handleNavigate st ticketId notifId).1.seenTicketIds = st.seenTicketIds ∧
    (handleNavigate st ticketId notifId).1.isFirstPoll = st.isFirstPoll := by
  refine ⟨rfl, ?_, ?_, List.filter_sublist _, List.filter_sublist _, ?_, rfl, rfl⟩
  · intro x hx
    simpa [handleNavigate] using (List.mem_filter.mp hx).2
  · intro x hx
    simpa [handleNavigate] using (List.mem_filter.mp hx).2
  · intro x hx
    have hp : (fun t : Notif => t.id != notifId) x = true := by simpa using hx
    exact ⟨List.count_filter hp, List.count_filter hp⟩

/-- C23: the notifications a poll hands out stand in the order of their
tickets in the list received: they correspond one to one, in order, to a
sublist of that list; the toast list gets this batch appended and the panel
list gets it in front, each in that same order. -/
theorem poll_batch_keeps_order (user : CurrentUser) (clock : Nat → Int) (st : PollerState)
    (tickets : List Ticket) :
    (∃ picked : List Ticket, picked.Sublist tickets ∧
      List.Forall₂ (fun (n : Notif) (t : Ticket) => n.ticketId = t.id ∧ n.title = t.title)
        (pollTickets (some user) clock st (some tickets)).2 picked) ∧
    ((pollTickets (some user) clock st (some tickets)).2.map (fun n => n.ticketId)).Sublist
      (tickets.map (fun t => t.id)) ∧
    (pollTickets (some user) clock st (some tickets)).1.toasts =
      st.toasts ++ (pollTickets (some user) clock st (some tickets)).2 ∧
    (pollTickets (some user) clock st (some tickets)).1.allNotifs =
      (pollTickets (some user) clock st (some tickets)).2 ++ st.allNotifs := by
  cases hflag : st.isFirstPoll with
  | true =>
    rw [pollTickets_first user clock st tickets hflag]
    exact ⟨⟨[], List.nil_sublist _, List.Forall₂.nil⟩, List.nil_sublist _, by simp, by simp⟩
  | false =>
    obtain ⟨h2, _, ht, ha, _⟩ := pollTickets_later user clock st tickets hflag
    refine ⟨⟨tickets.filter
        (fun t => decide (t.userTo = some user.id ∧ t.id ∉ st.seenTicketIds)),
      List.filter_sublist tickets, ?_⟩, ?_, ht, ha⟩
    · rw [h2]
      exact List.Forall₂.imp (fun _ _ h => ⟨h.1, h.2.1⟩) (newNotifs_forall₂ clock 0 _)
    · rw [h2, newNotifs_ticketIds]
      exact (List.filter_sublist tickets).map _

/-- C24: a poll whose request fails leaves the state (seen set, first-poll
flag, toast list, panel list) exactly as it was and hands out no notification;
hence, when the flag is still set, the next successful poll is the baseline
pass: it hands out nothing, leaves both lists as they were and clears the
flag. -/
theorem failed_poll_is_swallowed (currentUser : Option CurrentUser) (clock : Nat → Int)
    (st : PollerState) :
    pollTickets currentUser clock st none = (st, []) ∧
    (st.isFirstPoll = true → ∀ (user : CurrentUser) (clock2 : Nat → Int) (tickets : List Ticket),
      (pollTickets (some user) clock2 (pollTickets (some user) clock st none).1
          (some tickets)).2 = [] ∧
      (pollTickets (some user) clock2 (pollTickets (some user) clock st none).1
          (some tickets)).1.toasts = st.toasts ∧
      (pollTickets (some user) clock2 (pollTickets (some user) clock st none).1
          (some tickets)).1.allNotifs = st.allNotifs ∧
      (pollTickets (some user) clock2 (pollTickets (some user) clock st none).1
          (some tickets)).1.isFirstPoll = false) := by
  refine ⟨pollTickets_failed currentUser clock st, ?_⟩
  intro hfirst user clock2 tickets
  rw [pollTickets_failed (some user) clock st]
  rw [pollTickets_first user clock2 st tickets hfirst]
  exact ⟨rfl, rfl, rfl, rfl⟩

/-- Witness for C24: the very first request of a session fails, the next one
returns tickets 1 and 2 of user 2 and is taken as the baseline. -/
theorem failed_poll_is_swallowed_witness :
    pollTickets (some { id := 2 }) (fun _ => 1000) initialPoller none = (initialPoller, []) ∧
    (pollTickets (some { id := 2 }) (fun _ => 2000)
      (pollTickets (some { id := 2 }) (fun _ => 1000) initialPoller none).1
      (some [assignedTicket 1 "a" 2, assignedTicket 2 "b" 2])).2 = [] :=
  ⟨(failed_poll_is_swallowed (some { id := 2 }) (fun _ => 1000) initialPoller).1,
    ((failed_poll_is_swallowed (some { id := 2 }) (fun _ => 1000) initialPoller).2 rfl
      { id := 2 } (fun _ => 2000) [assignedTicket 1 "a" 2, assignedTicket 2 "b" 2]).1⟩

/-- C25: `dismissToast(n)` and `dismissNotif(n)` leave their list as it was
when it holds no notification with id `n`, applying either twice gives what
applying it once gives, and `clearAll` on an empty panel list leaves the state
as it was (and is idempotent on any state). -/
theorem dismissal_idempotent (st : PollerState) (n : String) :
    ((∀ x ∈ st.toasts, x.id ≠ n) → dismissToast st n = st) ∧
    ((∀ x ∈ st.allNotifs, x.id ≠ n) → dismissNotif st n = st) ∧
    dismissToast (dismissToast st n) n = dismissToast st n ∧
    dismissNotif (dismissNotif st n) n = dismissNotif st n ∧
    (st.allNotifs = [] → clearAll st = st) ∧
    clearAll (clearAll st) = clearAll st := by
  refine ⟨?_, ?_, ?_, ?_, ?_, rfl⟩
  · intro h
    have hf : st.toasts.filter (fun t => t.id != n) = st.toasts := by
      apply List.filter_eq_self.mpr
      intro x hx
      simpa using h x hx
    simp only [dismissToast, hf]
  · intro h
    have hf : st.allNotifs.filter (fun t => t.id != n) = st.allNotifs := by
      apply List.filter_eq_self.mpr
      intro x hx
      simpa using h x hx
    simp only [dismissNotif, hf]
  · simp only [dismissToast, List.filter_filter, Bool.and_self]
  · simp only [dismissNotif, List.filter_filter, Bool.and_self]
  · intro h
    simp only [clearAll, ← h]

/-- Witness for C25: dismissing an id that is in neither list, and clearing an
empty panel list. -/
theorem dismissal_idempotent_witness :
    dismissToast { initialPoller with toasts := [sampleNotif 3 "c"] } "notif-9-1000"
      = { initialPoller with toasts := [sampleNotif 3 "c"] } ∧
    clearAll initialPoller = initialPoller :=
  ⟨(dismissal_idempotent { initialPoller with toasts := [sampleNotif 3 "c"] }
      "notif-9-1000").1 (by decide),
    (dismissal_idempotent initialPoller "x").2.2.2.2.1 rfl⟩

/-! ## Claims on the status select and on the user routes -/

/-- C26 (as stated, refuted): for a Closed ticket the update form lets the
user submit the status Open, which the state machine does not allow; the
Update button is shown for a Closed ticket to a user who is not its creator,
and the `Feed Back` button opens the same form for everybody. -/
theorem closed_ticket_offered_reopen :
    "Open" ∈ submittableStatuses "Closed" ∧ allowedTransitionSpec "Closed" "Open" = false ∧
    canUpdate (some 1) 2 "Closed" = true ∧ editFormOffered (some 1) 1 "Closed" = true := by
  decide

/-- C26 (amended): for a ticket whose status is Open, In Progress or Resolved,
every status other than the current one that the update form lets the user
submit is allowed by the state machine; for a Resolved ticket the form lets the
user submit no status at all; for a Closed ticket it lets the user submit each
of the four statuses. -/
theorem offered_transitions (s t : String) :
    ((s = "Open" ∨ s = "In Progress" ∨ s = "Resolved") → t ∈ submittableStatuses s → t ≠ s →
      allowedTransitionSpec s t = true) ∧
    submittableStatuses "Resolved" = [] ∧
    submittableStatuses "Closed" = ["Closed", "Open", "In Progress", "Resolved", "Closed"] := by
  refine ⟨?_, by decide, by decide⟩
  intro hs ht hne
  rcases hs with rfl | rfl | rfl
  · have h : t = "Open" ∨ t = "Open" ∨ t = "In Progress" ∨ t = "Resolved" ∨ t = "Closed" := by
      simpa [submittableStatuses, statusOptions] using ht
    rcases h with rfl | rfl | rfl | rfl | rfl
    · exact absurd rfl hne
    · exact absurd rfl hne
    · decide
    · decide
    · decide
  · have h : t = "In Progress" ∨ t = "Open" ∨ t = "In Progress" ∨ t = "Resolved" ∨
        t = "Closed" := by
      simpa [submittableStatuses, statusOptions] using ht
    rcases h with rfl | rfl | rfl | rfl | rfl
    · exact absurd rfl hne
    · decide
    · exact absurd rfl hne
    · decide
    · decide
  · have h : submittableStatuses "Resolved" = [] := by decide
    rw [h] at ht
    cases ht

/-- Witness for C26 (amended): an In Progress ticket may be sent back to
Open. -/
theorem offered_transitions_witness :
    "Open" ∈ submittableStatuses "In Progress" ∧
    allowedTransitionSpec "In Progress" "Open" = true :=
  ⟨by decide,
    (offered_transitions "In Progress" "Open").1 (Or.inr (Or.inl rfl)) (by decide)
      (by decide)⟩

/-! ## Lemmas on the user routes -/

theorem withoutPassword_no_password (obj : List (String × JsonVal)) :
    ∀ kv ∈ withoutPassword obj, kv.1 ≠ "password" := by
  intro kv hkv
  simpa [withoutPassword] using (List.mem_filter.mp hkv).2

/-- The response object of a user depends on the record only through its
public part. -/
theorem withoutPassword_publicPart (u : User) :
    withoutPassword (userObject (publicPart u)) = withoutPassword (userObject u) := by
  obtain ⟨id, username, email, password, fullName, createdAt, updatedAt⟩ := u
  cases updatedAt <;> simp [withoutPassword, userObject, publicPart, List.filter]

theorem withoutPassword_congr {u v : User} (h : publicPart u = publicPart v) :
    withoutPassword (userObject u) = withoutPassword (userObject v) := by
  rw [← withoutPassword_publicPart u, ← withoutPassword_publicPart v, h]

theorem publicPart_fields {u v : User} (h : publicPart u = publicPart v) :
    u.id = v.id ∧ u.username = v.username ∧ u.email = v.email := by
  have h1 : (publicPart u).id = (publicPart v).id := by rw [h]
  have h2 : (publicPart u).username = (publicPart v).username := by rw [h]
  have h3 : (publicPart u).email = (publicPart v).email := by rw [h]
  exact ⟨h1, h2, h3⟩

/-- In two documents with the same public parts, a search by a test that reads
public fields only finds records with the same public part. -/
theorem find?_publicPart (p : User → Bool)
    (hp : ∀ u v, publicPart u = publicPart v → p u = p v) :
    ∀ (s1 s2 : List User), s1.map publicPart = s2.map publicPart →
      (s1.find? p).map publicPart = (s2.find? p).map publicPart := by
  intro s1
  induction s1 with
  | nil =>
    intro s2 h
    cases s2 with
    | nil => rfl
    | cons b s2 => simp at h
  | cons a s1 ih =>
    intro s2 h
    cases s2 with
    | nil => simp at h
    | cons b s2 =>
      simp only [List.map_cons, List.cons.injEq] at h
      have hab := hp a b h.1
      by_cases hpa : p a = true
      · have hpb : p b = true := by rw [← hab]; exact hpa
        simp [List.find?, hpa, hpb, h.1]
      · have hpa' : p a = false := by simpa using hpa
        have hpb : p b = false := by rw [← hab]; exact hpa'
        simp only [List.find?, hpa', hpb]
        exact ih s2 h.2

theorem map_id_of_publicPart {s1 s2 : List User} (h : s1.map publicPart = s2.map publicPart) :
    s1.map (fun u => u.id) = s2.map (fun u => u.id) ∧ s1.length = s2.length := by
  have h1 : (s1.map publicPart).map (fun u => u.id) = (s2.map publicPart).map (fun u => u.id) := by
    rw [h]
  have h2 : (s1.map publicPart).length = (s2.map publicPart).length := by rw [h]
  simp only [List.map_map, List.length_map] at h1 h2
  exact ⟨h1, h2⟩

theorem getUsers_publicPart {s1 s2 : List User} (h : s1.map publicPart = s2.map publicPart) :
    getUsers s1 = getUsers s2 := by
  have h1 : (s1.map publicPart).map
        (fun u => [("id", JsonVal.num u.id), ("username", JsonVal.str u.username)])
      = (s2.map publicPart).map
        (fun u => [("id", JsonVal.num u.id), ("username", JsonVal.str u.username)]) := by
    rw [h]
  simp only [List.map_map] at h1
  exact h1

theorem getUser_publicPart {s1 s2 : List User} (h : s1.map publicPart = s2.map publicPart)
    (p : String) : getUser s1 p = getUser s2 p := by
  have hf := find?_publicPart (fun u => parseInt p == some u.id)
    (fun u v huv => by simp only [(publicPart_fields huv).1]) s1 s2 h
  simp only [getUser]
  cases h1 : s1.find? (fun u => parseInt p == some u.id) with
  | none =>
    cases h2 : s2.find? (fun u => parseInt p == some u.id) with
    | none => rfl
    | some v => rw [h1, h2] at hf; cases hf
  | some u =>
    cases h2 : s2.find? (fun u => parseInt p == some u.id) with
    | none => rw [h1, h2] at hf; cases hf
    | some v =>
      rw [h1, h2] at hf
      simp only [Option.map_some', Option.some.injEq] at hf
      simp only [withoutPassword_congr hf]

theorem registerUser_publicPart {s1 s2 : List User} (h : s1.map publicPart = s2.map publicPart)
    (h1 h2 c : String) (body : RegisterBody) :
    (registerUser h1 c s1 body).map Prod.snd = (registerUser h2 c s2 body).map Prod.snd := by
  have hf := find?_publicPart
    (fun u => some u.email == body.email || some u.username == body.username)
    (fun u v huv => by
      simp only [(publicPart_fields huv).2.1, (publicPart_fields huv).2.2]) s1 s2 h
  have hsome : (s1.find?
        (fun u => some u.email == body.email || some u.username == body.username)).isSome
      = (s2.find?
        (fun u => some u.email == body.email || some u.username == body.username)).isSome := by
    have := congrArg Option.isSome hf
    simpa using this
  obtain ⟨hids, hlen⟩ := map_id_of_publicPart h
  simp only [registerUser, hsome, hids, hlen]
  split
  · rfl
  · split
    · rfl
    · simp only [Except.map]
      congr 1

theorem loginUser_publicPart {s1 s2 : List User} (h : s1.map publicPart = s2.map publicPart)
    (cmp1 cmp2 : String → String → Bool) (body : LoginBody)
    (r1 r2 : List (String × JsonVal))
    (hr1 : loginUser cmp1 s1 body = .ok r1) (hr2 : loginUser cmp2 s2 body = .ok r2) :
    r1 = r2 := by
  have hf := find?_publicPart (fun u => some u.email == body.email)
    (fun u v huv => by simp only [(publicPart_fields huv).2.2]) s1 s2 h
  unfold loginUser at hr1 hr2
  split at hr1
  · cases hr1
  · split at hr2
    · cases hr2
    · split at hr1
      · cases hr1
      · rename_i u hu
        split at hr2
        · cases hr2
        · rename_i v hv
          rw [hu, hv] at hf
          simp only [Option.map_some', Option.some.injEq] at hf
          split at hr1
          · cases hr1
          · split at hr2
            · cases hr2
            · simp only [Except.ok.injEq] at hr1 hr2
              rw [← hr1, ← hr2]
              exact withoutPassword_congr hf

/-- C27: the user data in the successful responses of register, login,
get-user-by-id and list-users has no `password` key, and it is the same for two
documents that differ only in the stored password hashes (login compared on
requests that succeed in both; register whatever hash is computed). -/
theorem password_never_returned :
    (∀ (h c : String) (users : List User) (body : RegisterBody) (s' : List User)
      (r : List (String × JsonVal)),
      registerUser h c users body = .ok (s', r) → ∀ kv ∈ r, kv.1 ≠ "password") ∧
    (∀ (cmp : String → String → Bool) (users : List User) (body : LoginBody)
      (r : List (String × JsonVal)),
      loginUser cmp users body = .ok r → ∀ kv ∈ r, kv.1 ≠ "password") ∧
    (∀ (users : List User) (p : String) (r : List (String × JsonVal)),
      getUser users p = .ok r → ∀ kv ∈ r, kv.1 ≠ "password") ∧
    (∀ (users : List User), ∀ obj ∈ getUsers users, ∀ kv ∈ obj, kv.1 ≠ "password") ∧
    (∀ (s1 s2 : List User), s1.map publicPart = s2.map publicPart →
      getUsers s1 = getUsers s2 ∧
      (∀ p : String, getUser s1 p = getUser s2 p) ∧
      (∀ (h1 h2 c : String) (body : RegisterBody),
        (registerUser h1 c s1 body).map Prod.snd = (registerUser h2 c s2 body).map Prod.snd) ∧
      (∀ (cmp1 cmp2 : String → String → Bool) (body : LoginBody)
        (r1 r2 : List (String × JsonVal)),
        loginUser cmp1 s1 body = .ok r1 → loginUser cmp2 s2 body = .ok r2 → r1 = r2)) := by
  refine ⟨?_, ?_, ?_, ?_, ?_⟩
  · intro h c users body s' r hr
    unfold registerUser at hr
    split at hr
    · cases hr
    · split at hr
      · cases hr
      · simp only [Except.ok.injEq, Prod.mk.injEq] at hr
        rw [← hr.2]
        exact withoutPassword_no_password _
  · intro cmp users body r hr
    unfold loginUser at hr
    split at hr
    · cases hr
    · split at hr
      · cases hr
      · split at hr
        · cases hr
        · simp only [Except.ok.injEq] at hr
          rw [← hr]
          exact withoutPassword_no_password _
  · intro users p r hr
    unfold getUser at hr
    simp only at hr
    split at hr
    · cases hr
    · simp only [Except.ok.injEq] at hr
      rw [← hr]
      exact withoutPassword_no_password _
  · intro users obj hobj kv hkv
    simp only [getUsers, List.mem_map] at hobj
    obtain ⟨u, _, rfl⟩ := hobj
    simp only [List.mem_cons, List.mem_singleton, List.not_mem_nil, or_false] at hkv
    rcases hkv with rfl | rfl
    · show "id" ≠ "password"
      decide
    · show "username" ≠ "password"
      decide
  · intro s1 s2 h
    exact ⟨getUsers_publicPart h, getUser_publicPart h,
      registerUser_publicPart h, loginUser_publicPart h⟩

/-- Witness for C27: user 1 stored with two different hashes; login (with a
comparison that accepts the password in both documents) and get-by-id return
the same object, which has no `password` key. -/
theorem password_never_returned_witness :
    loginUser (fun _ _ => true) [sampleUser "hashA"]
        { email := some "ann@example.org", password := some "pw" }
      = .ok [("id", .num 1), ("username", .str "ann"), ("email", .str "ann@example.org"),
          ("fullName", .str "Ann Lee"), ("createdAt", .str "t0")] ∧
    getUser [sampleUser "hashA"] "1" = getUser [sampleUser "hashB"] "1" ∧
    getUsers [sampleUser "hashA"] = getUsers [sampleUser "hashB"] :=
  ⟨rfl,
    (password_never_returned.2.2.2.2 [sampleUser "hashA"] [sampleUser "hashB"] rfl).2.1 "1",
    (password_never_returned.2.2.2.2 [sampleUser "hashA"] [sampleUser "hashB"] rfl).1⟩

/-! ## Claims on the feedback guard -/

/-- On an integer-valued number the handler for arbitrary scalars is the
handler for integer ratings. -/
theorem submitFeedback_num (now : String) (s : List Ticket) (p : String) (r : Int) :
    submitFeedback now s p (.num r) = updateFeedbackOnly now s p r := by
  have hlt : ltOne (toNumber (.num r)) = decide (r < 1) := by
    simp only [toNumber, ltOne]
    by_cases h0 : r < 0
    · have h1 : r < 1 := by omega
      simp [h0, h1]
    · by_cases hz : r.natAbs = 0
      · have h1 : r < 1 := by omega
        simp [hz, h1]
      · have h1 : ¬ r < 1 := by omega
        simp [h0, hz, h1]
        omega
  have hgt : gtFive (toNumber (.num r)) = decide (r > 5) := by
    simp only [toNumber, gtFive]
    by_cases h0 : r < 0
    · have h1 : ¬ r > 5 := by omega
      simp [h0, h1]
    · by_cases h5 : r > 5
      · simp [h0, h5]
        omega
      · simp [h0, h5]
        omega
  simp only [submitFeedback, updateFeedbackOnly, hlt, hgt, jsNot, parseIntJson]

/-- C28 (the code at the failing inputs): the text `7abc` passes the guard
(its `ToNumber` is `NaN`, so neither comparison holds) and `parseInt` stores 7;
the boolean `true` and the text `abc` pass the guard and `null` is stored
(`parseInt` gives `NaN`); the text `0.99999999999999999999` passes as the double
`1` and 0 is stored. -/
theorem feedback_guard_lets_text_through :
    (∃ s' t', submitFeedback "t1" [resolvedTicket] "1" (.str "7abc") = .ok (s', t') ∧
      t'.feedback = some 7) ∧
    (∃ s' t', submitFeedback "t1" [resolvedTicket] "1" (.bool true) = .ok (s', t') ∧
      t'.feedback = none) ∧
    (∃ s' t', submitFeedback "t1" [resolvedTicket] "1" (.str "abc") = .ok (s', t') ∧
      t'.feedback = none) ∧
    (∃ s' t', submitFeedback "t1" [resolvedTicket] "1" (.str "0.99999999999999999999")
        = .ok (s', t') ∧ t'.feedback = some 0) :=
  ⟨⟨_, _, rfl, rfl⟩, ⟨_, _, rfl, rfl⟩, ⟨_, _, rfl, rfl⟩, ⟨_, _, rfl, rfl⟩⟩

/-! ## Lemmas on a session of the poller -/

/-- What one event does to the seen set, the first-poll flag and the
notifications handed out. -/
theorem sessionStep_facts (user : CurrentUser) (st : PollerState) (ev : SessionEvent) :
    (∀ x ∈ st.seenTicketIds, x ∈ (sessionStep user st ev).1.seenTicketIds) ∧
    (∀ n ∈ (sessionStep user st ev).2,
      n.ticketId ∉ st.seenTicketIds ∧ n.ticketId ∈ (sessionStep user st ev).1.seenTicketIds) ∧
    ((sessionStep user st ev).1.isFirstPoll = true →
      st.isFirstPoll = true ∧ (sessionStep user st ev).2 = []) ∧
    ((∀ clock L, ev = SessionEvent.poll clock (some L) → (L.map (fun t => t.id)).Nodup) →
      ((sessionStep user st ev).2.map (fun n => n.ticketId)).Nodup) := by
  cases ev with
  | dismissToast id =>
    refine ⟨fun x hx => hx, ?_, fun h => ⟨h, rfl⟩, fun _ => List.nodup_nil⟩
    intro n hn
    exact absurd hn (List.not_mem_nil n)
  | dismissNotif id =>
    refine ⟨fun x hx => hx, ?_, fun h => ⟨h, rfl⟩, fun _ => List.nodup_nil⟩
    intro n hn
    exact absurd hn (List.not_mem_nil n)
  | clearAll =>
    refine ⟨fun x hx => hx, ?_, fun h => ⟨h, rfl⟩, fun _ => List.nodup_nil⟩
    intro n hn
    exact absurd hn (List.not_mem_nil n)
  | navigate ticketId notifId =>
    refine ⟨fun x hx => hx, ?_, fun h => ⟨h, rfl⟩, fun _ => List.nodup_nil⟩
    intro n hn
    exact absurd hn (List.not_mem_nil n)
  | poll clock res =>
    cases res with
    | none =>
      show (∀ x ∈ st.seenTicketIds,
          x ∈ (pollTickets (some user) clock st none).1.seenTicketIds) ∧
        (∀ n ∈ (pollTickets (some user) clock st none).2, n.ticketId ∉ st.seenTicketIds ∧
          n.ticketId ∈ (pollTickets (some user) clock st none).1.seenTicketIds) ∧
        ((pollTickets (some user) clock st none).1.isFirstPoll = true →
          st.isFirstPoll = true ∧ (pollTickets (some user) clock st none).2 = []) ∧
        (_ → ((pollTickets (some user) clock st none).2.map (fun n => n.ticketId)).Nodup)
      rw [pollTickets_failed]
      refine ⟨fun x hx => hx, ?_, fun h => ⟨h, rfl⟩, fun _ => List.nodup_nil⟩
      intro n hn
      exact absurd hn (List.not_mem_nil n)
    | some L =>
      show (∀ x ∈ st.seenTicketIds,
          x ∈ (pollTickets (some user) clock st (some L)).1.seenTicketIds) ∧
        (∀ n ∈ (pollTickets (some user) clock st (some L)).2, n.ticketId ∉ st.seenTicketIds ∧
          n.ticketId ∈ (pollTickets (some user) clock st (some L)).1.seenTicketIds) ∧
        ((pollTickets (some user) clock st (some L)).1.isFirstPoll = true →
          st.isFirstPoll = true ∧ (pollTickets (some user) clock st (some L)).2 = []) ∧
        ((∀ clock' L', SessionEvent.poll clock (some L) = SessionEvent.poll clock' (some L') →
            (L'.map (fun t => t.id)).Nodup) →
          ((pollTickets (some user) clock st (some L)).2.map (fun n => n.ticketId)).Nodup)
      cases hflag : st.isFirstPoll with
      | true =>
        rw [pollTickets_first user clock st L hflag]
        refine ⟨?_, ?_, ?_, fun _ => List.nodup_nil⟩
        · intro x hx
          exact mem_setAddAll.mpr (Or.inl hx)
        · intro n hn
          exact absurd hn (List.not_mem_nil n)
        · intro h
          cases h
      | false =>
        obtain ⟨h2, hseen, _, _, hfl⟩ := pollTickets_later user clock st L hflag
        refine ⟨?_, ?_, ?_, ?_⟩
        · intro x hx
          rw [hseen]
          exact mem_setAddAll.mpr (Or.inl hx)
        · intro n hn
          have hmem : n.ticketId ∈ (L.filter (fun t => decide (t.userTo = some user.id ∧
              t.id ∉ st.seenTicketIds))).map (fun t => t.id) := by
            rw [← newNotifs_ticketIds clock 0, ← h2]
            exact List.mem_map.mpr ⟨n, hn, rfl⟩
          refine ⟨?_, ?_⟩
          · obtain ⟨t, ht, hid⟩ := List.mem_map.mp hmem
            have hP := (List.mem_filter.mp ht).2
            simp only [decide_eq_true_eq] at hP
            have hid' : t.id = n.ticketId := hid
            rw [← hid']
            exact hP.2
          · rw [hseen]
            exact mem_setAddAll.mpr (Or.inr hmem)
        · intro h
          rw [hfl] at h
          cases h
        · intro hd
          rw [h2, newNotifs_ticketIds]
          exact List.Nodup.sublist ((List.filter_sublist L).map _) (hd clock L rfl)

theorem sessionRun_cons (user : CurrentUser) (st : PollerState) (ev : SessionEvent)
    (evs : List SessionEvent) :
    sessionRun user st (ev :: evs) =
      ((sessionRun user (sessionStep user st ev).1 evs).1,
        (sessionStep user st ev).2 ++ (sessionRun user (sessionStep user st ev).1 evs).2) :=
  rfl

theorem sessionRun_append (user : CurrentUser) (pre post : List SessionEvent) :
    ∀ st : PollerState, sessionRun user st (pre ++ post) =
      ((sessionRun user (sessionRun user st pre).1 post).1,
        (sessionRun user st pre).2 ++ (sessionRun user (sessionRun user st pre).1 post).2) := by
  induction pre with
  | nil => intro st; simp [sessionRun]
  | cons ev pre ih =>
    intro st
    rw [List.cons_append, sessionRun_cons, ih, sessionRun_cons]
    simp [List.append_assoc]

/-- Over a sequence of events the seen set grows, every notification handed
out is for a ticket id that was not seen at the start and is seen at the end,
and, when every list received has pairwise distinct ids, no two notifications
are for the same ticket id. -/
theorem sessionRun_facts (user : CurrentUser) (evs : List SessionEvent) :
    ∀ st : PollerState,
      (∀ x ∈ st.seenTicketIds, x ∈ (sessionRun user st evs).1.seenTicketIds) ∧
      (∀ n ∈ (sessionRun user st evs).2,
        n.ticketId ∉ st.seenTicketIds ∧ n.ticketId ∈ (sessionRun user st evs).1.seenTicketIds) ∧
      ((∀ clock L, SessionEvent.poll clock (some L) ∈ evs → (L.map (fun t => t.id)).Nodup) →
        ((sessionRun user st evs).2.map (fun n => n.ticketId)).Nodup) := by
  induction evs with
  | nil =>
    intro st
    refine ⟨fun x hx => hx, ?_, fun _ => List.nodup_nil⟩
    intro n hn
    exact absurd hn (List.not_mem_nil n)
  | cons ev evs ih =>
    intro st
    obtain ⟨s1, s2, _, s4⟩ := sessionStep_facts user st ev
    obtain ⟨r1, r2, r3⟩ := ih (sessionStep user st ev).1
    rw [sessionRun_cons]
    refine ⟨fun x hx => r1 x (s1 x hx), ?_, ?_⟩
    · intro n hn
      rcases List.mem_append.mp hn with hn | hn
      · exact ⟨(s2 n hn).1, r1 _ (s2 n hn).2⟩
      · exact ⟨fun hx => (r2 n hn).1 (s1 _ hx), (r2 n hn).2⟩
    · intro hd
      show ((sessionStep user st ev).2 ++
        (sessionRun user (sessionStep user st ev).1 evs).2).map (fun n => n.ticketId) |>.Nodup
      rw [List.map_append, List.nodup_append]
      refine ⟨s4 (fun clock L h => hd clock L (by rw [h]; exact List.mem_cons_self _ _)),
        r3 (fun clock L h => hd clock L (List.mem_cons_of_mem _ h)), ?_⟩
      intro a ha hb
      obtain ⟨n, hn, rfl⟩ := List.mem_map.mp ha
      obtain ⟨m, hm, hmn⟩ := List.mem_map.mp hb
      have hmn' : m.ticketId = n.ticketId := hmn
      exact (r2 m hm).1 (by rw [hmn']; exact (s2 n hn).2)

/-- While the first-poll flag is still set, nothing has been handed out. -/
theorem sessionRun_flag (user : CurrentUser) (evs : List SessionEvent) :
    ∀ st : PollerState, (sessionRun user st evs).1.isFirstPoll = true →
      st.isFirstPoll = true ∧ (sessionRun user st evs).2 = [] := by
  induction evs with
  | nil => intro st h; exact ⟨h, rfl⟩
  | cons ev evs ih =>
    intro st h
    rw [sessionRun_cons] at h ⊢
    obtain ⟨h1, h2⟩ := ih _ h
    obtain ⟨h3, h4⟩ := (sessionStep_facts user st ev).2.2.1 h1
    refine ⟨h3, ?_⟩
    show (sessionStep user st ev).2 ++ (sessionRun user (sessionStep user st ev).1 evs).2 = []
    rw [h4, h2]
    rfl

/-- C29: in a session (a sequence of successful and failed polls, with list
operations in between) in which every list received has pairwise distinct
ids, no ticket id is the subject of two notifications; the seen set only
grows; and a ticket received in the baseline poll and assigned to the user is
never the subject of a notification. -/
theorem session_notifies_once (user : CurrentUser) (evs : List SessionEvent)
    (hdistinct : ∀ clock L, SessionEvent.poll clock (some L) ∈ evs →
      (L.map (fun t => t.id)).Nodup) :
    ((sessionRun user initialPoller evs).2.map (fun n => n.ticketId)).Nodup ∧
    (∀ pre post, evs = pre ++ post →
      ∀ x ∈ (sessionRun user initialPoller pre).1.seenTicketIds,
        x ∈ (sessionRun user initialPoller evs).1.seenTicketIds) ∧
    (∀ pre clock L post, evs = pre ++ SessionEvent.poll clock (some L) :: post →
      (sessionRun user initialPoller pre).1.isFirstPoll = true →
      ∀ t ∈ L, t.userTo = some user.id →
        ∀ n ∈ (sessionRun user initialPoller evs).2, n.ticketId ≠ t.id) := by
  refine ⟨(sessionRun_facts user evs initialPoller).2.2 hdistinct, ?_, ?_⟩
  · intro pre post hsplit x hx
    rw [hsplit, sessionRun_append]
    exact (sessionRun_facts user post _).1 x hx
  · intro pre clock L post hsplit hflag t ht hto n hn
    rw [hsplit, sessionRun_append, sessionRun_cons] at hn
    have hpre := (sessionRun_flag user pre initialPoller hflag).2
    have hstep : sessionStep user (sessionRun user initialPoller pre).1
        (SessionEvent.poll clock (some L)) =
        pollTickets (some user) clock (sessionRun user initialPoller pre).1 (some L) := rfl
    rw [hpre, hstep, pollTickets_first user clock _ L hflag] at hn
    simp only [List.nil_append] at hn
    have hseen : t.id ∈ setAddAll (sessionRun user initialPoller pre).1.seenTicketIds
        ((L.filter (fun t => decide (t.userTo = some user.id))).map (fun t => t.id)) := by
      apply mem_setAddAll.mpr
      right
      exact List.mem_map.mpr ⟨t, List.mem_filter.mpr ⟨ht, by simpa using hto⟩, rfl⟩
    intro hid
    have hnot := ((sessionRun_facts user post _).2.1 n hn).1
    apply hnot
    rw [hid]
    exact hseen

/-- Witness for C29: the session of the specification's scenario, a failed
first request, the baseline with tickets 1 and 2, a poll that returns tickets
1, 2, 3, and the same poll again. -/
theorem session_notifies_once_witness :
    ((sessionRun { id := 2 } initialPoller
      [SessionEvent.poll (fun _ => 1000) none,
       SessionEvent.poll (fun _ => 2000) (some [assignedTicket 1 "a" 2, assignedTicket 2 "b" 2]),
       SessionEvent.poll (fun _ => 3000)
        (some [assignedTicket 1 "a" 2, assignedTicket 2 "b" 2, assignedTicket 3 "c" 2]),
       SessionEvent.poll (fun _ => 4000)
        (some [assignedTicket 1 "a" 2, assignedTicket 2 "b" 2, assignedTicket 3 "c" 2])]).2.map
        (fun n => n.ticketId)) = [3] ∧
    ((sessionRun { id := 2 } initialPoller
      [SessionEvent.poll (fun _ => 1000) none,
       SessionEvent.poll (fun _ => 2000) (some [assignedTicket 1 "a" 2, assignedTicket 2 "b" 2]),
       SessionEvent.poll (fun _ => 3000)
        (some [assignedTicket 1 "a" 2, assignedTicket 2 "b" 2, assignedTicket 3 "c" 2]),
       SessionEvent.poll (fun _ => 4000)
        (some [assignedTicket 1 "a" 2, assignedTicket 2 "b" 2, assignedTicket 3 "c" 2])]).2.map
        (fun n => n.ticketId)).Nodup := by
  refine ⟨by decide, (session_notifies_once { id := 2 } _ ?_).1⟩
  intro clock L hmem
  simp only [List.mem_cons, SessionEvent.poll.injEq, Option.some.injEq, List.mem_singleton,
    List.not_mem_nil, or_false, reduceCtorEq, and_false, false_or] at hmem
  rcases hmem with ⟨_, rfl⟩ | ⟨_, rfl⟩ | ⟨_, rfl⟩ <;> decide

/-- C30: in every document reached from the empty one, the attachment list the
update handler computes (`currentImages`) and the one the add-images handler
computes (`existingImages`) are, for every stored record, the sequence the
readers' `getImages` shows; and a successful update or add-images request on
such a document keeps, in the record it writes, every path a reader saw
before. -/
theorem server_normalisation_matches_reader (ops : List Op) :
    (∀ t ∈ run [] ops,
      currentImages t = getImages (some t) ∧ existingImages t = getImages (some t) ∧
      currentImages t = Dashboard.getImages t) ∧
    (∀ (now p : String) (body : UpdateBody) (file : Option String) (s' : List Ticket)
      (t' : Ticket), updateTicket now (run [] ops) p body file = .ok (s', t') →
        ∃ (i : Nat) (t : Ticket), (run [] ops)[i]? = some t ∧ s'[i]? = some t' ∧
          ∀ x ∈ getImages (some t), x ∈ getImages (some t')) ∧
    (∀ (now p : String) (files : List String) (s' : List Ticket) (t' : Ticket),
      appendImages now (run [] ops) p files = .ok (s', t') →
        ∃ (i : Nat) (t : Ticket), (run [] ops)[i]? = some t ∧ s'[i]? = some t' ∧
          ∀ x ∈ getImages (some t), x ∈ getImages (some t')) := by
  have hinv : AttachmentsSeparate (run [] ops) :=
    attachmentsSeparate_run ops (by intro t ht; simp at ht)
  have hsame : ∀ t ∈ run [] ops, currentImages t = getImages (some t) := by
    intro t ht
    rw [getImages_eq_readerRuleSpec]
    apply currentImages_eq_readerRuleSpec
    rintro ⟨himgs, q, hq, _⟩
    rcases hinv t ht with h | h
    · rw [h] at himgs; cases himgs
    · rw [h] at hq; cases hq
  have hwritten : ∀ (t' : Ticket) (l : List String), t'.images = some l → t'.image = none →
      getImages (some t') = l := by
    intro t' l hl hi
    cases l with
    | nil => simp [getImages, hl, hi, imageSet]
    | cons a l => simp [getImages, hl]
  refine ⟨fun t ht => ⟨hsame t ht, hsame t ht, hsame t ht⟩, ?_, ?_⟩
  · intro now p body file s' t' h
    obtain ⟨i, t, _, ht, ht', hs'⟩ := updateTicket_ok h
    have hmem : t ∈ run [] ops := List.mem_iff_getElem?.mpr ⟨i, ht⟩
    refine ⟨i, t, ht, ?_, ?_⟩
    · rw [hs']
      exact List.getElem?_set_self (getElem?_lt ht)
    · intro x hx
      have himgs : t'.images = some (currentImages t ++ (file.map uploadPath).toList) := by
        rw [ht']
        cases file <;> simp
      have himg : t'.image = none := by rw [ht']
      rw [hwritten t' _ himgs himg, hsame t hmem]
      exact List.mem_append_left _ hx
  · intro now p files s' t' h
    obtain ⟨i, t, _, ht, ht', hs', _⟩ := appendImages_ok h
    have hmem : t ∈ run [] ops := List.mem_iff_getElem?.mpr ⟨i, ht⟩
    refine ⟨i, t, ht, ?_, ?_⟩
    · rw [hs']
      exact List.getElem?_set_self (getElem?_lt ht)
    · intro x hx
      have himgs : t'.images = some (existingImages t ++ files.map uploadPath) := by
        rw [ht']
      have himg : t'.image = none := by rw [ht']
      have hex : existingImages t = getImages (some t) := hsame t hmem
      rw [hwritten t' _ himgs himg, hex]
      exact List.mem_append_left _ hx

/-! ## Lemmas on the handlers on the data file -/

theorem toDouble_of_le {n : Int} (h : n.natAbs ≤ 9007199254740992) : toDouble n = n := by
  simp only [toDouble, h, if_true]

theorem Handler.fail_run {α : Type} (e : ApiError) (doc : List Ticket) :
    (Handler.fail e : Handler α) doc = (.error e, doc) := rfl

theorem Handler.pure_run {α : Type} (a : α) (doc : List Ticket) :
    (pure a : Handler α) doc = (.ok a, doc) := rfl

theorem readJSON_bind {β : Type} (f : List Ticket → Handler β) (doc : List Ticket) :
    (readJSON >>= f) doc = f doc doc := rfl

theorem writeJSON_bind {β : Type} (data : List Ticket) (f : Unit → Handler β)
    (doc : List Ticket) : (writeJSON data >>= f) doc = f () data := rfl

/-- An error of a function of the document read leaves the document read in the
file. -/
theorem onFile_error {α : Type} {doc : List Ticket} {r : Except ApiError (List Ticket × α)}
    {e : ApiError} (h : (onFile doc r).1 = .error e) : (onFile doc r).2 = doc := by
  cases r with
  | error e2 => rfl
  | ok v =>
    obtain ⟨w, a⟩ := v
    simp only [onFile] at h
    cases h

/-- The feedback handler on the file is the function `submitFeedback` of the
document read. -/
theorem updateFeedbackOnly_on_file (now p : String) (feedback : JsonVal) (doc : List Ticket) :
    Route.updateFeedbackOnly now p feedback doc = onFile doc (submitFeedback now doc p feedback) := by
  simp only [Route.updateFeedbackOnly, submitFeedback]
  split
  · rfl
  · rw [readJSON_bind]
    cases hf : findIndex (idMatches (parseInt p)) doc with
    | none => rfl
    | some i =>
      dsimp only
      cases ht : doc[i]? with
      | none => rfl
      | some t => rfl

/-- The update handler on the file is the function `updateTicket` of the
document read. -/
theorem updateTicket_on_file (now p : String) (body : UpdateBody) (file : Option String)
    (doc : List Ticket) :
    Route.updateTicket now p body file doc = onFile doc (updateTicket now doc p body file) := by
  simp only [Route.updateTicket, updateTicket]
  split
  · rfl
  · rw [readJSON_bind]
    cases hf : findIndex (idMatches (parseInt p)) doc with
    | none => rfl
    | some i =>
      dsimp only
      cases ht : doc[i]? with
      | none => rfl
      | some t => rfl

/-- The add-images handler on the file is the function `appendImages` of the
document read. -/
theorem appendImages_on_file (now p : String) (files : List String) (doc : List Ticket) :
    Route.appendImages now p files doc = onFile doc (appendImages now doc p files) := by
  simp only [Route.appendImages, appendImages]
  split
  · rfl
  · rw [readJSON_bind]
    cases hf : findIndex (idMatches (parseInt p)) doc with
    | none => rfl
    | some i =>
      dsimp only
      cases ht : doc[i]? with
      | none => rfl
      | some t => rfl

/-- The delete handler on the file is the function `deleteTicket` of the
document read. -/
theorem deleteTicket_on_file (p : String) (doc : List Ticket) :
    Route.deleteTicket p doc = onFile doc (deleteTicket doc p) := by
  simp only [Route.deleteTicket, deleteTicket]
  rw [readJSON_bind]
  cases hf : findIndex (idMatches (parseInt p)) doc with
  | none => rfl
  | some i =>
    dsimp only
    cases ht : doc[i]? with
    | none => rfl
    | some t => rfl

/-- The document in the file after a function of the document read. -/
theorem onFile_snd {α : Type} (doc : List Ticket) (r : Except ApiError (List Ticket × α)) :
    (onFile doc r).2 = match r with
      | .ok (written, _) => written
      | .error _ => doc := by
  cases r with
  | error e => rfl
  | ok v => rfl

/-- With safe integers for ids, one more than the greatest id is a double. -/
theorem nextId_exact {doc : List Ticket} (hne : doc ≠ [])
    (hsafe : ∀ v ∈ doc, isSafeInteger v.id = true) :
    toDouble (mathMax (doc.map (fun t => t.id)) + 1) = mathMax (doc.map (fun t => t.id)) + 1 := by
  have hmap : doc.map (fun t => t.id) ≠ [] := by simpa using hne
  obtain ⟨m, hm, hmid⟩ := List.mem_map.mp (mathMax_mem hmap)
  have hs := hsafe m hm
  simp only [isSafeInteger, decide_eq_true_eq] at hs
  have hmid' : m.id = mathMax (doc.map (fun t => t.id)) := hmid
  apply toDouble_of_le
  rw [← hmid']
  omega

/-- The create handler on the file, stopped by its guard. -/
theorem createTicket_on_file_guard_failed {argLimit : Nat} {c u : String} {body : CreateBody}
    {file : Option String} {doc : List Ticket}
    (h : truthy body.userId = false ∨ truthy body.title = false ∨
      truthy body.description = false ∨ truthy body.userTo = false) :
    Route.createTicket argLimit c u body file doc = (.error .validation, doc) := by
  have hg : (!truthy body.userId || !truthy body.title || !truthy body.description
      || !truthy body.userTo) = true := by
    rcases h with h | h | h | h <;> simp [h]
  simp only [Route.createTicket, hg, if_true]
  rfl

/-- The create handler on the file, behind its guard, on a document with more
records than the engine accepts arguments: the spread throws before anything
is written. -/
theorem createTicket_on_file_too_many {argLimit : Nat} {c u : String} {body : CreateBody}
    {file : Option String} {doc : List Ticket}
    (h1 : truthy body.userId = true) (h2 : truthy body.title = true)
    (h3 : truthy body.description = true) (h4 : truthy body.userTo = true)
    (hlen : argLimit < doc.length) :
    Route.createTicket argLimit c u body file doc = (.error .server, doc) := by
  have hpos : doc.length > 0 := by omega
  have hgt : doc.length > argLimit := hlen
  simp only [Route.createTicket, h1, h2, h3, h4, Bool.not_true, Bool.or_self,
    Bool.false_eq_true, if_false]
  rw [readJSON_bind]
  simp only [Route.nextId, hpos, hgt, if_true]
  rfl

/-- The create handler on the file, behind its guard, on a document within the
engine's limit. -/
theorem createTicket_on_file_passed {argLimit : Nat} {c u : String} {body : CreateBody}
    {file : Option String} {doc : List Ticket}
    (h1 : truthy body.userId = true) (h2 : truthy body.title = true)
    (h3 : truthy body.description = true) (h4 : truthy body.userTo = true)
    (hlen : doc.length ≤ argLimit) :
    Route.createTicket argLimit c u body file doc =
      (.ok { id := if doc.length > 0 then toDouble (mathMax (doc.map (fun t => t.id)) + 1)
                   else 1
             userId := parseIntField body.userId
             title := body.title.getD ""
             description := body.description.getD ""
             category := jsOr body.category "General"
             priority := jsOr body.priority "Medium"
             userTo := parseIntField body.userTo
             status := "Open"
             feedback := parseIntField body.feedback
             image := file.map uploadPath
             images := none
             createdAt := c
             updatedAt := u },
        doc ++ [{ id := if doc.length > 0 then toDouble (mathMax (doc.map (fun t => t.id)) + 1)
                        else 1
                  userId := parseIntField body.userId
                  title := body.title.getD ""
                  description := body.description.getD ""
                  category := jsOr body.category "General"
                  priority := jsOr body.priority "Medium"
                  userTo := parseIntField body.userTo
                  status := "Open"
                  feedback := parseIntField body.feedback
                  image := file.map uploadPath
                  images := none
                  createdAt := c
                  updatedAt := u }]) := by
  have hgt : ¬ doc.length > argLimit := by omega
  simp only [Route.createTicket, h1, h2, h3, h4, Bool.not_true, Bool.or_self,
    Bool.false_eq_true, if_false]
  rw [readJSON_bind]
  by_cases hpos : doc.length > 0
  · simp only [Route.nextId, hpos, hgt, if_true, if_false]
    rfl
  · simp only [Route.nextId, hpos, if_false]
    rfl

/-- The four required fields of a create request, each truthy or not. -/
theorem create_fields_cases (body : CreateBody) :
    (truthy body.userId = false ∨ truthy body.title = false ∨
      truthy body.description = false ∨ truthy body.userTo = false) ∨
    (truthy body.userId = true ∧ truthy body.title = true ∧
      truthy body.description = true ∧ truthy body.userTo = true) := by
  cases truthy body.userId <;> cases truthy body.title <;> cases truthy body.description <;>
    cases truthy body.userTo <;> simp

/-- Within the engine's limit and with safe integers for ids, the create
handler on the file is the function `createTicket` of the document read. -/
theorem createTicket_on_file {argLimit : Nat} (c u : String) (body : CreateBody)
    (file : Option String) {doc : List Ticket} (hlen : doc.length ≤ argLimit)
    (hsafe : ∀ v ∈ doc, isSafeInteger v.id = true) :
    Route.createTicket argLimit c u body file doc = onFile doc (createTicket c u doc body file) := by
  rcases create_fields_cases body with h | ⟨h1, h2, h3, h4⟩
  · rw [createTicket_on_file_guard_failed h, createTicket_guard_failed h]
    rfl
  · rw [createTicket_on_file_passed h1 h2 h3 h4 hlen, createTicket_guard_passed h1 h2 h3 h4]
    have hid : (if doc.length > 0 then toDouble (mathMax (doc.map (fun t => t.id)) + 1) else 1)
        = nextId doc := by
      by_cases hpos : doc.length > 0
      · have hne : doc ≠ [] := by
          intro he
          rw [he] at hpos
          exact absurd hpos (by decide)
        simp only [nextId, hpos, if_true]
        exact nextId_exact hne hsafe
      · simp only [nextId, hpos, if_false]
    rw [hid]
    rfl

/-- A create that succeeded on the file passed the guard on a document within
the engine's limit. -/
theorem createTicket_on_file_ok {argLimit : Nat} {c u : String} {body : CreateBody}
    {file : Option String} {doc doc' : List Ticket} {t : Ticket}
    (h : Route.createTicket argLimit c u body file doc = (.ok t, doc')) :
    (truthy body.userId = true ∧ truthy body.title = true ∧
      truthy body.description = true ∧ truthy body.userTo = true) ∧ doc.length ≤ argLimit := by
  rcases create_fields_cases body with hf | ⟨h1, h2, h3, h4⟩
  · rw [createTicket_on_file_guard_failed hf] at h
    cases h
  · refine ⟨⟨h1, h2, h3, h4⟩, ?_⟩
    by_contra hlen
    rw [createTicket_on_file_too_many h1 h2 h3 h4 (by omega)] at h
    cases h

/-- The document `step` gives is the one the handler leaves in the file (for a
create: within the engine's limit and with safe integers for ids). -/
theorem step_on_file (argLimit : Nat) (doc : List Ticket) (op : Op)
    (hlen : doc.length ≤ argLimit) (hsafe : ∀ v ∈ doc, isSafeInteger v.id = true) :
    step doc op =
      match op with
      | .create c u body file => (Route.createTicket argLimit c u body file doc).2
      | .update now p body file => (Route.updateTicket now p body file doc).2
      | .feedback now p r => (Route.updateFeedbackOnly now p (.num r) doc).2
      | .addImages now p files => (Route.appendImages now p files doc).2
      | .delete p => (Route.deleteTicket p doc).2 := by
  cases op with
  | create c u body file =>
    simp only [step]
    rw [createTicket_on_file c u body file hlen hsafe, onFile_snd]
    generalize createTicket c u doc body file = r
    cases r <;> rfl
  | update now p body file =>
    simp only [step]
    rw [updateTicket_on_file, onFile_snd]
    generalize updateTicket now doc p body file = r
    cases r <;> rfl
  | feedback now p r =>
    simp only [step]
    rw [updateFeedbackOnly_on_file, onFile_snd, submitFeedback_num]
    generalize updateFeedbackOnly now doc p r = res
    cases res <;> rfl
  | addImages now p files =>
    simp only [step]
    rw [appendImages_on_file, onFile_snd]
    generalize appendImages now doc p files = r
    cases r <;> rfl
  | delete p =>
    simp only [step]
    rw [deleteTicket_on_file, onFile_snd]
    generalize deleteTicket doc p = r
    cases r <;> rfl

/-- As long as the document is within the engine's limit, every create of the
scenario adds a record: `n` creates give a document of `n` records, up to one
more than the limit. -/
theorem afterCreates_length (argLimit : Nat) :
    ∀ n, n ≤ argLimit + 1 → (Route.afterCreates argLimit n).length = n := by
  intro n
  induction n with
  | zero => intro _; rfl
  | succ n ih =>
    intro hn
    have hlen : (Route.afterCreates argLimit n).length = n := ih (by omega)
    have hle : (Route.afterCreates argLimit n).length ≤ argLimit := by omega
    have hrun := @createTicket_on_file_passed argLimit "t0" "t0" printerDown none
      (Route.afterCreates argLimit n) (by decide) (by decide) (by decide) (by decide) hle
    show (Route.createTicket argLimit "t0" "t0" printerDown none
      (Route.afterCreates argLimit n)).2.length = n + 1
    rw [hrun]
    simp only [List.length_append, List.length_singleton, hlen]

/-! ## Claims on the handlers on the data file -/

/-- C2 (as stated, refuted): on the document holding one ticket with id
`2^53 = 9007199254740992` a create succeeds and gives the new ticket the id
`2^53` again: the sum `max + 1` is not a double and is rounded back to `2^53`.
The new id is not `max + 1` and is not greater than the stored id. -/
theorem create_repeats_id_at_rounding :
    ∃ t : Ticket,
      Route.createTicket 100000 "t1" "t1" printerDown none [largestIdTicket]
        = (.ok t, [largestIdTicket] ++ [t]) ∧
      t.id = 9007199254740992 ∧
      t.id ≠ mathMax ([largestIdTicket].map (fun v => v.id)) + 1 ∧
      ¬ (∀ v ∈ [largestIdTicket], v.id < t.id) :=
  ⟨{ printerTicket with id := 9007199254740992, createdAt := "t1", updatedAt := "t1" },
    rfl, rfl, by decide, by decide⟩

/-- C2 (amended): on a document whose ids are safe integers (magnitude below
`2^53`), a successful create stores the new record at the end of the document
with id 1 when the document read is empty, and otherwise with the id of a
stored record of greatest id plus one; the new id is strictly greater than the
id of every record read. -/
theorem create_assigns_max_plus_one (argLimit : Nat) (c u : String) (body : CreateBody)
    (file : Option String) (doc doc' : List Ticket) (t : Ticket)
    (h : Route.createTicket argLimit c u body file doc = (.ok t, doc'))
    (hsafe : ∀ v ∈ doc, isSafeInteger v.id = true) :
    doc' = doc ++ [t] ∧
    (doc = [] → t.id = 1) ∧
    (doc ≠ [] → ∃ m ∈ doc, (∀ v ∈ doc, v.id ≤ m.id) ∧ t.id = m.id + 1) ∧
    (∀ v ∈ doc, v.id < t.id) := by
  obtain ⟨_, hlen⟩ := createTicket_on_file_ok h
  rw [createTicket_on_file c u body file hlen hsafe] at h
  cases hc : createTicket c u doc body file with
  | error e =>
    rw [hc] at h
    simp only [onFile, Prod.mk.injEq] at h
    exact absurd h.1 (by intro h1; cases h1)
  | ok v =>
    obtain ⟨s', t'⟩ := v
    rw [hc] at h
    simp only [onFile, Prod.mk.injEq, Except.ok.injEq] at h
    obtain ⟨h1, h2⟩ := h
    subst h1
    subst h2
    exact createTicket_assigns c u doc body file _ _ hc

/-- Witness for C2 (amended): a create on the document holding ticket 1. -/
theorem create_assigns_max_plus_one_witness :
    ∃ (doc' : List Ticket) (t : Ticket),
      Route.createTicket 100000 "t1" "t1" printerDown none [printerTicket] = (.ok t, doc') ∧
      t.id = 2 ∧ doc' = [printerTicket] ++ [t] ∧ ∀ v ∈ [printerTicket], v.id < t.id :=
  ⟨_, _, rfl, rfl,
    (create_assigns_max_plus_one 100000 "t1" "t1" printerDown none [printerTicket] _ _ rfl
      (by decide)).1,
    (create_assigns_max_plus_one 100000 "t1" "t1" printerDown none [printerTicket] _ _ rfl
      (by decide)).2.2.2⟩

/-- C14: whenever the create, update, feedback, add-images or delete handler
answers with a validation error or with not-found, the data file holds the
document it held when the handler started: each such answer is given before
the handler's `writeJSON`. -/
theorem no_partial_success (doc : List Ticket) :
    (∀ (argLimit : Nat) (c u : String) (body : CreateBody) (file : Option String),
      ((Route.createTicket argLimit c u body file doc).1 = .error .validation ∨
        (Route.createTicket argLimit c u body file doc).1 = .error .notFound) →
      (Route.createTicket argLimit c u body file doc).2 = doc) ∧
    (∀ (now p : String) (body : UpdateBody) (file : Option String),
      ((Route.updateTicket now p body file doc).1 = .error .validation ∨
        (Route.updateTicket now p body file doc).1 = .error .notFound) →
      (Route.updateTicket now p body file doc).2 = doc) ∧
    (∀ (now p : String) (feedback : JsonVal),
      ((Route.updateFeedbackOnly now p feedback doc).1 = .error .validation ∨
        (Route.updateFeedbackOnly now p feedback doc).1 = .error .notFound) →
      (Route.updateFeedbackOnly now p feedback doc).2 = doc) ∧
    (∀ (now p : String) (files : List String),
      ((Route.appendImages now p files doc).1 = .error .validation ∨
        (Route.appendImages now p files doc).1 = .error .notFound) →
      (Route.appendImages now p files doc).2 = doc) ∧
    (∀ (p : String),
      ((Route.deleteTicket p doc).1 = .error .validation ∨
        (Route.deleteTicket p doc).1 = .error .notFound) →
      (Route.deleteTicket p doc).2 = doc) := by
  refine ⟨?_, ?_, ?_, ?_, ?_⟩
  · intro argLimit c u body file h
    rcases create_fields_cases body with hf | ⟨h1, h2, h3, h4⟩
    · rw [createTicket_on_file_guard_failed hf]
    · rcases Nat.lt_or_ge argLimit doc.length with hlt | hge
      · rw [createTicket_on_file_too_many h1 h2 h3 h4 hlt]
      · rw [createTicket_on_file_passed h1 h2 h3 h4 hge] at h
        rcases h with h | h <;> cases h
  · intro now p body file h
    rw [updateTicket_on_file] at h ⊢
    rcases h with h | h <;> exact onFile_error h
  · intro now p feedback h
    rw [updateFeedbackOnly_on_file] at h ⊢
    rcases h with h | h <;> exact onFile_error h
  · intro now p files h
    rw [appendImages_on_file] at h ⊢
    rcases h with h | h <;> exact onFile_error h
  · intro p h
    rw [deleteTicket_on_file] at h ⊢
    rcases h with h | h <;> exact onFile_error h

/-- Witness for C14: on the file holding ticket 1, a create without title, a
status-only update, a rating 6, a rating for ticket 7, an add-images request
without files and a delete of ticket 7 are refused and leave ticket 1 in the
file. -/
theorem no_partial_success_witness :
    (Route.createTicket 100000 "t1" "t1" { printerDown with title := none } none
      [printerTicket]).2 = [printerTicket] ∧
    (Route.updateTicket "t1" "1" statusOnly none [printerTicket]).2 = [printerTicket] ∧
    (Route.updateFeedbackOnly "t1" "1" (.num 6) [printerTicket]).2 = [printerTicket] ∧
    (Route.updateFeedbackOnly "t1" "7" (.num 4) [printerTicket]).2 = [printerTicket] ∧
    (Route.appendImages "t1" "1" [] [printerTicket]).2 = [printerTicket] ∧
    (Route.deleteTicket "7" [printerTicket]).2 = [printerTicket] :=
  ⟨(no_partial_success [printerTicket]).1 100000 "t1" "t1" { printerDown with title := none }
      none (Or.inl rfl),
    (no_partial_success [printerTicket]).2.1 "t1" "1" statusOnly none (Or.inl rfl),
    (no_partial_success [printerTicket]).2.2.1 "t1" "1" (.num 6) (Or.inl rfl),
    (no_partial_success [printerTicket]).2.2.1 "t1" "7" (.num 4) (Or.inr rfl),
    (no_partial_success [printerTicket]).2.2.2.1 "t1" "1" [] (Or.inl rfl),
    (no_partial_success [printerTicket]).2.2.2.2 "7" (Or.inr rfl)⟩

/-- C15 (the code): create answers with a validation error exactly when one of
userId, title, description, userTo is absent or empty.  When none is and the
document holds no more records than the engine accepts arguments in one call,
it succeeds: the file then holds the document read with the returned ticket
appended at the end, and the ticket has status `Open`, the supplied title and
description, the category `General` and the priority `Medium` unless the
request supplies a non-empty one.  When none is and the document holds more
records than that, the spread in `Math.max(...)` throws, the request is
answered with status 500 and nothing is appended; such a document is reached
from the empty one by creates alone, one more than the limit. -/
theorem create_validation (argLimit : Nat) (c u : String) (body : CreateBody)
    (file : Option String) (doc : List Ticket) :
    ((Route.createTicket argLimit c u body file doc).1 = .error .validation ↔
      ((body.userId = none ∨ body.userId = some "") ∨
        (body.title = none ∨ body.title = some "") ∨
        (body.description = none ∨ body.description = some "") ∨
        (body.userTo = none ∨ body.userTo = some ""))) ∧
    (¬ ((body.userId = none ∨ body.userId = some "") ∨
        (body.title = none ∨ body.title = some "") ∨
        (body.description = none ∨ body.description = some "") ∨
        (body.userTo = none ∨ body.userTo = some "")) →
      doc.length ≤ argLimit →
      ∃ t : Ticket, Route.createTicket argLimit c u body file doc = (.ok t, doc ++ [t]) ∧
        t.status = "Open" ∧ some t.title = body.title ∧ some t.description = body.description ∧
        ((body.category = none ∨ body.category = some "") → t.category = "General") ∧
        (∀ v, body.category = some v → v ≠ "" → t.category = v) ∧
        ((body.priority = none ∨ body.priority = some "") → t.priority = "Medium") ∧
        (∀ v, body.priority = some v → v ≠ "" → t.priority = v)) ∧
    (¬ ((body.userId = none ∨ body.userId = some "") ∨
        (body.title = none ∨ body.title = some "") ∨
        (body.description = none ∨ body.description = some "") ∨
        (body.userTo = none ∨ body.userTo = some "")) →
      argLimit < doc.length →
      Route.createTicket argLimit c u body file doc = (.error .server, doc)) ∧
    ((Route.afterCreates argLimit (argLimit + 1)).length = argLimit + 1 ∧
      Route.createTicket argLimit c u printerDown none
          (Route.afterCreates argLimit (argLimit + 1))
        = (.error .server, Route.afterCreates argLimit (argLimit + 1))) := by
  have hiff : (truthy body.userId = false ∨ truthy body.title = false ∨
      truthy body.description = false ∨ truthy body.userTo = false) ↔
      ((body.userId = none ∨ body.userId = some "") ∨
        (body.title = none ∨ body.title = some "") ∨
        (body.description = none ∨ body.description = some "") ∨
        (body.userTo = none ∨ body.userTo = some "")) := by
    simp only [truthy_eq_false_iff]
  have hall : ¬ ((body.userId = none ∨ body.userId = some "") ∨
        (body.title = none ∨ body.title = some "") ∨
        (body.description = none ∨ body.description = some "") ∨
        (body.userTo = none ∨ body.userTo = some "")) →
      (truthy body.userId = true ∧ truthy body.title = true ∧
        truthy body.description = true ∧ truthy body.userTo = true) := by
    intro hnot
    rcases create_fields_cases body with hf | hp
    · exact absurd (hiff.mp hf) hnot
    · exact hp
  have hreach := afterCreates_length argLimit (argLimit + 1) (Nat.le_refl _)
  refine ⟨⟨?_, ?_⟩, ?_, ?_, hreach, ?_⟩
  · intro h
    by_contra hnot
    obtain ⟨h1, h2, h3, h4⟩ := hall hnot
    rcases Nat.lt_or_ge argLimit doc.length with hlt | hge
    · rw [createTicket_on_file_too_many h1 h2 h3 h4 hlt] at h
      cases h
    · rw [createTicket_on_file_passed h1 h2 h3 h4 hge] at h
      cases h
  · intro h
    rw [createTicket_on_file_guard_failed (hiff.mpr h)]
  · intro hnot hlen
    obtain ⟨h1, h2, h3, h4⟩ := hall hnot
    obtain ⟨vt, hvt, _⟩ := truthy_iff.mp h2
    obtain ⟨vd, hvd, _⟩ := truthy_iff.mp h3
    refine ⟨_, createTicket_on_file_passed h1 h2 h3 h4 hlen, rfl, ?_, ?_, ?_, ?_, ?_, ?_⟩
    · show some (body.title.getD "") = body.title
      rw [hvt]; rfl
    · show some (body.description.getD "") = body.description
      rw [hvd]; rfl
    · intro h
      exact jsOr_unsupplied h
    · intro v hv hne
      show jsOr body.category "General" = v
      rw [hv]; exact jsOr_some hne
    · intro h
      exact jsOr_unsupplied h
    · intro v hv hne
      show jsOr body.priority "Medium" = v
      rw [hv]; exact jsOr_some hne
  · intro hnot hlen
    obtain ⟨h1, h2, h3, h4⟩ := hall hnot
    exact createTicket_on_file_too_many h1 h2 h3 h4 hlen
  · exact createTicket_on_file_too_many (by decide) (by decide) (by decide) (by decide)
      (by omega)

end TicketStore
